import Mathlib

/-!
# HF-Receiver firmware (rev1.1): receiver DSP chain and Si5351 driver

Shallow embedding of `recv.cpp` and `si5351.cpp`.

Conventions of the embedding

* The target is an 8-bit AVR: `int` is 16 bits wide, `long` is 32 bits wide.
  Signed values are `Int`, unsigned values are `Nat`; every conversion to a
  fixed-width type is an explicit wrap (`i8`, `i16`, `i32`, `% 256`, ...).
  Signed overflow is modelled as the two's-complement wrap avr-gcc produces.
  Because wrapping commutes with `+`, `-` and `*`, an expression made only of
  these is wrapped once, where its value is stored, compared, shifted or
  divided.
* `>>` on a signed value is the arithmetic shift (`sar`, floor division by a
  power of two); `/` on signed values truncates toward zero (`Int.tdiv`).
* Function-local `static` variables and the `extern` configuration bytes are
  fields of the state record `RECV`, passed explicitly.
* The hardware is reduced to what the DSP chain observes: the ADC data
  register is an argument of `get_adc`, the PWM compare register `OCR1AL` is a
  field, and the calls made are recorded, in program order, in the ghost
  field `trace`.
-/

namespace HFReceiver

/-! ## Machine integers -/

/-- Conversion to `int8_t`. -/
def i8 (x : Int) : Int := (x + 128) % 256 - 128

/-- Conversion to `int16_t` (also the result type of `int` arithmetic). -/
def i16 (x : Int) : Int := (x + 32768) % 65536 - 32768

/-- Conversion to `int32_t`. -/
def i32 (x : Int) : Int := (x + 2147483648) % 4294967296 - 2147483648

/-- Conversion to `int64_t`. -/
def i64 (x : Int) : Int := (x + 9223372036854775808) % 18446744073709551616 - 9223372036854775808

/-- Conversion of a signed value to `uint8_t`. -/
def toU8 (x : Int) : Nat := (x % 256).toNat

/-- Conversion of a signed value to `uint16_t`. -/
def toU16 (x : Int) : Nat := (x % 65536).toNat

/-- Conversion of a signed value to `uint32_t`. -/
def toU32 (x : Int) : Nat := (x % 4294967296).toNat

/-- Arithmetic right shift of a signed value. -/
def sar (x : Int) (k : Nat) : Int := x / 2 ^ k

/-- Left shift of a signed value, before wrapping. -/
def shl (x : Int) (k : Nat) : Int := x * 2 ^ k

/-- The Arduino core `abs(x)`, `((x)>0?(x):-(x))`, on a 16-bit `int`. -/
def abs16 (x : Int) : Int := if x > 0 then x else i16 (-x)

/-! ## Constants of `globals.h` -/

def QSDQ : Nat := 21
def QSDI : Nat := 20
def USB : Nat := 0
def LSB : Nat := 1
def CW : Nat := 2
def BW1500 : Nat := 0
def BW2000 : Nat := 1
def BW2500 : Nat := 2
def BWFULL : Nat := 3
def FAST : Nat := 1
def SLOW : Nat := 2
def INT16_MAX : Int := 32767

/-! ## Receiver state -/

/-- Ghost record of the calls made by the DSP chain. -/
inductive Event where
  | get_adc (adcpin : Nat)
  | process (i q : Int)
  | dac_upsample (ac : Int)
  | load_dac_audio (duty : Nat)
  | store_c12 (v : Int)
  deriving DecidableEq

/-- The `extern` configuration bytes, the file-scope statics, the
function-local statics of `recv.cpp`, and the PWM compare register. -/
structure RECV where
  radiomode : Nat
  volume : Nat
  filterbw : Nat
  dg_attn : Nat
  agc : Nat
  rxstate : Nat
  ocomb : Int
  ozi1 : Int
  ozi2 : Int
  /-- `v[7]` of `hilb_i` -/
  hilb_i_v : List Int
  /-- `v[14]` of `hilb_q` -/
  hilb_q_v : List Int
  /-- `gain` of `agc_fast` -/
  gain : Int
  /-- `ozd1`, `ozd2` of `dac_upsample` -/
  ozd1 : Int
  ozd2 : Int
  /-- `ac3` of `process` -/
  ac3 : Int
  /-- `prev_adc` of `sample_corr` -/
  prev_adc : Int
  /-- `c[13]` of `sample_dsp` -/
  c0 : Int
  c1 : Int
  c2 : Int
  c3 : Int
  c4 : Int
  c5 : Int
  c6 : Int
  c7 : Int
  c8 : Int
  c9 : Int
  c10 : Int
  c11 : Int
  c12 : Int
  /-- `x[NTAPS]` of `filter` -/
  x : List Int
  OCR1AL : Nat
  trace : List Event

/-- Cold start: every static is zero-initialised except `gain = 1024`. -/
def RECV.init (radiomode volume filterbw dg_attn agc : Nat) : RECV :=
  { radiomode := radiomode, volume := volume, filterbw := filterbw,
    dg_attn := dg_attn, agc := agc, rxstate := 0,
    ocomb := 0, ozi1 := 0, ozi2 := 0,
    hilb_i_v := List.replicate 7 0, hilb_q_v := List.replicate 14 0,
    gain := 1024, ozd1 := 0, ozd2 := 0, ac3 := 0, prev_adc := 0,
    c0 := 0, c1 := 0, c2 := 0, c3 := 0, c4 := 0, c5 := 0, c6 := 0,
    c7 := 0, c8 := 0, c9 := 0, c10 := 0, c11 := 0, c12 := 0,
    x := List.replicate 11 0, OCR1AL := 0, trace := [] }

/-! ## `recv.cpp`

Each function that only touches its own statics takes them as arguments and
returns their new values next to its result; `process` and `sample_dsp`, which
thread all of them, work on `RECV`. -/

/-- `RECV::hilb_i`: 7-sample delay line; returns the result and the new `v`. -/
def hilb_i (v : List Int) (ac : Int) : Int × List Int :=
  let v := (List.range 6).map (fun i => v.getD (i + 1) 0) ++ [ac]
  (v.getD 0 0, v)

/-- `RECV::hilb_q`: 14-sample delay line and Hilbert combination; returns the
result and the new `v`. -/
def hilb_q (v : List Int) (ac : Int) : Int × List Int :=
  let v := (List.range 13).map (fun i => v.getD (i + 1) 0) ++ [ac]
  let V (n : Nat) : Int := v.getD n 0
  (i16 (Int.tdiv (i16 ((V 0 - V 13) + (V 2 - V 12) * 4)) 64
        + Int.tdiv (i16 ((V 4 - V 10) + (V 6 - V 8))) 8
        + Int.tdiv (i16 ((V 4 - V 10) * 5 - (V 6 - V 8))) 128
        + Int.tdiv (i16 (V 6 - V 8)) 2),
   v)

/-- `RECV::agc_fast`; returns `agcout` and the new `gain`. -/
def agc_fast (gain : Int) (inp : Int) : Int × Int :=
  let agcout := if gain ≥ 1024 then i16 (sar gain 10 * inp) else inp
  let accum := i16 (1 - abs16 (sar agcout 10))
  let gain := if i16 (INT16_MAX - gain) > accum then i16 (gain + accum) else gain
  let gain := if gain < 1 then 1 else gain
  (agcout, gain)

/-- The values `dac_upsample` leaves in `ocomb`, `ozd1`, `ozd2`. -/
structure Comb where
  ocomb : Int
  ozd1 : Int
  ozd2 : Int
  deriving DecidableEq

/-- `RECV::dac_upsample`: comb section. -/
def dac_upsample (ozd1 ozd2 : Int) (ac : Int) : Comb :=
  let od1 := i16 (ac - ozd1)
  { ocomb := i16 (od1 - ozd2), ozd2 := od1, ozd1 := ac }

/-- The end of `RECV::filter`: `gain = 11 - dg_attn; y2 = y >> gain`. -/
def filter_out (dg_attn : Nat) (y : Int) : Int :=
  let gain := toU8 (11 - (dg_attn : Int))
  i16 (sar y gain)

/-- `RECV::filter`: 11-tap symmetric FIR in shift-and-add form; returns the
result and the new `x`. -/
def filter (filterbw dg_attn : Nat) (x : List Int) (ac : Int) : Int × List Int :=
  let x := ac :: (List.range 10).map (fun n => x.getD n 0)
  let X (n : Nat) : Int := x.getD n 0
  let y : Int := 0
  if filterbw = BW1500 then
    let t := i32 (X 0 + X 10)
    let y := i32 (y + (shl t 2 + shl t 1))
    let t := i32 (X 1 + X 9)
    let y := i32 (y - (shl t 5 + shl t 2 + shl t 1))
    let t := i32 (X 2 + X 8)
    let y := i32 (y - (shl t 6 + shl t 5 + shl t 4 + shl t 2))
    let t := i32 (X 3 + X 7)
    let y := i32 (y + (shl t 4 + shl t 3 + shl t 1))
    let t := i32 (X 4 + X 6)
    let y := i32 (y + (shl t 10 + shl t 6 + shl t 5 + shl t 4))
    let t := X 5
    let y := i32 (y + (shl t 11 + shl t 4))
    (filter_out dg_attn y, x)
  else if filterbw = BW2000 then
    let t := i32 (X 0 + X 10)
    let y := i32 (y + (shl t 1 + t))
    let t := i32 (X 1 + X 9)
    let y := i32 (y + (shl t 5 + shl t 3))
    let t := i32 (X 2 + X 8)
    let y := i32 (y - (shl t 5 + shl t 4 + shl t 3 + shl t 1))
    let t := i32 (X 3 + X 7)
    let y := i32 (y - (shl t 8 + shl t 4 + shl t 2))
    let t := i32 (X 4 + X 6)
    let y := i32 (y + (shl t 10 + shl t 5 + shl t 4))
    let t := X 5
    let y := i32 (y + (shl t 11 + shl t 8 + shl t 7 + shl t 6 + shl t 5))
    (filter_out dg_attn y, x)
  else if filterbw = BW2500 then
    let t := i32 (X 0 + X 10)
    let y := i32 (y - (shl t 4 + shl t 3))
    let t := i32 (X 1 + X 9)
    let y := i32 (y - shl t 2)
    let t := i32 (X 2 + X 8)
    let y := i32 (y + (shl t 7 + shl t 4))
    let t := i32 (X 3 + X 7)
    let y := i32 (y - (shl t 8 + shl t 7 + shl t 6 + shl t 5))
    let t := i32 (X 4 + X 6)
    let y := i32 (y + (shl t 9 + shl t 8 + shl t 7 + shl t 4))
    let t := X 5
    let y := i32 (y + (shl t 11 + shl t 9 + shl t 8 + shl t 7 + shl t 6))
    (filter_out dg_attn y, x)
  else if filterbw = BWFULL then
    let t := i32 (X 0 + X 10)
    let y := i32 (y + (shl t 7 + shl t 5 + shl t 3))
    let t := i32 (X 1 + X 9)
    let y := i32 (y - (shl t 7 + shl t 5 + shl t 4 + shl t 3))
    let t := i32 (X 2 + X 8)
    let y := i32 (y + (shl t 7 + shl t 6 + shl t 2 + shl t 1))
    let t := i32 (X 3 + X 7)
    let y := i32 (y - (shl t 7 + shl t 6 + shl t 4 + shl t 1))
    let t := i32 (X 4 + X 6)
    let y := i32 (y + (shl t 7 + shl t 6 + shl t 4 + shl t 3 + shl t 1))
    let t := X 5
    let y := i32 (y + (shl t 11 + shl t 10 + shl t 9 + shl t 7))
    (filter_out dg_attn y, x)
  else
    (ac, x)

/-- `RECV::process`: one demodulation step on a decimated I/Q pair. The shift
count `16 - volume` is meaningful for `volume` in 0..16 (a larger `volume`
is a negative count in C; here the count is then 0). The two events are the
entry into `process` and its call `dac_upsample(ac3)`. -/
def process (s : RECV) (i q : Int) : RECV :=
  let comb := dac_upsample s.ozd1 s.ozd2 s.ac3
  let hq := hilb_q s.hilb_q_v (sar q 2)
  let qh := hq.1
  let hi := hilb_i s.hilb_i_v (sar i 2)
  let ih := hi.1
  let ac := if s.radiomode = USB then i16 (-(ih - qh)) else i16 (-(ih + qh))
  let f := filter s.filterbw s.dg_attn s.x ac
  let ac := f.1
  let g := if s.agc = FAST then agc_fast s.gain ac else (ac, s.gain)
  let ac := g.1
  let ac := sar ac (16 - s.volume)
  { s with
    ocomb := comb.ocomb, ozd1 := comb.ozd1, ozd2 := comb.ozd2,
    hilb_q_v := hq.2, hilb_i_v := hi.2, x := f.2, gain := g.2,
    ac3 := min (max ac (-512)) 511,
    trace := s.trace ++ [Event.process i q, Event.dac_upsample s.ac3] }

/-- `RECV::get_adc`: `ADC - 511`, where `ADC` is the content of the 16-bit
ADC data register at the time of the read (`adcpin` only selects the input
multiplexer channel). -/
def get_adc (_adcpin : Nat) (ADC : Nat) : Int :=
  i16 ((ADC : Int) - 511)

/-- `RECV::sample_corr`: `return (prev_adc + ac) / 2, prev_adc = ac;`.
The operand of `return` is a comma expression: its left operand is evaluated
and discarded, its value is that of the assignment `prev_adc = ac`.
Returns the result and the new `prev_adc`. -/
def sample_corr (prev_adc : Int) (ac : Int) : Int × Int :=
  let _discarded := Int.tdiv (i16 (prev_adc + ac)) 2
  (ac, ac)

/-- The values `load_dac_audio` leaves in `ozi1`, `ozi2`, `OCR1AL`. -/
structure Integ where
  ozi1 : Int
  ozi2 : Int
  OCR1AL : Nat
  deriving DecidableEq

/-- `RECV::load_dac_audio`: integrator section and PWM duty. -/
def load_dac_audio (ocomb ozi1 ozi2 : Int) : Integ :=
  let ozi1 := i16 (ocomb + ozi1)
  let ozi2 := i16 (ozi1 + ozi2)
  { ozi1 := ozi1, ozi2 := ozi2, OCR1AL := toU8 (min (max (sar ozi2 5 + 128) 0) 255) }

/-- The branch of `RECV::sample_dsp` taken for the value of `rxstate`; `ADC` is
what the ADC data register reads during this call. The element of `c` written
last in a branch is never read again in that branch, so each branch reads the
old `c` and writes once. -/
def sample_dsp_dispatch (s : RECV) (ADC : Nat) : RECV :=
  if s.rxstate = 0 then
    let sc := sample_corr s.prev_adc (get_adc QSDI ADC)
    let ac := sc.1
    let i_s1za0 := sar (i16 (ac + (s.c0 + s.c1) * 3 + s.c2)) 1
    let ac2 := i16 (i_s1za0 + (s.c3 + s.c4) * 3 + s.c5)
    process { s with prev_adc := sc.2, c0 := ac, c3 := i_s1za0,
                     trace := s.trace ++ [Event.get_adc QSDI] } ac2 s.c12
  else if s.rxstate = 1 then
    let ac := get_adc QSDQ ADC
    let o := load_dac_audio s.ocomb s.ozi1 s.ozi2
    { s with ozi1 := o.ozi1, ozi2 := o.ozi2, OCR1AL := o.OCR1AL,
             c8 := s.c7, c7 := ac,
             trace := s.trace ++ [Event.get_adc QSDQ, Event.load_dac_audio o.OCR1AL] }
  else if s.rxstate = 2 then
    let sc := sample_corr s.prev_adc (get_adc QSDI ADC)
    let ac := sc.1
    { s with prev_adc := sc.2, c2 := s.c1, c1 := ac,
             trace := s.trace ++ [Event.get_adc QSDI] }
  else if s.rxstate = 3 then
    let ac := get_adc QSDQ ADC
    let o := load_dac_audio s.ocomb s.ozi1 s.ozi2
    { s with ozi1 := o.ozi1, ozi2 := o.ozi2, OCR1AL := o.OCR1AL,
             c11 := s.c10, c10 := sar (i16 (ac + (s.c6 + s.c7) * 3 + s.c8)) 1, c6 := ac,
             trace := s.trace ++ [Event.get_adc QSDQ, Event.load_dac_audio o.OCR1AL] }
  else if s.rxstate = 4 then
    let sc := sample_corr s.prev_adc (get_adc QSDI ADC)
    let ac := sc.1
    { s with prev_adc := sc.2,
             c5 := s.c4, c4 := sar (i16 (ac + (s.c0 + s.c1) * 3 + s.c2)) 1, c0 := ac,
             trace := s.trace ++ [Event.get_adc QSDI] }
  else if s.rxstate = 5 then
    let ac := get_adc QSDQ ADC
    let o := load_dac_audio s.ocomb s.ozi1 s.ozi2
    { s with ozi1 := o.ozi1, ozi2 := o.ozi2, OCR1AL := o.OCR1AL,
             c8 := s.c7, c7 := ac,
             trace := s.trace ++ [Event.get_adc QSDQ, Event.load_dac_audio o.OCR1AL] }
  else if s.rxstate = 6 then
    let sc := sample_corr s.prev_adc (get_adc QSDI ADC)
    let ac := sc.1
    { s with prev_adc := sc.2, c2 := s.c1, c1 := ac,
             trace := s.trace ++ [Event.get_adc QSDI] }
  else if s.rxstate = 7 then
    let ac := get_adc QSDQ ADC
    let o := load_dac_audio s.ocomb s.ozi1 s.ozi2
    let q_s1za0 := sar (i16 (ac + (s.c6 + s.c7) * 3 + s.c8)) 1
    let c12 := i16 (q_s1za0 + (s.c9 + s.c10) * 3 + s.c11)
    { s with ozi1 := o.ozi1, ozi2 := o.ozi2, OCR1AL := o.OCR1AL,
             c6 := ac, c12 := c12, c9 := q_s1za0,
             trace := s.trace ++ [Event.get_adc QSDQ, Event.load_dac_audio o.OCR1AL,
                                  Event.store_c12 c12] }
  else
    { s with rxstate := 0 }

/-- `RECV::sample_dsp`: the 8-phase sample state machine: the branch for
`rxstate`, then `rxstate++; if (rxstate > 7) rxstate=0;`. -/
def sample_dsp (s : RECV) (ADC : Nat) : RECV :=
  let s := sample_dsp_dispatch s ADC
  let rxstate := (s.rxstate + 1) % 256
  { s with rxstate := if rxstate > 7 then 0 else rxstate }

/-- Consecutive `sample_dsp` calls, one ADC reading per call. -/
def run (s : RECV) : List Nat → RECV
  | [] => s
  | ADC :: rest => run (sample_dsp s ADC) rest

/-- The phase (`rxstate` on entry) of each call of a run. -/
def phases (s : RECV) : List Nat → List Nat
  | [] => []
  | ADC :: rest => s.rxstate :: phases (sample_dsp s ADC) rest

/-! ## `si5351.cpp` -/

def PLLA : Nat := 0
def PLLB : Nat := 1
def MSNA : Int := -2
def MSNB : Int := -1
def MS0 : Int := 0
def MS1 : Int := 1
def MS2 : Int := 2

/-- `#define _MSC 0x10000` -/
def _MSC : Nat := 0x10000

/-- `BB0(x)`, `BB1(x)`, `BB2(x)`: byte 0, 1, 2 of `x`. -/
def BB0 (x : Nat) : Nat := x % 256
def BB1 (x : Nat) : Nat := (x >>> 8) % 256
def BB2 (x : Nat) : Nat := (x >>> 16) % 256

/-- The fields of `class SI5351`, and the register writes handed to
`i2c0.write` (register address, data bytes), oldest first. -/
structure SI5351 where
  _fout : Int
  _div : Nat
  _msa128min512 : Nat
  _msb128 : Nat
  pll_regs : List Nat
  fxtal : Nat
  fxadj : Int
  iqmsa : Int
  bus : List (Nat × List Nat)

/-- `SI5351::SendRegister(reg, data, n)`. -/
def SendRegisters (s : SI5351) (reg : Nat) (data : List Nat) : SI5351 :=
  { s with bus := s.bus ++ [(reg, data)] }

/-- `SI5351::SendRegister(reg, data)`. -/
def SendRegister (s : SI5351) (reg : Nat) (data : Nat) : SI5351 :=
  { s with bus := s.bus ++ [(reg, [data])] }

/-- `SI5351::freq_calc_fast`. -/
def freq_calc_fast (s : SI5351) (df : Int) : SI5351 :=
  let msb128 := toU32 ((s._msb128 : Int)
    + Int.tdiv (i64 (i32 ((s._div : Int) * df) * (_MSC : Int) * 128)) (s.fxtal : Int))
  let msp1 := (s._msa128min512 + msb128 / _MSC) % 65536
  let msp2 := msb128 % 65536
  let r := s.pll_regs.set 4 (BB0 msp1)
  let r := r.set 5 ((_MSC &&& 0xF0000) >>> 12)
  let r := r.set 6 (BB1 msp2)
  let r := r.set 7 (BB0 msp2)
  { s with pll_regs := r }

/-- `SI5351::ms`: encode `div_nom / div_denom` into a multisynth register
block and write it. -/
def ms (s : SI5351) (n : Int) (div_nom div_denom : Nat) (pll _int phase rdiv : Nat) : SI5351 :=
  let msa := (div_nom / div_denom) % 65536
  let _int := if msa = 4 then 1 else _int
  let msb := if _int ≠ 0 then 0 else ((div_nom % div_denom) * _MSC / div_denom) % 4294967296
  let msc := if _int ≠ 0 then 1 else _MSC
  let msp1 := toU32 ((((128 * msa) % 65536 + (128 * msb) % 4294967296 / msc : Nat) : Int) - 512)
  let msp2 := toU32 ((((128 * msb) % 4294967296 : Nat) : Int)
                - ((((128 * msb) % 4294967296 / msc * msc) % 4294967296 : Nat) : Int))
  let msp3 := msc
  let ms_regs := [
    BB1 msp3,
    BB0 msp3,
    (BB2 msp1 ||| (rdiv <<< 4) ||| ((if msa = 4 then 1 else 0) * 0x0C)) % 256,
    BB1 msp1,
    BB0 msp1,
    BB2 ((((msp3 &&& 0x0F0000) <<< 4) % 4294967296) ||| msp2),
    BB1 msp2,
    BB0 msp2 ]
  let s := SendRegisters s (toU8 (n * 8 + 42)) ms_regs
  if n < 0 then
    SendRegister s (toU8 (n + 16 + 8)) ((0x80 ||| (0x40 * _int)) % 256)
  else
    let s := SendRegister s (toU8 (n + 16)) (((pll * 0x20) ||| 0x0C ||| 3 ||| (0x40 * _int)) % 256)
    SendRegister s (toU8 (n + 165))
      ((((if _int = 0 then 1 else 0) * phase * msa) % 65536 / 90) % 256)

/-- `SI5351::reset`. -/
def reset (s : SI5351) : SI5351 := SendRegister s 177 0xA0

/-- `SI5351::oe`: `SendRegister(3, ~mask)`. -/
def oe (s : SI5351) (mask : Nat) : SI5351 := SendRegister s 3 (toU8 (-(mask : Int) - 1))

/-- The banded first estimate of the pre-divider in `SI5351::freq`:
`if (fout < 30000000) d = (16 * fxtal) / fout; else d = (32 * fxtal) / fout;`
`if (fout < 3500000) d = (7 * fxtal) / fout;  if (fout > 140000000) d = 4;`
with `d` a `uint16_t` and the quotients taken in `uint32_t`. -/
def d_estimate (fxtal : Nat) (fout : Int) : Nat :=
  let d :=
    if fout < 30000000 then ((16 * fxtal) % 4294967296 / toU32 fout) % 65536
    else ((32 * fxtal) % 4294967296 / toU32 fout) % 65536
  let d := if fout < 3500000 then ((7 * fxtal) % 4294967296 / toU32 fout) % 65536 else d
  if fout > 140000000 then 4 else d

/-- The odd-to-even step `if (d % 2) d++;` on the `uint16_t d`. -/
def d_even (d : Nat) : Nat := if d % 2 ≠ 0 then (d + 1) % 65536 else d

/-- The integer PLL multiplier `d * f / fxtal` as `SI5351::freq` computes it:
the product in `int32_t`, converted to `uint32_t` for the division. -/
def pll_mult (fxtal : Nat) (d : Nat) (f : Int) : Nat := toU32 ((d : Int) * f) / fxtal

/-- The widening step
`if ((d * (fout - 5000) / fxtal) != (d * (fout + 5000) / fxtal)) d += 2;`. -/
def d_widen (fxtal : Nat) (fout : Int) (d : Nat) : Nat :=
  if pll_mult fxtal d (fout - 5000) ≠ pll_mult fxtal d (fout + 5000) then (d + 2) % 65536
  else d

/-- The pre-divider search of `SI5351::freq` on the (already scaled) `fout`:
estimate, odd-to-even step, widening. -/
def freq_prediv (fxtal : Nat) (fout : Int) : Nat :=
  d_widen fxtal fout (d_even (d_estimate fxtal fout))

/-- The locals of `SI5351::freq` when the pre-divider search is over. -/
structure FreqPlan where
  rdiv : Nat
  fout : Int
  i : Nat
  q : Nat
  d : Nat
  deriving DecidableEq

/-- `SI5351::freq`, first part: third-harmonic and `rdiv` scaling of `fout`,
then the pre-divider search. -/
def freq_plan (fxtal : Nat) (fout : Int) (i q : Nat) : FreqPlan :=
  let h := fout > 300000000
  let i := if h then i / 3 else i
  let q := if h then q / 3 else q
  let fout := if h then Int.tdiv fout 3 else fout
  let l := fout < 500000
  let rdiv := if l then 7 else 0
  let fout := if l then i32 (fout * 128) else fout
  { rdiv := rdiv, fout := fout, i := i, q := q, d := freq_prediv fxtal fout }

/-- `SI5351::freq`: set CLK0, CLK1, CLK2 to `fout` Hz with phases `i`, `q`. -/
def freq (s : SI5351) (fout : Int) (i q : Nat) : SI5351 :=
  let p := freq_plan s.fxtal fout i q
  let fout := p.fout
  let d := p.d
  let fvcoa := toU32 ((d : Int) * fout)
  let s := ms s MSNA fvcoa s.fxtal PLLA 0 0 0
  let s := ms s MS0 fvcoa (toU32 fout) PLLA 0 p.i p.rdiv
  let s := ms s MS1 fvcoa (toU32 fout) PLLA 0 p.q p.rdiv
  let s := ms s MS2 fvcoa (toU32 fout) PLLA 0 0 p.rdiv
  let iq := Int.tdiv (i16 ((i8 (p.i : Int) - i8 (p.q : Int)) * i16 ((fvcoa / toU32 fout : Nat) : Int))) 90
  let s := if s.iqmsa ≠ iq then reset { s with iqmsa := i16 iq } else s
  let s := oe s 3
  { s with
    _fout := fout,
    _div := d % 256,
    _msa128min512 := toU16 (((fvcoa / s.fxtal * 128 : Nat) : Int) - 512),
    _msb128 := ((fvcoa % s.fxtal) * _MSC * 128 / s.fxtal) % 4294967296 }

/-- The pre-divider of `SI5351::freqb`: estimate and odd-to-even step. -/
def freqb_d (fxtal fout : Nat) : Nat :=
  d_even (((16 * fxtal) % 4294967296 / fout) % 65536)

/-- `SI5351::freqb`: set CLK2 to `fout` Hz on PLLB. -/
def freqb (s : SI5351) (fout : Nat) : SI5351 :=
  let d := freqb_d s.fxtal fout
  let fvcoa := (d * fout) % 4294967296
  let s := ms s MSNB fvcoa s.fxtal PLLA 0 0 0
  ms s MS2 fvcoa fout PLLB 0 0 0

/-! ## Observations used in the statements -/

/-- The gain register after `agc_fast` has been called on each input in turn. -/
def agc_run (gain : Int) : List Int → Int
  | [] => gain
  | inp :: rest => agc_run (agc_fast gain inp).2 rest

/-- Recognisers of the trace events. -/
def Event.is_process : Event → Bool
  | Event.process _ _ => true
  | _ => false

def Event.is_dac_upsample : Event → Bool
  | Event.dac_upsample _ => true
  | _ => false

def Event.is_load_dac_audio : Event → Bool
  | Event.load_dac_audio _ => true
  | _ => false

def Event.is_store_c12 : Event → Bool
  | Event.store_c12 _ => true
  | _ => false

/-- Number of recorded events of one kind. -/
def calls (k : Event → Bool) (s : RECV) : Nat := (s.trace.filter k).length

/-- The events one `sample_dsp` call appends to the trace. -/
def call_events (s : RECV) (ADC : Nat) : List Event :=
  (sample_dsp s ADC).trace.drop s.trace.length

/-- The sample `process` clamps into `ac3`: the value of `ac` after
`ac = ac >> (16 - volume)`. -/
def process_scaled (s : RECV) (i q : Int) : Int :=
  let qh := (hilb_q s.hilb_q_v (sar q 2)).1
  let ih := (hilb_i s.hilb_i_v (sar i 2)).1
  let ac := if s.radiomode = USB then i16 (-(ih - qh)) else i16 (-(ih + qh))
  let ac := (filter s.filterbw s.dg_attn s.x ac).1
  let ac := (if s.agc = FAST then agc_fast s.gain ac else (ac, s.gain)).1
  sar ac (16 - s.volume)

/-- The PWM duty values written so far, oldest first. -/
def duties (s : RECV) : List Nat :=
  s.trace.filterMap (fun e => match e with
    | Event.load_dac_audio d => some d
    | _ => none)

/-- Every delay line and accumulator of the signal path holds zero. -/
def zero_signal (s : RECV) : Prop :=
  s.ocomb = 0 ∧ s.ozi1 = 0 ∧ s.ozi2 = 0 ∧
  s.hilb_i_v = List.replicate 7 0 ∧ s.hilb_q_v = List.replicate 14 0 ∧
  s.ozd1 = 0 ∧ s.ozd2 = 0 ∧ s.ac3 = 0 ∧ s.prev_adc = 0 ∧
  s.c0 = 0 ∧ s.c1 = 0 ∧ s.c2 = 0 ∧ s.c3 = 0 ∧ s.c4 = 0 ∧ s.c5 = 0 ∧ s.c6 = 0 ∧
  s.c7 = 0 ∧ s.c8 = 0 ∧ s.c9 = 0 ∧ s.c10 = 0 ∧ s.c11 = 0 ∧ s.c12 = 0 ∧
  s.x = List.replicate 11 0

/-- The accumulator `y` of `RECV::filter` at the end of the `switch`, as a
function of the shifted history `x` (`x[0]` the newest sample); 0, the initial
value, where the `default` branch is taken. -/
def filter_acc (filterbw : Nat) (x : List Int) : Int :=
  let X (n : Nat) : Int := x.getD n 0
  let y : Int := 0
  if filterbw = BW1500 then
    let t := i32 (X 0 + X 10)
    let y := i32 (y + (shl t 2 + shl t 1))
    let t := i32 (X 1 + X 9)
    let y := i32 (y - (shl t 5 + shl t 2 + shl t 1))
    let t := i32 (X 2 + X 8)
    let y := i32 (y - (shl t 6 + shl t 5 + shl t 4 + shl t 2))
    let t := i32 (X 3 + X 7)
    let y := i32 (y + (shl t 4 + shl t 3 + shl t 1))
    let t := i32 (X 4 + X 6)
    let y := i32 (y + (shl t 10 + shl t 6 + shl t 5 + shl t 4))
    let t := X 5
    i32 (y + (shl t 11 + shl t 4))
  else if filterbw = BW2000 then
    let t := i32 (X 0 + X 10)
    let y := i32 (y + (shl t 1 + t))
    let t := i32 (X 1 + X 9)
    let y := i32 (y + (shl t 5 + shl t 3))
    let t := i32 (X 2 + X 8)
    let y := i32 (y - (shl t 5 + shl t 4 + shl t 3 + shl t 1))
    let t := i32 (X 3 + X 7)
    let y := i32 (y - (shl t 8 + shl t 4 + shl t 2))
    let t := i32 (X 4 + X 6)
    let y := i32 (y + (shl t 10 + shl t 5 + shl t 4))
    let t := X 5
    i32 (y + (shl t 11 + shl t 8 + shl t 7 + shl t 6 + shl t 5))
  else if filterbw = BW2500 then
    let t := i32 (X 0 + X 10)
    let y := i32 (y - (shl t 4 + shl t 3))
    let t := i32 (X 1 + X 9)
    let y := i32 (y - shl t 2)
    let t := i32 (X 2 + X 8)
    let y := i32 (y + (shl t 7 + shl t 4))
    let t := i32 (X 3 + X 7)
    let y := i32 (y - (shl t 8 + shl t 7 + shl t 6 + shl t 5))
    let t := i32 (X 4 + X 6)
    let y := i32 (y + (shl t 9 + shl t 8 + shl t 7 + shl t 4))
    let t := X 5
    i32 (y + (shl t 11 + shl t 9 + shl t 8 + shl t 7 + shl t 6))
  else if filterbw = BWFULL then
    let t := i32 (X 0 + X 10)
    let y := i32 (y + (shl t 7 + shl t 5 + shl t 3))
    let t := i32 (X 1 + X 9)
    let y := i32 (y - (shl t 7 + shl t 5 + shl t 4 + shl t 3))
    let t := i32 (X 2 + X 8)
    let y := i32 (y + (shl t 7 + shl t 6 + shl t 2 + shl t 1))
    let t := i32 (X 3 + X 7)
    let y := i32 (y - (shl t 7 + shl t 6 + shl t 4 + shl t 1))
    let t := i32 (X 4 + X 6)
    let y := i32 (y + (shl t 7 + shl t 6 + shl t 4 + shl t 3 + shl t 1))
    let t := X 5
    i32 (y + (shl t 11 + shl t 10 + shl t 9 + shl t 7))
  else
    y

/-- The FIR coefficients `k_0 .. k_5` written in the comments of
`RECV::filter` (0x006, 0x026, ...), with the sign of `y +=` / `y -=`. -/
def fir_coeff (filterbw : Nat) : List Int :=
  if filterbw = BW1500 then [6, -38, -116, 26, 1136, 2064]
  else if filterbw = BW2000 then [3, 40, -58, -276, 1072, 2528]
  else if filterbw = BW2500 then [-24, -4, 144, -480, 912, 3008]
  else if filterbw = BWFULL then [168, -184, 198, -210, 218, 3712]
  else []

/-- The symmetric multiply form of an 11-tap FIR:
`Σ_{n=0..4} k_n·(x[n] + x[10-n]) + k_5·x[5]`. -/
def fir_sum (k x : List Int) : Int :=
  k.getD 0 0 * (x.getD 0 0 + x.getD 10 0) + k.getD 1 0 * (x.getD 1 0 + x.getD 9 0)
  + k.getD 2 0 * (x.getD 2 0 + x.getD 8 0) + k.getD 3 0 * (x.getD 3 0 + x.getD 7 0)
  + k.getD 4 0 * (x.getD 4 0 + x.getD 6 0) + k.getD 5 0 * x.getD 5 0

/-- One 1-3-3-1 stage with halving, on four consecutive samples (`x0` the
newest): `(x0 + 3·x1 + 3·x2 + x3) >> 1`. -/
def stage1 (x0 x1 x2 x3 : Int) : Int := sar (x0 + 3 * x1 + 3 * x2 + x3) 1

/-- Two cascaded 1-3-3-1 stages on the ten most recent samples of a branch
(`x[0]` the newest): the stage-1 values at every second sample,
`s[m], s[m-1], s[m-2], s[m-3]`, combined as `s[m] + 3·s[m-1] + 3·s[m-2] + s[m-3]`. -/
def decim (x : List Int) : Int :=
  let X (n : Nat) : Int := x.getD n 0
  stage1 (X 0) (X 1) (X 2) (X 3) + 3 * stage1 (X 2) (X 3) (X 4) (X 5)
    + 3 * stage1 (X 4) (X 5) (X 6) (X 7) + stage1 (X 6) (X 7) (X 8) (X 9)

/-- A device state with every field zero and nothing written yet. -/
def SI5351.blank : SI5351 :=
  { _fout := 0, _div := 0, _msa128min512 := 0, _msb128 := 0, pll_regs := [],
    fxtal := 0, fxadj := 0, iqmsa := 0, bus := [] }

/-- The register writes one `ms` call issues. -/
def ms_writes (n : Int) (div_nom div_denom : Nat) (pll _int phase rdiv : Nat) :
    List (Nat × List Nat) :=
  (ms SI5351.blank n div_nom div_denom pll _int phase rdiv).bus

/-- The 8-byte multisynth register block `ms_regs` one `ms` call writes first. -/
def ms_block (div_nom div_denom : Nat) (_int rdiv : Nat) : List Nat :=
  ((ms_writes 0 div_nom div_denom 0 _int 0 rdiv).getD 0 (0, [])).2

/-- The register writes one `freq` call issues on a device with the given
`fxtal` and stored `iqmsa`. -/
def freq_writes (fxtal : Nat) (iqmsa : Int) (fout : Int) (i q : Nat) : List (Nat × List Nat) :=
  (freq { SI5351.blank with fxtal := fxtal, iqmsa := iqmsa } fout i q).bus

/-- The phase scalar `freq` compares with `iqmsa`:
`((int8_t)i-(int8_t)q)*((int16_t)(fvcoa/fout))/90`, on the scaled `i`, `q`, `fout`. -/
def iq_scalar (fxtal : Nat) (fout : Int) (i q : Nat) : Int :=
  let p := freq_plan fxtal fout i q
  let fvcoa := toU32 ((p.d : Int) * p.fout)
  Int.tdiv (i16 ((i8 (p.i : Int) - i8 (p.q : Int)) * i16 ((fvcoa / toU32 p.fout : Nat) : Int))) 90

/-- The single register bytes of a list of writes: a block write to register
`r` puts byte `k` of its data into register `r + k`. -/
def reg_bytes (w : List (Nat × List Nat)) : List (Nat × Nat) :=
  w.flatMap (fun rd => rd.2.enum.map (fun kb => (rd.1 + kb.1, kb.2)))

/-- The data of the first write to register `reg` in a list of writes. -/
def block_at (w : List (Nat × List Nat)) (reg : Nat) : List Nat :=
  (w.lookup reg).getD []

/-- Decoding of a multisynth register block (Si5351 register map): `P3` is
bytes 0, 1 and the high nibble of byte 5; `P1` is the low two bits of byte 2
and bytes 3, 4; `P2` is the low nibble of byte 5 and bytes 6, 7; the output
divider field `rdiv` is bits 6:4 of byte 2. -/
def decode_P3 (b : List Nat) : Nat := (b.getD 5 0 / 16) * 65536 + b.getD 0 0 * 256 + b.getD 1 0

def decode_P1 (b : List Nat) : Nat := (b.getD 2 0 % 4) * 65536 + b.getD 3 0 * 256 + b.getD 4 0

def decode_P2 (b : List Nat) : Nat := (b.getD 5 0 % 16) * 65536 + b.getD 6 0 * 256 + b.getD 7 0

def rdiv_field (b : List Nat) : Nat := (b.getD 2 0 / 16) % 8

/-- The integer part `msa` that `ms` derives: `msa = div_nom / div_denom`,
held in a `uint16_t`. -/
def ms_msa (div_nom div_denom : Nat) : Nat := (div_nom / div_denom) % 65536

/-- The fractional numerator `msb` that `ms` derives in fractional mode:
`((uint64_t)(div_nom % div_denom)*_MSC) / div_denom`, held in a `uint32_t`. -/
def ms_msb (div_nom div_denom : Nat) : Nat :=
  ((div_nom % div_denom) * _MSC / div_denom) % 4294967296

/-- The VCO frequency `uint32_t fvcoa = d * fout;` of `SI5351::freq`, on the
scaled `fout`. -/
def freq_fvcoa (fxtal : Nat) (fout : Int) (i q : Nat) : Nat :=
  toU32 (((freq_plan fxtal fout i q).d : Int) * (freq_plan fxtal fout i q).fout)

/-- The local `msb128` of `SI5351::freq_calc_fast(df)`. -/
def fast_msb128 (s : SI5351) (df : Int) : Nat :=
  toU32 ((s._msb128 : Int)
    + Int.tdiv (i64 (i32 ((s._div : Int) * df) * (_MSC : Int) * 128)) (s.fxtal : Int))

/-- The local `msp1` of `SI5351::freq_calc_fast(df)`, a `uint16_t`. -/
def fast_msp1 (s : SI5351) (df : Int) : Nat :=
  (s._msa128min512 + fast_msb128 s df / _MSC) % 65536

/-- The local `msp2` of `SI5351::freq_calc_fast(df)`, a `uint16_t`. -/
def fast_msp2 (s : SI5351) (df : Int) : Nat := fast_msb128 s df % 65536

/-- The reconstruction state: the statics `ozd1`, `ozd2` of `dac_upsample`,
the file-scope `ocomb`, `ozi1`, `ozi2`, and the PWM compare register. -/
structure Recon where
  ozd1 : Int
  ozd2 : Int
  ocomb : Int
  ozi1 : Int
  ozi2 : Int
  OCR1AL : Nat

/-- The all-zero reconstruction state. -/
def Recon.zero : Recon :=
  { ozd1 := 0, ozd2 := 0, ocomb := 0, ozi1 := 0, ozi2 := 0, OCR1AL := 0 }

/-- The reconstruction part of the receiver state. -/
def RECV.recon (s : RECV) : Recon :=
  { ozd1 := s.ozd1, ozd2 := s.ozd2, ocomb := s.ocomb, ozi1 := s.ozi1, ozi2 := s.ozi2,
    OCR1AL := s.OCR1AL }

/-- What `n` consecutive `load_dac_audio` calls leave, `ocomb` being held. -/
def integ_run (ocomb : Int) (o : Integ) : Nat → Integ
  | 0 => o
  | n + 1 => load_dac_audio ocomb (integ_run ocomb o n).ozi1 (integ_run ocomb o n).ozi2

/-- One reconstruction cycle: `dac_upsample(a)` followed by four
`load_dac_audio` calls. -/
def recon_cycle (r : Recon) (a : Int) : Recon :=
  let c := dac_upsample r.ozd1 r.ozd2 a
  let o := integ_run c.ocomb { ozi1 := r.ozi1, ozi2 := r.ozi2, OCR1AL := r.OCR1AL } 4
  { ozd1 := c.ozd1, ozd2 := c.ozd2, ocomb := c.ocomb, ozi1 := o.ozi1, ozi2 := o.ozi2,
    OCR1AL := o.OCR1AL }

/-- The reconstruction state after `k` cycles on the inputs `a 1, a 2, ...`,
from the all-zero state. -/
def recon_after (a : Nat → Int) : Nat → Recon
  | 0 => Recon.zero
  | k + 1 => recon_cycle (recon_after a k) (a (k + 1))

/-- A value in the range of `int16_t`. -/
def fits16 (v : Int) : Prop := -32768 ≤ v ∧ v ≤ 32767

/-- The sums one reconstruction cycle forms, before their conversion to
`int16_t`: `ac - ozd1` and `od1 - ozd2` in `dac_upsample`, then in each of the
four `load_dac_audio` calls `ocomb + ozi1`, `ozi1 + ozi2` and
`(ozi2 >> 5) + 128`. -/
def recon_sums (r : Recon) (a : Int) : List Int :=
  let c := dac_upsample r.ozd1 r.ozd2 a
  let o := fun n => integ_run c.ocomb { ozi1 := r.ozi1, ozi2 := r.ozi2, OCR1AL := r.OCR1AL } n
  [a - r.ozd1, c.ozd2 - r.ozd2,
   c.ocomb + (o 0).ozi1, (o 1).ozi1 + (o 0).ozi2, sar (o 1).ozi2 5 + 128,
   c.ocomb + (o 1).ozi1, (o 2).ozi1 + (o 1).ozi2, sar (o 2).ozi2 5 + 128,
   c.ocomb + (o 2).ozi1, (o 3).ozi1 + (o 2).ozi2, sar (o 3).ozi2 5 + 128,
   c.ocomb + (o 3).ozi1, (o 4).ozi1 + (o 3).ozi2, sar (o 4).ozi2 5 + 128]

/-- The ranges of the decimator registers: the branch samples `c[0..2]`,
`c[6..8]` and `prev_adc` in the range of `get_adc`, the stage-1 values
`c[3..5]`, `c[9..11]` in [-2044, 2048], the decimated Q value `c[12]` in
[-16352, 16384]. -/
def dec_inv (s : RECV) : Prop :=
  (-511 ≤ s.prev_adc ∧ s.prev_adc ≤ 512) ∧
  (-511 ≤ s.c0 ∧ s.c0 ≤ 512) ∧ (-511 ≤ s.c1 ∧ s.c1 ≤ 512) ∧ (-511 ≤ s.c2 ∧ s.c2 ≤ 512) ∧
  (-511 ≤ s.c6 ∧ s.c6 ≤ 512) ∧ (-511 ≤ s.c7 ∧ s.c7 ≤ 512) ∧ (-511 ≤ s.c8 ∧ s.c8 ≤ 512) ∧
  (-2044 ≤ s.c3 ∧ s.c3 ≤ 2048) ∧ (-2044 ≤ s.c4 ∧ s.c4 ≤ 2048) ∧
  (-2044 ≤ s.c5 ∧ s.c5 ≤ 2048) ∧ (-2044 ≤ s.c9 ∧ s.c9 ≤ 2048) ∧
  (-2044 ≤ s.c10 ∧ s.c10 ≤ 2048) ∧ (-2044 ≤ s.c11 ∧ s.c11 ≤ 2048) ∧
  (-16352 ≤ s.c12 ∧ s.c12 ≤ 16384)

/-- The sums of one 1-3-3-1 step `x0 + (x1 + x2) * 3 + x3`, in the order the
expression is evaluated. -/
def sums_1331 (x0 x1 x2 x3 : Int) : List Int :=
  [x1 + x2, (x1 + x2) * 3, x0 + (x1 + x2) * 3, x0 + (x1 + x2) * 3 + x3]

/-- The sums the decimator code of one `sample_dsp` call forms, before their
conversion to `int16_t`: `ADC - 511` in `get_adc`, `prev_adc + ac` in
`sample_corr` (I phases), and the 1-3-3-1 sums of the phase. -/
def dsp_sums (s : RECV) (ADC : Nat) : List Int :=
  let raw := (ADC : Int) - 511
  if s.rxstate = 0 then
    let ac := (sample_corr s.prev_adc (get_adc QSDI ADC)).1
    let i_s1za0 := sar (i16 (ac + (s.c0 + s.c1) * 3 + s.c2)) 1
    [raw, s.prev_adc + get_adc QSDI ADC] ++ sums_1331 ac s.c0 s.c1 s.c2
      ++ sums_1331 i_s1za0 s.c3 s.c4 s.c5
  else if s.rxstate = 1 then [raw]
  else if s.rxstate = 2 then [raw, s.prev_adc + get_adc QSDI ADC]
  else if s.rxstate = 3 then
    [raw] ++ sums_1331 (get_adc QSDQ ADC) s.c6 s.c7 s.c8
  else if s.rxstate = 4 then
    let ac := (sample_corr s.prev_adc (get_adc QSDI ADC)).1
    [raw, s.prev_adc + get_adc QSDI ADC] ++ sums_1331 ac s.c0 s.c1 s.c2
  else if s.rxstate = 5 then [raw]
  else if s.rxstate = 6 then [raw, s.prev_adc + get_adc QSDI ADC]
  else if s.rxstate = 7 then
    let q_s1za0 := sar (i16 (get_adc QSDQ ADC + (s.c6 + s.c7) * 3 + s.c8)) 1
    [raw] ++ sums_1331 (get_adc QSDQ ADC) s.c6 s.c7 s.c8
      ++ sums_1331 q_s1za0 s.c9 s.c10 s.c11
  else []

/-- Every `process` call recorded so far received decimated values in
[-16352, 16384]. -/
def process_args_bounded (s : RECV) : Prop :=
  ∀ i q : Int, Event.process i q ∈ s.trace →
    (-16352 ≤ i ∧ i ≤ 16384) ∧ (-16352 ≤ q ∧ q ≤ 16384)

/-! ## Machine-integer facts -/

theorem i16_range (x : Int) : -32768 ≤ i16 x ∧ i16 x ≤ 32767 := by
  unfold i16; omega

theorem i16_of_range (x : Int) (h1 : -32768 ≤ x) (h2 : x ≤ 32767) : i16 x = x := by
  unfold i16; omega

theorem toU32_natCast (n : Nat) (h : n < 4294967296) : toU32 (n : Int) = n := by
  unfold toU32; omega

/-! ## The sample state machine -/

theorem dispatch_rxstate (s : RECV) (ADC : Nat) (h : s.rxstate ≤ 7) :
    (sample_dsp_dispatch s ADC).rxstate = s.rxstate := by
  unfold sample_dsp_dispatch
  generalize s.rxstate = r at h ⊢
  interval_cases r <;> rfl

theorem dispatch_invalid (s : RECV) (ADC : Nat) (h : 7 < s.rxstate) :
    sample_dsp_dispatch s ADC = { s with rxstate := 0 } := by
  have n0 : s.rxstate ≠ 0 := Nat.ne_of_gt (by omega)
  have n1 : s.rxstate ≠ 1 := Nat.ne_of_gt (by omega)
  have n2 : s.rxstate ≠ 2 := Nat.ne_of_gt (by omega)
  have n3 : s.rxstate ≠ 3 := Nat.ne_of_gt (by omega)
  have n4 : s.rxstate ≠ 4 := Nat.ne_of_gt (by omega)
  have n5 : s.rxstate ≠ 5 := Nat.ne_of_gt (by omega)
  have n6 : s.rxstate ≠ 6 := Nat.ne_of_gt (by omega)
  have n7 : s.rxstate ≠ 7 := Nat.ne_of_gt h
  unfold sample_dsp_dispatch
  simp only [n0, n1, n2, n3, n4, n5, n6, n7, if_false]

theorem sample_dsp_rxstate (s : RECV) (ADC : Nat) (h : s.rxstate ≤ 7) :
    (sample_dsp s ADC).rxstate = (s.rxstate + 1) % 8 := by
  show (if ((sample_dsp_dispatch s ADC).rxstate + 1) % 256 > 7 then 0
        else ((sample_dsp_dispatch s ADC).rxstate + 1) % 256) = _
  rw [dispatch_rxstate s ADC h]
  split_ifs <;> omega

theorem phases_eight (s : RECV) (a0 a1 a2 a3 a4 a5 a6 a7 : Nat) (h : s.rxstate ≤ 7) :
    phases s [a0, a1, a2, a3, a4, a5, a6, a7] =
      (List.range 8).map (fun k => (s.rxstate + k) % 8) := by
  have hlt : ∀ n : Nat, (n + 1) % 8 ≤ 7 := fun n => by omega
  simp only [phases]
  have e0 := sample_dsp_rxstate s a0 h
  have e1 := sample_dsp_rxstate _ a1 (e0 ▸ hlt _)
  have e2 := sample_dsp_rxstate _ a2 (e1 ▸ hlt _)
  have e3 := sample_dsp_rxstate _ a3 (e2 ▸ hlt _)
  have e4 := sample_dsp_rxstate _ a4 (e3 ▸ hlt _)
  have e5 := sample_dsp_rxstate _ a5 (e4 ▸ hlt _)
  have e6 := sample_dsp_rxstate _ a6 (e5 ▸ hlt _)
  rw [e6, e5, e4, e3, e2, e1, e0]
  simp [List.range, List.range.loop]
  omega

/-- C1: from every phase p in 0..7 one call of `sample_dsp` leaves
`rxstate = (p + 1) mod 8`; over any 8 consecutive calls the phases on entry
are p, p+1, ..., p+7 (mod 8), so each of the phases 0..7 is dispatched exactly
once. -/
theorem sample_dsp_phase_cycle (s : RECV) (h : s.rxstate ≤ 7) :
    (∀ ADC, (sample_dsp s ADC).rxstate = (s.rxstate + 1) % 8) ∧
    (∀ adcs : List Nat, adcs.length = 8 →
      phases s adcs = (List.range 8).map (fun k => (s.rxstate + k) % 8) ∧
      ∀ p, p ≤ 7 → (phases s adcs).count p = 1) := by
  refine ⟨fun ADC => sample_dsp_rxstate s ADC h, ?_⟩
  intro adcs hlen
  match adcs, hlen with
  | [a0, a1, a2, a3, a4, a5, a6, a7], _ =>
    have hp := phases_eight s a0 a1 a2 a3 a4 a5 a6 a7 h
    refine ⟨hp, ?_⟩
    intro p hp7
    rw [hp]
    generalize s.rxstate = r at h
    interval_cases r <;> interval_cases p <;> decide

/-- The phase cycle instantiated at the cold-start state. -/
theorem sample_dsp_phase_cycle_witness :
    (RECV.init USB 16 BWFULL 0 FAST).rxstate ≤ 7 ∧
    (sample_dsp (RECV.init USB 16 BWFULL 0 FAST) 600).rxstate = 1 ∧
    phases (RECV.init USB 16 BWFULL 0 FAST) [600, 400, 612, 380, 590, 420, 640, 511]
      = [0, 1, 2, 3, 4, 5, 6, 7] :=
  ⟨by decide,
   (sample_dsp_phase_cycle (RECV.init USB 16 BWFULL 0 FAST) (by decide)).1 600,
   ((sample_dsp_phase_cycle (RECV.init USB 16 BWFULL 0 FAST) (by decide)).2
      [600, 400, 612, 380, 590, 420, 640, 511] rfl).1⟩

theorem sample_dsp_trace (t : RECV) (ADC : Nat) :
    (sample_dsp t ADC).trace = t.trace ++ call_events t ADC := by
  unfold call_events
  by_cases h : t.rxstate ≤ 7
  · unfold sample_dsp sample_dsp_dispatch
    generalize t.rxstate = r at h
    interval_cases r <;>
      first
        | (show t.trace ++ _ = t.trace ++ List.drop t.trace.length (t.trace ++ _)
           rw [List.drop_left])
        | (show t.trace ++ _ ++ _ = t.trace ++ List.drop t.trace.length (t.trace ++ _ ++ _)
           rw [List.append_assoc, List.drop_left])
  · have e : (sample_dsp t ADC).trace = t.trace := by
      unfold sample_dsp
      rw [dispatch_invalid t ADC (Nat.lt_of_not_le h)]
    rw [e]; simp

theorem call_events_eq (t : RECV) (ADC : Nat) (h : t.rxstate ≤ 7) :
    call_events t ADC =
      if t.rxstate = 0 then
        [Event.get_adc QSDI,
         Event.process
           (i16 (sar (i16 (get_adc QSDI ADC + (t.c0 + t.c1) * 3 + t.c2)) 1
                  + (t.c3 + t.c4) * 3 + t.c5)) t.c12,
         Event.dac_upsample t.ac3]
      else if t.rxstate = 7 then
        [Event.get_adc QSDQ,
         Event.load_dac_audio (load_dac_audio t.ocomb t.ozi1 t.ozi2).OCR1AL,
         Event.store_c12
           (i16 (sar (i16 (get_adc QSDQ ADC + (t.c6 + t.c7) * 3 + t.c8)) 1
                  + (t.c9 + t.c10) * 3 + t.c11))]
      else if t.rxstate % 2 = 1 then
        [Event.get_adc QSDQ,
         Event.load_dac_audio (load_dac_audio t.ocomb t.ozi1 t.ozi2).OCR1AL]
      else [Event.get_adc QSDI] := by
  unfold call_events sample_dsp sample_dsp_dispatch
  generalize t.rxstate = r at h
  interval_cases r <;>
    first
      | (show List.drop t.trace.length (t.trace ++ _) = _
         rw [List.drop_left]; rfl)
      | (show List.drop t.trace.length (t.trace ++ _ ++ _) = _
         rw [List.append_assoc, List.drop_left]; rfl)

theorem calls_step (k : Event → Bool) (t : RECV) (ADC : Nat) :
    calls k (sample_dsp t ADC) = calls k t + ((call_events t ADC).filter k).length := by
  unfold calls
  rw [sample_dsp_trace, List.filter_append, List.length_append]

theorem call_counts (t : RECV) (ADC : Nat) (h : t.rxstate ≤ 7) :
    ((call_events t ADC).filter Event.is_process).length = (if t.rxstate = 0 then 1 else 0) ∧
    ((call_events t ADC).filter Event.is_dac_upsample).length
      = (if t.rxstate = 0 then 1 else 0) ∧
    ((call_events t ADC).filter Event.is_store_c12).length = (if t.rxstate = 7 then 1 else 0) ∧
    ((call_events t ADC).filter Event.is_load_dac_audio).length = t.rxstate % 2 := by
  rw [call_events_eq t ADC h]
  generalize t.rxstate = r at h
  interval_cases r <;> exact ⟨rfl, rfl, rfl, rfl⟩

theorem run_eight_calls (k : Event → Bool) (s : RECV) (a0 a1 a2 a3 a4 a5 a6 a7 : Nat) :
    calls k (run s [a0, a1, a2, a3, a4, a5, a6, a7]) =
      calls k s
      + ((call_events s a0).filter k).length
      + ((call_events (run s [a0]) a1).filter k).length
      + ((call_events (run s [a0, a1]) a2).filter k).length
      + ((call_events (run s [a0, a1, a2]) a3).filter k).length
      + ((call_events (run s [a0, a1, a2, a3]) a4).filter k).length
      + ((call_events (run s [a0, a1, a2, a3, a4]) a5).filter k).length
      + ((call_events (run s [a0, a1, a2, a3, a4, a5]) a6).filter k).length
      + ((call_events (run s [a0, a1, a2, a3, a4, a5, a6]) a7).filter k).length := by
  simp only [run, calls_step]

theorem run_rxstate (s : RECV) (h : s.rxstate ≤ 7) (adcs : List Nat) :
    (run s adcs).rxstate = (s.rxstate + adcs.length) % 8 := by
  induction adcs generalizing s with
  | nil => simp [run]; omega
  | cons a rest ih =>
    have e := sample_dsp_rxstate s a h
    have := ih (sample_dsp s a) (by omega)
    simp only [run, List.length_cons]
    rw [this, e]; omega

theorem window_totals (s : RECV) (a0 a1 a2 a3 a4 a5 a6 a7 : Nat) (h : s.rxstate ≤ 7) :
    calls Event.is_process (run s [a0, a1, a2, a3, a4, a5, a6, a7])
      = calls Event.is_process s + 1 ∧
    calls Event.is_store_c12 (run s [a0, a1, a2, a3, a4, a5, a6, a7])
      = calls Event.is_store_c12 s + 1 ∧
    calls Event.is_dac_upsample (run s [a0, a1, a2, a3, a4, a5, a6, a7])
      = calls Event.is_dac_upsample s + 1 ∧
    calls Event.is_load_dac_audio (run s [a0, a1, a2, a3, a4, a5, a6, a7])
      = calls Event.is_load_dac_audio s + 4 := by
  have hb : ∀ l : List Nat, (run s l).rxstate ≤ 7 := fun l => by
    rw [run_rxstate s h]; omega
  have r0 : (run s []).rxstate = s.rxstate := rfl
  have c0 := call_counts s a0 h
  have c1 := call_counts _ a1 (hb [a0])
  have c2 := call_counts _ a2 (hb [a0, a1])
  have c3 := call_counts _ a3 (hb [a0, a1, a2])
  have c4 := call_counts _ a4 (hb [a0, a1, a2, a3])
  have c5 := call_counts _ a5 (hb [a0, a1, a2, a3, a4])
  have c6 := call_counts _ a6 (hb [a0, a1, a2, a3, a4, a5])
  have c7 := call_counts _ a7 (hb [a0, a1, a2, a3, a4, a5, a6])
  simp only [run_rxstate s h, List.length_cons, List.length_nil] at c1 c2 c3 c4 c5 c6 c7
  simp only [run_eight_calls]
  rw [c0.1, c1.1, c2.1, c3.1, c4.1, c5.1, c6.1, c7.1,
      c0.2.1, c1.2.1, c2.2.1, c3.2.1, c4.2.1, c5.2.1, c6.2.1, c7.2.1,
      c0.2.2.1, c1.2.2.1, c2.2.2.1, c3.2.2.1, c4.2.2.1, c5.2.2.1, c6.2.2.1, c7.2.2.1,
      c0.2.2.2, c1.2.2.2, c2.2.2.2, c3.2.2.2, c4.2.2.2, c5.2.2.2, c6.2.2.2, c7.2.2.2]
  generalize s.rxstate = r at h
  generalize calls Event.is_process s = n1
  generalize calls Event.is_store_c12 s = n2
  generalize calls Event.is_dac_upsample s = n3
  generalize calls Event.is_load_dac_audio s = n4
  interval_cases r <;> simp

theorem sample_dsp_c12_kept (t : RECV) (ADC : Nat) (h : t.rxstate ≠ 7) :
    (sample_dsp t ADC).c12 = t.c12 := by
  by_cases h7 : t.rxstate ≤ 7
  · unfold sample_dsp sample_dsp_dispatch
    generalize t.rxstate = r at h h7
    interval_cases r <;> first | rfl | exact absurd rfl h
  · unfold sample_dsp
    rw [dispatch_invalid t ADC (Nat.lt_of_not_le h7)]

/-- C7: over any 8 consecutive `sample_dsp` calls starting from a phase in
0..7, `process` is invoked exactly once, `c[12]` is written exactly once, the
comb `dac_upsample` runs exactly once and the integrator `load_dac_audio` runs
exactly four times. Per call: `process` and `dac_upsample` run at phase 0 only,
`c[12]` is written at phase 7 only (and keeps its value in every other call),
`load_dac_audio` runs once at each odd phase and never at an even one. The
call at phase 0 passes to `process` the I value completed in that call and the
current `c[12]`, which is the value the call at phase 7 stored. -/
theorem sample_dsp_cycle_calls (s : RECV) (a0 a1 a2 a3 a4 a5 a6 a7 : Nat)
    (h : s.rxstate ≤ 7) :
    (calls Event.is_process (run s [a0, a1, a2, a3, a4, a5, a6, a7])
        = calls Event.is_process s + 1 ∧
      calls Event.is_store_c12 (run s [a0, a1, a2, a3, a4, a5, a6, a7])
        = calls Event.is_store_c12 s + 1 ∧
      calls Event.is_dac_upsample (run s [a0, a1, a2, a3, a4, a5, a6, a7])
        = calls Event.is_dac_upsample s + 1 ∧
      calls Event.is_load_dac_audio (run s [a0, a1, a2, a3, a4, a5, a6, a7])
        = calls Event.is_load_dac_audio s + 4) ∧
    (∀ (t : RECV) (ADC : Nat), t.rxstate ≤ 7 →
      ((call_events t ADC).filter Event.is_process).length
        = (if t.rxstate = 0 then 1 else 0) ∧
      ((call_events t ADC).filter Event.is_dac_upsample).length
        = (if t.rxstate = 0 then 1 else 0) ∧
      ((call_events t ADC).filter Event.is_store_c12).length
        = (if t.rxstate = 7 then 1 else 0) ∧
      ((call_events t ADC).filter Event.is_load_dac_audio).length = t.rxstate % 2 ∧
      (t.rxstate ≠ 7 → (sample_dsp t ADC).c12 = t.c12)) ∧
    (∀ (t : RECV) (ADC : Nat), t.rxstate = 0 →
      (sample_dsp t ADC).c3 = sar (i16 (get_adc QSDI ADC + (t.c0 + t.c1) * 3 + t.c2)) 1 ∧
      call_events t ADC =
        [Event.get_adc QSDI,
         Event.process (i16 ((sample_dsp t ADC).c3 + (t.c3 + t.c4) * 3 + t.c5)) t.c12,
         Event.dac_upsample t.ac3]) ∧
    (∀ (t : RECV) (ADC : Nat), t.rxstate = 7 →
      (sample_dsp t ADC).rxstate = 0 ∧
      call_events t ADC =
        [Event.get_adc QSDQ,
         Event.load_dac_audio (sample_dsp t ADC).OCR1AL,
         Event.store_c12 (sample_dsp t ADC).c12]) := by
  refine ⟨window_totals s a0 a1 a2 a3 a4 a5 a6 a7 h, ?_, ?_, ?_⟩
  · intro t ADC ht
    obtain ⟨h1, h2, h3, h4⟩ := call_counts t ADC ht
    exact ⟨h1, h2, h3, h4, sample_dsp_c12_kept t ADC⟩
  · intro t ADC ht
    have hc : (sample_dsp t ADC).c3
        = sar (i16 (get_adc QSDI ADC + (t.c0 + t.c1) * 3 + t.c2)) 1 := by
      unfold sample_dsp sample_dsp_dispatch
      generalize t.rxstate = r at ht
      subst ht
      rfl
    refine ⟨hc, ?_⟩
    rw [call_events_eq t ADC (by omega), if_pos ht, hc]
  · intro t ADC ht
    have hr := sample_dsp_rxstate t ADC (by omega)
    have ho : (sample_dsp t ADC).OCR1AL = (load_dac_audio t.ocomb t.ozi1 t.ozi2).OCR1AL := by
      unfold sample_dsp sample_dsp_dispatch
      generalize t.rxstate = r at ht
      subst ht
      rfl
    have hc : (sample_dsp t ADC).c12
        = i16 (sar (i16 (get_adc QSDQ ADC + (t.c6 + t.c7) * 3 + t.c8)) 1
                + (t.c9 + t.c10) * 3 + t.c11) := by
      unfold sample_dsp sample_dsp_dispatch
      generalize t.rxstate = r at ht
      subst ht
      rfl
    refine ⟨by rw [hr, ht], ?_⟩
    rw [call_events_eq t ADC (by omega), if_neg (by omega), if_pos ht, ho, hc]

/-- The call counts instantiated at the cold-start state. -/
theorem sample_dsp_cycle_calls_witness :
    (RECV.init USB 16 BWFULL 0 FAST).rxstate ≤ 7 ∧
    calls Event.is_process
        (run (RECV.init USB 16 BWFULL 0 FAST) [600, 400, 612, 380, 590, 420, 640, 511])
      = calls Event.is_process (RECV.init USB 16 BWFULL 0 FAST) + 1 :=
  ⟨by decide,
   (sample_dsp_cycle_calls (RECV.init USB 16 BWFULL 0 FAST)
      600 400 612 380 590 420 640 511 (by decide)).1.1⟩

/-- C8 (as stated, refuted): started with `rxstate = 8`, `sample_dsp` records
no call at all and leaves `c[0]` untouched, whereas the same call started with
`rxstate = 0` reads the I channel, stores the sample in `c[0]` and invokes
`process`. -/
theorem sample_dsp_invalid_phase_differs :
    ¬ ((sample_dsp { RECV.init USB 16 BWFULL 0 FAST with rxstate := 8 } 600).trace
        = (sample_dsp { RECV.init USB 16 BWFULL 0 FAST with rxstate := 0 } 600).trace) ∧
    calls Event.is_process
        (sample_dsp { RECV.init USB 16 BWFULL 0 FAST with rxstate := 8 } 600) = 0 ∧
    calls Event.is_process
        (sample_dsp { RECV.init USB 16 BWFULL 0 FAST with rxstate := 0 } 600) = 1 ∧
    (sample_dsp { RECV.init USB 16 BWFULL 0 FAST with rxstate := 8 } 600).c0 = 0 ∧
    (sample_dsp { RECV.init USB 16 BWFULL 0 FAST with rxstate := 0 } 600).c0 = 89 := by
  decide

/-- C8 (amended): for every `rxstate` value outside 0..7, `sample_dsp`
dispatches no phase: it records no ADC read, `process` or `load_dac_audio`
call, changes no state but the phase, and leaves `rxstate = 1`. -/
theorem sample_dsp_invalid_phase (s : RECV) (ADC : Nat) (h : 7 < s.rxstate) :
    sample_dsp s ADC = { s with rxstate := 1 } ∧ call_events s ADC = [] := by
  have e : sample_dsp s ADC = { s with rxstate := 1 } := by
    unfold sample_dsp
    rw [dispatch_invalid s ADC h]
    rfl
  refine ⟨e, ?_⟩
  unfold call_events
  rw [e]
  simp

/-- The invalid-phase behaviour instantiated at `rxstate = 8`. -/
theorem sample_dsp_invalid_phase_witness :
    7 < ({ RECV.init USB 16 BWFULL 0 FAST with rxstate := 8 } : RECV).rxstate ∧
    call_events { RECV.init USB 16 BWFULL 0 FAST with rxstate := 8 } 600 = [] :=
  ⟨by decide,
   (sample_dsp_invalid_phase { RECV.init USB 16 BWFULL 0 FAST with rxstate := 8 } 600
      (by decide)).2⟩

/-- C9 (code at the failing input): with `prev_adc = 0`, `sample_corr(100)`
returns 100, not the average 50; it does store 100 as the new `prev_adc`. -/
theorem sample_corr_returns_input :
    (sample_corr 0 100).1 = 100 ∧ (sample_corr 0 100).1 ≠ Int.tdiv (0 + 100) 2 ∧
    (sample_corr 0 100).2 = 100 := by
  decide

/-- C10: the PWM duty value written by `load_dac_audio` equals
`min(max((ozi2 >> 5) + 128, 0), 255)` for the updated `ozi2` and lies in
0..255, for every value of `ocomb`, `ozi1`, `ozi2`. -/
theorem load_dac_audio_duty (ocomb ozi1 ozi2 : Int) :
    (load_dac_audio ocomb ozi1 ozi2).ozi2 = i16 (i16 (ocomb + ozi1) + ozi2) ∧
    ((load_dac_audio ocomb ozi1 ozi2).OCR1AL : Int)
      = min (max (sar (load_dac_audio ocomb ozi1 ozi2).ozi2 5 + 128) 0) 255 ∧
    0 ≤ (load_dac_audio ocomb ozi1 ozi2).OCR1AL ∧
    (load_dac_audio ocomb ozi1 ozi2).OCR1AL ≤ 255 := by
  refine ⟨rfl, ?_, Nat.zero_le _, ?_⟩
  · unfold load_dac_audio toU8
    simp only []
    omega
  · unfold load_dac_audio toU8
    simp only []
    omega

/-! ## Automatic gain control -/

theorem agc_fast_gain_range (g inp : Int) (h1 : 1 ≤ g) (h2 : g ≤ 32767)
    (h3 : -32768 ≤ inp) (h4 : inp ≤ 32767) :
    1 ≤ (agc_fast g inp).2 ∧ (agc_fast g inp).2 ≤ 32767 := by
  unfold agc_fast
  simp only []
  generalize hout : (if g ≥ 1024 then i16 (sar g 10 * inp) else inp) = agcout
  have ho : -32768 ≤ agcout ∧ agcout ≤ 32767 := by
    rw [← hout]; split_ifs
    · exact i16_range _
    · exact ⟨h3, h4⟩
  have hs : -32 ≤ sar agcout 10 ∧ sar agcout 10 ≤ 31 := by
    unfold sar; norm_num; omega
  generalize sar agcout 10 = sh at hs
  have ha : 0 ≤ abs16 sh ∧ abs16 sh ≤ 32 := by
    unfold abs16 i16; split_ifs <;> omega
  generalize abs16 sh = ab at ha
  unfold INT16_MAX i16
  split_ifs <;> omega

theorem agc_run_gain_range (ins : List Int) :
    ∀ g : Int, 1 ≤ g → g ≤ 32767 → (∀ x ∈ ins, -32768 ≤ x ∧ x ≤ 32767) →
      1 ≤ agc_run g ins ∧ agc_run g ins ≤ 32767 := by
  induction ins with
  | nil => intro g h1 h2 _; exact ⟨h1, h2⟩
  | cons inp rest ih =>
    intro g h1 h2 hin
    have hi := hin inp (List.mem_cons_self _ _)
    have hg := agc_fast_gain_range g inp h1 h2 hi.1 hi.2
    exact ih _ hg.1 hg.2 (fun x hx => hin x (List.mem_cons_of_mem _ hx))

/-- C3: if the AGC gain is in [1, 32767] before a call of `agc_fast`, it is in
[1, 32767] after the call for every int16 input; hence it stays in
[1, 32767] after every finite sequence of int16 inputs, in particular from the
initial gain 1024. -/
theorem agc_gain_invariant (g : Int) (ins : List Int) (hg : 1 ≤ g ∧ g ≤ 32767)
    (hins : ∀ x ∈ ins, -32768 ≤ x ∧ x ≤ 32767) :
    (∀ inp : Int, -32768 ≤ inp → inp ≤ 32767 →
      1 ≤ (agc_fast g inp).2 ∧ (agc_fast g inp).2 ≤ 32767) ∧
    (1 ≤ agc_run g ins ∧ agc_run g ins ≤ 32767) ∧
    (RECV.init USB 16 BWFULL 0 FAST).gain = 1024 ∧
    (1 ≤ agc_run 1024 ins ∧ agc_run 1024 ins ≤ 32767) :=
  ⟨fun inp h3 h4 => agc_fast_gain_range g inp hg.1 hg.2 h3 h4,
   agc_run_gain_range ins g hg.1 hg.2 hins,
   rfl,
   agc_run_gain_range ins 1024 (by decide) (by decide) hins⟩

/-- The gain invariant instantiated at the largest gain, on extreme inputs. -/
theorem agc_gain_invariant_witness :
    (1 ≤ (32767 : Int) ∧ (32767 : Int) ≤ 32767) ∧
    (1 ≤ agc_run 32767 [32767, -32768, 0, 12000] ∧
      agc_run 32767 [32767, -32768, 0, 12000] ≤ 32767) :=
  ⟨by decide,
   (agc_gain_invariant 32767 [32767, -32768, 0, 12000] (by decide) (by decide)).2.1⟩

/-! ## Channel filter -/

theorem filter_default (filterbw dg_attn : Nat) (x : List Int) (ac : Int) (h : 3 < filterbw) :
    (filter filterbw dg_attn x ac).1 = ac := by
  have n0 : filterbw ≠ BW1500 := Nat.ne_of_gt (by unfold BW1500; omega)
  have n1 : filterbw ≠ BW2000 := Nat.ne_of_gt (by unfold BW2000; omega)
  have n2 : filterbw ≠ BW2500 := Nat.ne_of_gt (by unfold BW2500; omega)
  have n3 : filterbw ≠ BWFULL := Nat.ne_of_gt (by unfold BWFULL; omega)
  unfold filter
  simp only [n0, n1, n2, n3, if_false]

theorem filter_full (dg_attn : Nat) (x : List Int) (ac : Int) :
    (filter BWFULL dg_attn x ac).1 =
      filter_out dg_attn (i32 (168 * (ac + x.getD 9 0) - 184 * (x.getD 0 0 + x.getD 8 0)
        + 198 * (x.getD 1 0 + x.getD 7 0) - 210 * (x.getD 2 0 + x.getD 6 0)
        + 218 * (x.getD 3 0 + x.getD 5 0) + 3712 * x.getD 4 0)) := by
  unfold filter
  simp only []
  rw [if_neg (by decide : ¬ BWFULL = BW1500), if_neg (by decide : ¬ BWFULL = BW2000),
    if_neg (by decide : ¬ BWFULL = BW2500), if_pos trivial]
  simp only [List.range, List.range.loop, List.map, List.getD_cons_zero, List.getD_cons_succ]
  congr 1
  generalize x.getD 0 0 = x0
  generalize x.getD 1 0 = x1
  generalize x.getD 2 0 = x2
  generalize x.getD 3 0 = x3
  generalize x.getD 4 0 = x4
  generalize x.getD 5 0 = x5
  generalize x.getD 6 0 = x6
  generalize x.getD 7 0 = x7
  generalize x.getD 8 0 = x8
  generalize x.getD 9 0 = x9
  unfold i32 shl
  omega

/-- C2 (as stated, refuted): with `filterbw = BWFULL`, `dg_attn = 0` and an
all-zero history, `filter(1000)` returns 82, not 1000. -/
theorem filter_bwfull_not_identity :
    (filter BWFULL 0 (List.replicate 11 0) 1000).1 = 82 ∧
    (filter BWFULL 0 (List.replicate 11 0) 1000).1 ≠ 1000 := by
  decide

/-- C2 (amended): the channel filter returns its input unchanged on the
`default` branch of the `switch`, i.e. for every `filterbw` outside
{BW1500, BW2000, BW2500, BWFULL}, for every input sample, every `dg_attn` and
every history; with `filterbw = BWFULL` it returns the 11-tap FIR sum
168·(x[0]+x[10]) − 184·(x[1]+x[9]) + 198·(x[2]+x[8]) − 210·(x[3]+x[7])
+ 218·(x[4]+x[6]) + 3712·x[5] over the shifted history (x[0] the new sample),
wrapped to 32 bits, shifted right by `11 - dg_attn` and truncated to 16 bits. -/
theorem filter_identity_default_branch (filterbw dg_attn : Nat) (x : List Int) (ac : Int)
    (h : filterbw ≠ BW1500 ∧ filterbw ≠ BW2000 ∧ filterbw ≠ BW2500 ∧ filterbw ≠ BWFULL) :
    (filter filterbw dg_attn x ac).1 = ac ∧
    (filter BWFULL dg_attn x ac).1 =
      filter_out dg_attn (i32 (168 * (ac + x.getD 9 0) - 184 * (x.getD 0 0 + x.getD 8 0)
        + 198 * (x.getD 1 0 + x.getD 7 0) - 210 * (x.getD 2 0 + x.getD 6 0)
        + 218 * (x.getD 3 0 + x.getD 5 0) + 3712 * x.getD 4 0)) := by
  refine ⟨filter_default filterbw dg_attn x ac ?_, filter_full dg_attn x ac⟩
  unfold BW1500 BW2000 BW2500 BWFULL at h
  omega

/-- The default-branch identity instantiated at `filterbw = 4`. -/
theorem filter_identity_default_branch_witness :
    ((4 : Nat) ≠ BW1500 ∧ (4 : Nat) ≠ BW2000 ∧ (4 : Nat) ≠ BW2500 ∧ (4 : Nat) ≠ BWFULL) ∧
    (filter 4 0 (List.replicate 11 0) 1000).1 = 1000 :=
  ⟨by decide,
   (filter_identity_default_branch 4 0 (List.replicate 11 0) 1000 (by decide)).1⟩

/-! ## Pre-divider search of the synthesizer -/

theorem d_even_even (d : Nat) : d_even d % 2 = 0 := by
  unfold d_even; split_ifs <;> omega

theorem d_widen_even (fxtal : Nat) (fout : Int) (d : Nat) (h : d % 2 = 0) :
    d_widen fxtal fout d % 2 = 0 := by
  unfold d_widen; split_ifs <;> omega

theorem freq_prediv_even (fxtal : Nat) (fout : Int) : freq_prediv fxtal fout % 2 = 0 :=
  d_widen_even _ _ _ (d_even_even _)

theorem freq_plan_band (fxtal : Nat) (f : Int) (i q : Nat)
    (h1 : 500000 ≤ f) (h2 : f ≤ 300000000) :
    (freq_plan fxtal f i q).fout = f ∧ (freq_plan fxtal f i q).d = freq_prediv fxtal f ∧
    (freq_plan fxtal f i q).rdiv = 0 := by
  unfold freq_plan
  simp only []
  rw [if_neg (by omega), if_neg (by omega)]
  exact ⟨rfl, rfl, by rw [if_neg (by omega)]⟩

theorem d_estimate_hf (n : Nat) (h1 : 3500000 ≤ n) (h2 : n < 30000000) :
    d_estimate 27000000 (n : Int) = 432000000 / n ∧ 432000000 / n ≤ 123 ∧
      14 ≤ 432000000 / n := by
  have hq : 432000000 / n ≤ 123 := by
    have := Nat.div_le_div_left (a := 432000000) h1 (by norm_num)
    omega
  have hq2 : 14 ≤ 432000000 / n := by
    rw [Nat.le_div_iff_mul_le (by omega)]; omega
  refine ⟨?_, hq, hq2⟩
  unfold d_estimate
  simp only []
  rw [if_neg (show ¬ (n : Int) > 140000000 by omega),
    if_neg (show ¬ (n : Int) < 3500000 by omega),
    if_pos (show (n : Int) < 30000000 by omega), toU32_natCast n (by omega)]
  have e : 16 * 27000000 % 4294967296 = 432000000 := by norm_num
  rw [e]
  omega

theorem quot_window (n : Nat) (h1 : 3500000 ≤ n) :
    432000000 / (n + 10000) ≤ 432000000 / n ∧
    432000000 / n ≤ 432000000 / (n + 10000) + 1 := by
  constructor
  · exact Nat.div_le_div_left (by omega) (by omega)
  · have hq : 432000000 / (n + 10000) ≤ 123 := by
      have := Nat.div_le_div_left (a := 432000000) (show 3500000 ≤ n + 10000 by omega)
        (by norm_num)
      omega
    have hlt : 432000000 < (432000000 / (n + 10000) + 1) * (n + 10000) := by
      have := Nat.lt_succ_iff.mpr (le_refl (432000000 / (n + 10000)))
      exact (Nat.div_lt_iff_lt_mul (by omega)).mp this
    generalize 432000000 / (n + 10000) = k at hq hlt ⊢
    have : 432000000 / n < k + 2 := by
      rw [Nat.div_lt_iff_lt_mul (by omega)]
      nlinarith
    omega

theorem prediv_hf (n : Nat) (h1 : 3500000 ≤ n) (h2 : n < 30000000) :
    (freq_prediv 27000000 (n : Int) = d_even (432000000 / n) ∨
      freq_prediv 27000000 (n : Int) = d_even (432000000 / n) + 2) ∧
    432000000 / n ≤ d_even (432000000 / n) ∧
    d_even (432000000 / n) ≤ 432000000 / n + 1 := by
  obtain ⟨he, hq, _⟩ := d_estimate_hf n h1 h2
  unfold freq_prediv
  rw [he]
  generalize 432000000 / n = k at hq
  unfold d_widen d_even
  split_ifs <;> omega

theorem mult_16 (X : Int) (h1 : 432000000 ≤ X) (h2 : X < 459000000) :
    (X % 4294967296).toNat / 27000000 = 16 := by
  omega

theorem mult_17 (X : Int) (h1 : 459000000 ≤ X) (h2 : X < 486000000) :
    (X % 4294967296).toNat / 27000000 = 17 := by
  omega

theorem no_widen_at_band_edge (q g1 g2 : Nat) (hq1 : 14 ≤ q) (hq2 : q ≤ 122)
    (hpar : q % 2 = 0) (hg : 3500000 ≤ g1) (h21 : g2 ≤ g1 + 10000)
    (d1 : (q + 1) * g1 ≤ 432000000) (d2 : 432000000 < (q + 1) * g2) :
    pll_mult 27000000 (q + 2) ((g1 : Int) - 5000)
      = pll_mult 27000000 (q + 2) ((g1 : Int) + 5000) := by
  have d3 : (q + 1) * g2 ≤ (q + 1) * (g1 + 10000) := Nat.mul_le_mul_left _ h21
  have d4 : (q + 1) * (g1 + 10000) = (q + 1) * g1 + 10000 * q + 10000 := by ring
  have d6 : 432000000 < (q + 1) * g1 + 10000 * q + 10000 := by omega
  have k1 : ((q + 2 : Nat) : Int) * ((g1 : Int) - 5000)
      = (((q + 1) * g1 : Nat) : Int) + g1 - 5000 * q - 10000 := by push_cast; ring
  have k2 : ((q + 2 : Nat) : Int) * ((g1 : Int) + 5000)
      = (((q + 1) * g1 : Nat) : Int) + g1 + 5000 * q + 10000 := by push_cast; ring
  unfold pll_mult toU32
  rw [k1, k2]
  rcases (show q = 14 ∨ 16 ≤ q by omega) with rfl | h16
  · rw [mult_17 _ (by omega) (by omega), mult_17 _ (by omega) (by omega)]
  · have d5 : 17 * g1 ≤ (q + 1) * g1 := Nat.mul_le_mul_right _ (by omega)
    generalize (q + 1) * g1 = P at d1 d5 d6 ⊢
    rw [mult_16 _ (by omega) (by omega), mult_16 _ (by omega) (by omega)]

theorem prediv_tight (g1 g2 : Nat) (h1 : 3500000 ≤ g1) (h12 : g1 ≤ g2)
    (h21 : g2 ≤ g1 + 10000) (h2 : g2 < 30000000) :
    freq_prediv 27000000 (g1 : Int) ≤ freq_prediv 27000000 (g2 : Int) + 2 := by
  obtain ⟨he1, hq1, hq1l⟩ := d_estimate_hf g1 h1 (by omega)
  obtain ⟨he2, hq2, hq2l⟩ := d_estimate_hf g2 (by omega) h2
  have w1 : 432000000 / g2 ≤ 432000000 / g1 := Nat.div_le_div_left h12 (by omega)
  have w2 : 432000000 / (g1 + 10000) ≤ 432000000 / g2 := Nat.div_le_div_left h21 (by omega)
  have w3 := (quot_window g1 h1).2
  have d1 : 432000000 / g1 * g1 ≤ 432000000 := Nat.div_mul_le_self _ _
  have d2 : 432000000 < (432000000 / g2 + 1) * g2 :=
    (Nat.div_lt_iff_lt_mul (by omega)).mp (Nat.lt_succ_iff.mpr (le_refl _))
  unfold freq_prediv
  rw [he1, he2]
  generalize 432000000 / g1 = q1 at *
  generalize 432000000 / g2 = q2 at *
  have hq : q1 = q2 ∨ q1 = q2 + 1 := by omega
  rcases hq with rfl | rfl
  · unfold d_widen d_even
    split_ifs <;> omega
  · by_cases hpar : q2 % 2 = 0
    · have ev1 : d_even (q2 + 1) = q2 + 2 := by
        unfold d_even; rw [if_pos (by omega)]; omega
      have ev2 : d_even q2 = q2 := by
        unfold d_even; rw [if_neg (by omega)]
      rw [ev1, ev2]
      have nw := no_widen_at_band_edge q2 g1 g2 (by omega) (by omega) hpar h1 h21 d1 d2
      unfold d_widen
      rw [if_neg (by rw [nw]; exact fun h => h rfl)]
      split_ifs <;> omega
    · unfold d_widen d_even
      split_ifs <;> omega

theorem prediv_step_up (g1 g2 : Nat) (h1 : 3500000 ≤ g1) (h12 : g1 ≤ g2)
    (h2 : g2 < 30000000) :
    freq_prediv 27000000 (g2 : Int) ≤ freq_prediv 27000000 (g1 : Int) + 2 := by
  obtain ⟨a1, a2, a3⟩ := prediv_hf g1 h1 (by omega)
  obtain ⟨b1, b2, b3⟩ := prediv_hf g2 (by omega) h2
  have w : 432000000 / g2 ≤ 432000000 / g1 := Nat.div_le_div_left h12 (by omega)
  have pa := d_even_even (432000000 / g1)
  have pb := d_even_even (432000000 / g2)
  generalize d_even (432000000 / g1) = ea at *
  generalize d_even (432000000 / g2) = eb at *
  omega

/-- C4: the pre-divider `d` computed by `freq(f, i, q)`, after the odd-to-even
step and the optional `+2` widening, is even, and so is the `d` computed by
`freqb(f)`; this holds for every `f` and every `fxtal`, in particular for
`f` in (0, 300000000] and `fxtal > 0`. -/
theorem freq_prediv_is_even (fxtal : Nat) (f : Int) (i q : Nat) (fb : Nat) :
    (freq_plan fxtal f i q).d % 2 = 0 ∧ freqb_d fxtal fb % 2 = 0 :=
  ⟨freq_prediv_even _ _, d_even_even _⟩

/-- C5 (as stated, refuted): with `fxtal = 27000000` and `f = 7082000` the
divider-search rule yields 62 for `f - 5000` but 60 for `f` and `f + 5000`. -/
theorem prediv_not_window_invariant :
    (freq_plan 27000000 (7082000 - 5000) 0 90).d = 62 ∧
    (freq_plan 27000000 7082000 0 90).d = 60 ∧
    (freq_plan 27000000 (7082000 + 5000) 0 90).d = 60 ∧
    ¬ ((freq_plan 27000000 (7082000 - 5000) 0 90).d = (freq_plan 27000000 7082000 0 90).d ∧
       (freq_plan 27000000 7082000 0 90).d
         = (freq_plan 27000000 (7082000 + 5000) 0 90).d) := by
  decide

/-- C5 (amended): with `fxtal = 27000000`, for every target frequency `f` such
that `f - 5000`, `f` and `f + 5000` lie in the band 3.5 MHz to 30 MHz, the
pre-dividers the divider-search rule yields for `f - 5000`, `f` and `f + 5000`
are even and any two of them differ by at most 2. -/
theorem prediv_window_within_two (f : Int) (i q : Nat)
    (h1 : 3505000 ≤ f) (h2 : f < 29995000) :
    ((freq_plan 27000000 (f - 5000) i q).d % 2 = 0 ∧
      (freq_plan 27000000 f i q).d % 2 = 0 ∧
      (freq_plan 27000000 (f + 5000) i q).d % 2 = 0) ∧
    (freq_plan 27000000 (f - 5000) i q).d ≤ (freq_plan 27000000 f i q).d + 2 ∧
    (freq_plan 27000000 f i q).d ≤ (freq_plan 27000000 (f - 5000) i q).d + 2 ∧
    (freq_plan 27000000 f i q).d ≤ (freq_plan 27000000 (f + 5000) i q).d + 2 ∧
    (freq_plan 27000000 (f + 5000) i q).d ≤ (freq_plan 27000000 f i q).d + 2 ∧
    (freq_plan 27000000 (f - 5000) i q).d ≤ (freq_plan 27000000 (f + 5000) i q).d + 2 ∧
    (freq_plan 27000000 (f + 5000) i q).d ≤ (freq_plan 27000000 (f - 5000) i q).d + 2 := by
  obtain ⟨m, hm⟩ := Int.eq_ofNat_of_zero_le (show 0 ≤ f - 5000 by omega)
  have e1 : f - 5000 = (m : Int) := hm
  have e2 : f = ((m + 5000 : Nat) : Int) := by push_cast; omega
  have e3 : f + 5000 = ((m + 10000 : Nat) : Int) := by push_cast; omega
  have hm1 : 3500000 ≤ m := by omega
  have hm2 : m + 10000 < 30000000 := by omega
  rw [(freq_plan_band 27000000 (f - 5000) i q (by omega) (by omega)).2.1,
    (freq_plan_band 27000000 f i q (by omega) (by omega)).2.1,
    (freq_plan_band 27000000 (f + 5000) i q (by omega) (by omega)).2.1]
  refine ⟨⟨freq_prediv_even _ _, freq_prediv_even _ _, freq_prediv_even _ _⟩, ?_⟩
  rw [e3, e1]
  nth_rewrite 1 [e2]
  nth_rewrite 1 [e2]
  nth_rewrite 1 [e2]
  nth_rewrite 1 [e2]
  exact ⟨prediv_tight m (m + 5000) hm1 (by omega) (by omega) (by omega),
    prediv_step_up m (m + 5000) hm1 (by omega) (by omega),
    prediv_tight (m + 5000) (m + 10000) (by omega) (by omega) (by omega) hm2,
    prediv_step_up (m + 5000) (m + 10000) (by omega) (by omega) hm2,
    prediv_tight m (m + 10000) hm1 (by omega) (by omega) hm2,
    prediv_step_up m (m + 10000) hm1 (by omega) hm2⟩

/-- The window bound instantiated at `f = 7082000`. -/
theorem prediv_window_within_two_witness :
    ((3505000 : Int) ≤ 7082000 ∧ (7082000 : Int) < 29995000) ∧
    (freq_plan 27000000 (7082000 - 5000) 0 90).d
      ≤ (freq_plan 27000000 (7082000 + 5000) 0 90).d + 2 :=
  ⟨by decide, (prediv_window_within_two 7082000 0 90 (by decide) (by decide)).2.2.2.2.2.1⟩

/-- C6 (code at the failing input): with `fxtal = 27000000` and
`fout = 13500000`, `freq` ends its search with `d = 34` (32 widened once), and
for that `d` the integer multiplier is 16 at `fout - 5000` but 17 at
`fout + 5000`. -/
theorem freq_multiplier_changes_at_half_xtal :
    (freq_plan 27000000 13500000 0 90).fout = 13500000 ∧
    (freq_plan 27000000 13500000 0 90).d = 34 ∧
    pll_mult 27000000 (freq_plan 27000000 13500000 0 90).d (13500000 - 5000) = 16 ∧
    pll_mult 27000000 (freq_plan 27000000 13500000 0 90).d (13500000 + 5000) = 17 ∧
    (freq_plan 27000000 13500000 0 90).d * (13500000 - 5000) / 27000000 = 16 ∧
    (freq_plan 27000000 13500000 0 90).d * (13500000 + 5000) / 27000000 = 17 := by
  decide

/-! ## Demodulation step, AGC law, FIR refinement, silence -/

theorem process_ac3_eq (s : RECV) (i q : Int) :
    (process s i q).ac3 = min (max (process_scaled s i q) (-512)) 511 ∧
    -512 ≤ (process s i q).ac3 ∧ (process s i q).ac3 ≤ 511 := by
  have e : (process s i q).ac3 = min (max (process_scaled s i q) (-512)) 511 := rfl
  rw [e]
  generalize process_scaled s i q = v
  omega

theorem agc_fast_zero (g : Int) (h1 : 1 ≤ g) (h2 : g ≤ 32767) :
    agc_fast g 0 = (0, if g ≤ 32765 then g + 1 else g) := by
  unfold agc_fast
  simp only [mul_zero]
  have e0 : i16 0 = 0 := by decide
  have e1 : (if g ≥ 1024 then i16 0 else (0 : Int)) = 0 := by split_ifs <;> simp [e0]
  rw [e1]
  have e2 : sar 0 10 = 0 := by decide
  have e3 : abs16 0 = 0 := by decide
  have e4 : i16 (1 - 0) = 1 := by decide
  rw [e2, e3, e4]
  unfold INT16_MAX i16
  congr 1
  split_ifs <;> omega

theorem agc_run_zero_climb (n : Nat) : ∀ g : Int, 1 ≤ g → g + n ≤ 32766 →
    agc_run g (List.replicate n 0) = g + n := by
  induction n with
  | zero => intro g _ _; simp [agc_run]
  | succ k ih =>
    intro g h1 h2
    simp only [List.replicate_succ, agc_run]
    rw [agc_fast_zero g h1 (by omega)]
    simp only []
    rw [if_pos (by omega), ih (g + 1) (by omega) (by push_cast at h2 ⊢; omega)]
    push_cast; omega

theorem agc_run_zero_top (n : Nat) (g : Int) (h1 : 32766 ≤ g) (h2 : g ≤ 32767) :
    agc_run g (List.replicate n 0) = g := by
  induction n with
  | zero => simp [agc_run]
  | succ k ih =>
    simp only [List.replicate_succ, agc_run]
    rw [agc_fast_zero g (by omega) h2]
    simp only []
    rw [if_neg (by omega), ih]

theorem agc_run_append (l1 l2 : List Int) : ∀ g : Int,
    agc_run g (l1 ++ l2) = agc_run (agc_run g l1) l2 := by
  induction l1 with
  | nil => intro g; rfl
  | cons a r ih => intro g; simp only [List.cons_append, agc_run]; exact ih _

theorem agc_zero_steady (g : Int) (h1 : 1 ≤ g) (h2 : g ≤ 32767) :
    ∃ N : Nat,
      (agc_fast (agc_run g (List.replicate N 0)) 0).2 = agc_run g (List.replicate N 0) ∧
      (∀ M : Nat, agc_run g (List.replicate (N + M) 0) = agc_run g (List.replicate N 0)) ∧
      1024 ≤ agc_run g (List.replicate N 0) := by
  by_cases h : g ≤ 32766
  · refine ⟨(32766 - g).toNat, ?_⟩
    have e : agc_run g (List.replicate (32766 - g).toNat 0) = 32766 := by
      rw [agc_run_zero_climb _ g h1 (by omega)]; omega
    refine ⟨?_, ?_, ?_⟩
    · rw [e]; decide
    · intro M
      rw [List.replicate_add, agc_run_append, e]
      exact agc_run_zero_top M 32766 (by decide) (by decide)
    · rw [e]; decide
  · refine ⟨0, ?_⟩
    have hg : g = 32767 := by omega
    subst hg
    refine ⟨by decide, ?_, by decide⟩
    intro M
    rw [Nat.zero_add]
    exact agc_run_zero_top M 32767 (by decide) (by decide)

theorem agc_out_law (g inp : Int) (h1 : 1 ≤ g) (h2 : g ≤ 32767)
    (h3 : -32768 ≤ inp) (h4 : inp ≤ 32767) :
    (agc_fast g inp).1 = (if g ≥ 1024 then i16 (inp * sar g 10) else inp) ∧
    (g < 1024 → (agc_fast g inp).1 = inp) ∧
    (1024 ≤ g → -32768 ≤ inp * sar g 10 → inp * sar g 10 ≤ 32767 →
      (agc_fast g inp).1 = inp * sar g 10) ∧
    (1024 ≤ g → g < 2048 → (agc_fast g inp).1 = inp * sar g 10) := by
  have e : (agc_fast g inp).1 = (if g ≥ 1024 then i16 (inp * sar g 10) else inp) := by
    unfold agc_fast
    simp only [mul_comm]
  refine ⟨e, ?_, ?_, ?_⟩
  · intro hlt; rw [e, if_neg (by omega)]
  · intro hge l u; rw [e, if_pos hge, i16_of_range _ l u]
  · intro hge hlt
    have hs : sar g 10 = 1 := by unfold sar; omega
    rw [e, if_pos hge, hs, mul_one, i16_of_range _ h3 h4]


theorem filter_eq_acc (filterbw dg_attn : Nat) (x : List Int) (ac : Int) (h : filterbw ≤ 3) :
    filter filterbw dg_attn x ac =
      (filter_out dg_attn (filter_acc filterbw (ac :: (List.range 10).map (fun n => x.getD n 0))),
       ac :: (List.range 10).map (fun n => x.getD n 0)) := by
  unfold filter filter_acc BW1500 BW2000 BW2500 BWFULL
  interval_cases filterbw <;> rfl

theorem getD_int16 (x : List Int) (hx : ∀ v ∈ x, -32768 ≤ v ∧ v ≤ 32767) (n : Nat) :
    -32768 ≤ x.getD n 0 ∧ x.getD n 0 ≤ 32767 := by
  by_cases h : n < x.length
  · rw [List.getD_eq_getElem _ _ h]
    exact hx _ (List.getElem_mem _)
  · rw [List.getD_eq_default _ _ (by omega)]
    omega

theorem acc_1500 (x0 x1 x2 x3 x4 x5 x6 x7 x8 x9 x10 : Int)
    (h0 : -32768 ≤ x0 ∧ x0 ≤ 32767) (h1 : -32768 ≤ x1 ∧ x1 ≤ 32767)
    (h2 : -32768 ≤ x2 ∧ x2 ≤ 32767) (h3 : -32768 ≤ x3 ∧ x3 ≤ 32767)
    (h4 : -32768 ≤ x4 ∧ x4 ≤ 32767) (h5 : -32768 ≤ x5 ∧ x5 ≤ 32767)
    (h6 : -32768 ≤ x6 ∧ x6 ≤ 32767) (h7 : -32768 ≤ x7 ∧ x7 ≤ 32767)
    (h8 : -32768 ≤ x8 ∧ x8 ≤ 32767) (h9 : -32768 ≤ x9 ∧ x9 ≤ 32767)
    (h10 : -32768 ≤ x10 ∧ x10 ≤ 32767) :
    filter_acc BW1500 [x0, x1, x2, x3, x4, x5, x6, x7, x8, x9, x10]
      = fir_sum (fir_coeff BW1500) [x0, x1, x2, x3, x4, x5, x6, x7, x8, x9, x10] ∧
    -2147483648 ≤ fir_sum (fir_coeff BW1500) [x0, x1, x2, x3, x4, x5, x6, x7, x8, x9, x10] ∧
    fir_sum (fir_coeff BW1500) [x0, x1, x2, x3, x4, x5, x6, x7, x8, x9, x10] ≤ 2147483647 := by
  unfold filter_acc fir_sum fir_coeff
  simp only []
  rw [if_pos trivial, if_pos trivial]
  simp only [List.getD_cons_zero, List.getD_cons_succ]
  unfold i32 shl
  omega

theorem acc_2000 (x0 x1 x2 x3 x4 x5 x6 x7 x8 x9 x10 : Int)
    (h0 : -32768 ≤ x0 ∧ x0 ≤ 32767) (h1 : -32768 ≤ x1 ∧ x1 ≤ 32767)
    (h2 : -32768 ≤ x2 ∧ x2 ≤ 32767) (h3 : -32768 ≤ x3 ∧ x3 ≤ 32767)
    (h4 : -32768 ≤ x4 ∧ x4 ≤ 32767) (h5 : -32768 ≤ x5 ∧ x5 ≤ 32767)
    (h6 : -32768 ≤ x6 ∧ x6 ≤ 32767) (h7 : -32768 ≤ x7 ∧ x7 ≤ 32767)
    (h8 : -32768 ≤ x8 ∧ x8 ≤ 32767) (h9 : -32768 ≤ x9 ∧ x9 ≤ 32767)
    (h10 : -32768 ≤ x10 ∧ x10 ≤ 32767) :
    filter_acc BW2000 [x0, x1, x2, x3, x4, x5, x6, x7, x8, x9, x10]
      = fir_sum (fir_coeff BW2000) [x0, x1, x2, x3, x4, x5, x6, x7, x8, x9, x10] ∧
    -2147483648 ≤ fir_sum (fir_coeff BW2000) [x0, x1, x2, x3, x4, x5, x6, x7, x8, x9, x10] ∧
    fir_sum (fir_coeff BW2000) [x0, x1, x2, x3, x4, x5, x6, x7, x8, x9, x10] ≤ 2147483647 := by
  unfold filter_acc fir_sum fir_coeff
  simp only []
  rw [if_neg (show ¬ BW2000 = BW1500 by decide), if_pos trivial, if_neg (show ¬ BW2000 = BW1500 by decide), if_pos trivial]
  simp only [List.getD_cons_zero, List.getD_cons_succ]
  unfold i32 shl
  omega

theorem acc_2500 (x0 x1 x2 x3 x4 x5 x6 x7 x8 x9 x10 : Int)
    (h0 : -32768 ≤ x0 ∧ x0 ≤ 32767) (h1 : -32768 ≤ x1 ∧ x1 ≤ 32767)
    (h2 : -32768 ≤ x2 ∧ x2 ≤ 32767) (h3 : -32768 ≤ x3 ∧ x3 ≤ 32767)
    (h4 : -32768 ≤ x4 ∧ x4 ≤ 32767) (h5 : -32768 ≤ x5 ∧ x5 ≤ 32767)
    (h6 : -32768 ≤ x6 ∧ x6 ≤ 32767) (h7 : -32768 ≤ x7 ∧ x7 ≤ 32767)
    (h8 : -32768 ≤ x8 ∧ x8 ≤ 32767) (h9 : -32768 ≤ x9 ∧ x9 ≤ 32767)
    (h10 : -32768 ≤ x10 ∧ x10 ≤ 32767) :
    filter_acc BW2500 [x0, x1, x2, x3, x4, x5, x6, x7, x8, x9, x10]
      = fir_sum (fir_coeff BW2500) [x0, x1, x2, x3, x4, x5, x6, x7, x8, x9, x10] ∧
    -2147483648 ≤ fir_sum (fir_coeff BW2500) [x0, x1, x2, x3, x4, x5, x6, x7, x8, x9, x10] ∧
    fir_sum (fir_coeff BW2500) [x0, x1, x2, x3, x4, x5, x6, x7, x8, x9, x10] ≤ 2147483647 := by
  unfold filter_acc fir_sum fir_coeff
  simp only []
  rw [if_neg (show ¬ BW2500 = BW1500 by decide), if_neg (show ¬ BW2500 = BW2000 by decide), if_pos trivial, if_neg (show ¬ BW2500 = BW1500 by decide), if_neg (show ¬ BW2500 = BW2000 by decide), if_pos trivial]
  simp only [List.getD_cons_zero, List.getD_cons_succ]
  unfold i32 shl
  omega

theorem acc_full (x0 x1 x2 x3 x4 x5 x6 x7 x8 x9 x10 : Int)
    (h0 : -32768 ≤ x0 ∧ x0 ≤ 32767) (h1 : -32768 ≤ x1 ∧ x1 ≤ 32767)
    (h2 : -32768 ≤ x2 ∧ x2 ≤ 32767) (h3 : -32768 ≤ x3 ∧ x3 ≤ 32767)
    (h4 : -32768 ≤ x4 ∧ x4 ≤ 32767) (h5 : -32768 ≤ x5 ∧ x5 ≤ 32767)
    (h6 : -32768 ≤ x6 ∧ x6 ≤ 32767) (h7 : -32768 ≤ x7 ∧ x7 ≤ 32767)
    (h8 : -32768 ≤ x8 ∧ x8 ≤ 32767) (h9 : -32768 ≤ x9 ∧ x9 ≤ 32767)
    (h10 : -32768 ≤ x10 ∧ x10 ≤ 32767) :
    filter_acc BWFULL [x0, x1, x2, x3, x4, x5, x6, x7, x8, x9, x10]
      = fir_sum (fir_coeff BWFULL) [x0, x1, x2, x3, x4, x5, x6, x7, x8, x9, x10] ∧
    -2147483648 ≤ fir_sum (fir_coeff BWFULL) [x0, x1, x2, x3, x4, x5, x6, x7, x8, x9, x10] ∧
    fir_sum (fir_coeff BWFULL) [x0, x1, x2, x3, x4, x5, x6, x7, x8, x9, x10] ≤ 2147483647 := by
  unfold filter_acc fir_sum fir_coeff
  simp only []
  rw [if_neg (show ¬ BWFULL = BW1500 by decide), if_neg (show ¬ BWFULL = BW2000 by decide), if_neg (show ¬ BWFULL = BW2500 by decide), if_pos trivial, if_neg (show ¬ BWFULL = BW1500 by decide), if_neg (show ¬ BWFULL = BW2000 by decide), if_neg (show ¬ BWFULL = BW2500 by decide), if_pos trivial]
  simp only [List.getD_cons_zero, List.getD_cons_succ]
  unfold i32 shl
  omega

theorem sar_zero (k : Nat) : sar 0 k = 0 := by
  unfold sar; exact Int.zero_ediv _

theorem filter_out_zero (da : Nat) : filter_out da 0 = 0 := by
  unfold filter_out
  simp only [sar_zero]
  decide

theorem filter_acc_zero (fb : Nat) : filter_acc fb (List.replicate 11 0) = 0 := by
  unfold filter_acc BW1500 BW2000 BW2500 BWFULL
  by_cases h : fb ≤ 3
  · interval_cases fb <;> decide
  · have n0 : fb ≠ 0 := by omega
    have n1 : fb ≠ 1 := by omega
    have n2 : fb ≠ 2 := by omega
    have n3 : fb ≠ 3 := by omega
    simp only [n0, n1, n2, n3, if_false]

theorem filter_zero (fb da : Nat) :
    filter fb da (List.replicate 11 0) 0 = (0, List.replicate 11 0) := by
  by_cases h : fb ≤ 3
  · rw [filter_eq_acc fb da _ 0 h]
    have e : (0 : Int) :: (List.range 10).map (fun n => (List.replicate 11 (0 : Int)).getD n 0)
        = List.replicate 11 0 := by decide
    rw [e, filter_acc_zero, filter_out_zero]
  · have n0 : fb ≠ BW1500 := Nat.ne_of_gt (by unfold BW1500; omega)
    have n1 : fb ≠ BW2000 := Nat.ne_of_gt (by unfold BW2000; omega)
    have n2 : fb ≠ BW2500 := Nat.ne_of_gt (by unfold BW2500; omega)
    have n3 : fb ≠ BWFULL := Nat.ne_of_gt (by unfold BWFULL; omega)
    unfold filter
    simp only [n0, n1, n2, n3, if_false]
    decide

theorem agc_sel_zero (agc : Nat) (g : Int) :
    (if agc = FAST then agc_fast g 0 else (0, g)).1 = 0 := by
  split_ifs
  · unfold agc_fast
    simp only [mul_zero]
    split_ifs <;> decide
  · rfl

theorem process_zero (s : RECV) (hz : zero_signal s) :
    zero_signal (process s 0 0) ∧ duties (process s 0 0) = duties s ∧
    (process s 0 0).rxstate = s.rxstate := by
  obtain ⟨a1, a2, a3, a4, a5, a6, a7, a8, a9, b0, b1, b2, b3, b4, b5, b6, b7, b8, b9, b10,
    b11, b12, ax⟩ := hz
  have hq : hilb_q (List.replicate 14 0) 0 = (0, List.replicate 14 0) := by decide
  have hi : hilb_i (List.replicate 7 0) 0 = (0, List.replicate 7 0) := by decide
  have hc : dac_upsample 0 0 0 = ⟨0, 0, 0⟩ := by decide
  have hm : (if s.radiomode = USB then i16 (-((0 : Int) - 0)) else i16 (-((0 : Int) + 0))) = 0 := by
    split_ifs <;> decide
  have hd : duties (process s 0 0) = duties s := by
    unfold duties process
    simp only [List.filterMap_append]
    simp
  refine ⟨?_, hd, rfl⟩
  unfold zero_signal process
  simp only [a4, a5, a6, a7, a8, ax, hq, hi, hc, hm, filter_zero, agc_sel_zero, sar_zero]
  exact ⟨trivial, a2, a3, trivial, trivial, trivial, trivial, by decide, a9, b0, b1, b2, b3,
    b4, b5, b6, b7, b8, b9, b10, b11, b12, trivial⟩

theorem duties_append (e : List Event) (s s2 : RECV)
    (h : s2.trace = s.trace ++ e) :
    duties s2 = duties s ++ e.filterMap (fun e => match e with
      | Event.load_dac_audio d => some d
      | _ => none) := by
  unfold duties
  rw [h, List.filterMap_append]

theorem step_zero (s : RECV) (hz : zero_signal s) (hr : s.rxstate ≤ 7) :
    zero_signal (sample_dsp s 511) ∧
    duties (sample_dsp s 511) = duties s ++ (if s.rxstate % 2 = 1 then [128] else []) := by
  have hd : duties (sample_dsp s 511)
      = duties s ++ (call_events s 511).filterMap (fun e => match e with
          | Event.load_dac_audio d => some d
          | _ => none) :=
    duties_append _ s _ (sample_dsp_trace s 511)
  rw [hd, call_events_eq s 511 hr]
  obtain ⟨a1, a2, a3, a4, a5, a6, a7, a8, a9, b0, b1, b2, b3, b4, b5, b6, b7, b8, b9, b10,
    b11, b12, ax⟩ := hz
  have hl : load_dac_audio 0 0 0 = ⟨0, 0, 128⟩ := by decide
  have hg : ∀ p : Nat, get_adc p 511 = 0 := fun _ => rfl
  have hs1 : sar (i16 ((0 : Int) + (0 + 0) * 3 + 0)) 1 = 0 := by decide
  have hs2 : i16 ((0 : Int) + (0 + 0) * 3 + 0) = 0 := by decide
  have hsc : sample_corr 0 0 = (0, 0) := by decide
  have hi0 : i16 0 = 0 := by decide
  constructor
  · by_cases h0 : s.rxstate = 0
    · have e : sample_dsp s 511 =
          { process { s with prev_adc := 0, c0 := 0, c3 := 0,
                             trace := s.trace ++ [Event.get_adc QSDI] } 0 0
            with rxstate := 1 } := by
        unfold sample_dsp sample_dsp_dispatch
        simp only [h0, if_true, a9, b0, b1, b2, b3, b4, b5, b12, hg, hs1, hs2, hsc]
        rfl
      rw [e]
      have hz1 : zero_signal { s with prev_adc := 0, c0 := 0, c3 := 0,
                                      trace := s.trace ++ [Event.get_adc QSDI] } :=
        ⟨a1, a2, a3, a4, a5, a6, a7, a8, rfl, rfl, b1, b2, rfl, b4, b5, b6,
          b7, b8, b9, b10, b11, b12, ax⟩
      exact (process_zero _ hz1).1
    · unfold zero_signal sample_dsp sample_dsp_dispatch
      simp only [h0, if_false, a1, a2, a3, a9, b0, b1, b2, b3, b4, b5, b6, b7, b8, b9, b10,
        b11, b12, hg, hs1, hs2, hsc, hl]
      generalize s.rxstate = r at hr h0
      interval_cases r <;> first | exact absurd rfl h0 | simp [a4, a5, a6, a7, a8, ax, sar_zero, hi0]
  · generalize s.rxstate = r at hr
    rw [a1, a2, a3, hl]
    interval_cases r <;> rfl

theorem run_snoc (l : List Nat) (a : Nat) : ∀ s : RECV,
    run s (l ++ [a]) = sample_dsp (run s l) a := by
  induction l with
  | nil => intro s; rfl
  | cons b r ih => intro s; simp only [List.cons_append, run]; exact ih _

theorem run_silent (radiomode volume filterbw dg_attn agc : Nat) (n : Nat) :
    zero_signal (run (RECV.init radiomode volume filterbw dg_attn agc) (List.replicate n 511)) ∧
    (run (RECV.init radiomode volume filterbw dg_attn agc) (List.replicate n 511)).rxstate
      = n % 8 ∧
    duties (run (RECV.init radiomode volume filterbw dg_attn agc) (List.replicate n 511))
      = List.replicate (n / 2) 128 := by
  induction n with
  | zero =>
    refine ⟨?_, rfl, rfl⟩
    unfold zero_signal
    exact ⟨rfl, rfl, rfl, rfl, rfl, rfl, rfl, rfl, rfl, rfl, rfl, rfl, rfl, rfl, rfl, rfl, rfl,
      rfl, rfl, rfl, rfl, rfl, rfl⟩
  | succ k ih =>
    obtain ⟨hz, hr, hd⟩ := ih
    rw [List.replicate_succ', run_snoc]
    have hr7 : (run (RECV.init radiomode volume filterbw dg_attn agc)
        (List.replicate k 511)).rxstate ≤ 7 := by rw [hr]; omega
    obtain ⟨hz2, hd2⟩ := step_zero _ hz hr7
    refine ⟨hz2, ?_, ?_⟩
    · rw [sample_dsp_rxstate _ _ hr7, hr]; omega
    · rw [hd2, hd, hr]
      have hk : k % 8 % 2 = k % 2 := by omega
      rw [hk]
      rcases Nat.mod_two_eq_zero_or_one k with h | h
      · rw [h, if_neg (by decide), List.append_nil]
        congr 1; omega
      · rw [h, if_pos rfl]
        have e : (k + 1) / 2 = k / 2 + 1 := by omega
        rw [e, List.replicate_succ']

/-- C14: after every call of `process(i, q)`, for every input pair, every
configuration and every prior state, the value stored in `ac3` (the next input
of the reconstruction stage) is the scaled sample clamped to [-512, 511], and
lies in that range. -/
theorem process_ac3_clamped (s : RECV) (i q : Int) :
    (process s i q).ac3 = min (max (process_scaled s i q) (-512)) 511 ∧
    -512 ≤ (process s i q).ac3 ∧ (process s i q).ac3 ≤ 511 :=
  process_ac3_eq s i q

/-- C15: for every gain `g` in [1, 32767] there is an `N` such that after `N`
consecutive calls `agc_fast(0)` the gain is a fixed point of `agc_fast(0)`,
every further zero input leaves it unchanged, and the steady value is at least
1024. -/
theorem agc_zero_input_steady (g : Int) (h1 : 1 ≤ g) (h2 : g ≤ 32767) :
    ∃ N : Nat,
      (agc_fast (agc_run g (List.replicate N 0)) 0).2 = agc_run g (List.replicate N 0) ∧
      (∀ M : Nat, agc_run g (List.replicate (N + M) 0) = agc_run g (List.replicate N 0)) ∧
      1024 ≤ agc_run g (List.replicate N 0) :=
  agc_zero_steady g h1 h2

/-- The steady gain exists from the initial gain 1024. -/
theorem agc_zero_input_steady_witness :
    (1 ≤ (1024 : Int) ∧ (1024 : Int) ≤ 32767) ∧
    ∃ N : Nat,
      (agc_fast (agc_run 1024 (List.replicate N 0)) 0).2
        = agc_run 1024 (List.replicate N 0) ∧
      (∀ M : Nat, agc_run 1024 (List.replicate (N + M) 0)
        = agc_run 1024 (List.replicate N 0)) ∧
      1024 ≤ agc_run 1024 (List.replicate N 0) :=
  ⟨by decide, agc_zero_input_steady 1024 (by decide) (by decide)⟩

/-- C16 (as stated, refuted): with gain 2048 (`gain >> 10 = 2`) and input
20000, `agc_fast` returns -25536, not the product 40000. -/
theorem agc_product_wraps :
    (agc_fast 2048 20000).1 = -25536 ∧ (agc_fast 2048 20000).1 ≠ 20000 * sar 2048 10 := by
  decide

/-- C16 (amended): for every gain `g` in [1, 32767] and every int16 input,
`agc_fast` returns the product `in × (g >> 10)` reduced to 16 bits
(two's-complement wrap) when `g ≥ 1024`, and the input unchanged when
`g < 1024`; the product is exact whenever it lies in the int16 range, in
particular for every input when `1024 ≤ g < 2048`. -/
theorem agc_output_law (g inp : Int) (h1 : 1 ≤ g) (h2 : g ≤ 32767)
    (h3 : -32768 ≤ inp) (h4 : inp ≤ 32767) :
    (agc_fast g inp).1 = (if g ≥ 1024 then i16 (inp * sar g 10) else inp) ∧
    (g < 1024 → (agc_fast g inp).1 = inp) ∧
    (1024 ≤ g → -32768 ≤ inp * sar g 10 → inp * sar g 10 ≤ 32767 →
      (agc_fast g inp).1 = inp * sar g 10) ∧
    (1024 ≤ g → g < 2048 → (agc_fast g inp).1 = inp * sar g 10) :=
  agc_out_law g inp h1 h2 h3 h4

/-- The output law at gain 4096 and input 5000: the exact product 20000. -/
theorem agc_output_law_witness :
    ((1 : Int) ≤ 4096 ∧ (4096 : Int) ≤ 32767 ∧ (-32768 : Int) ≤ 5000 ∧ (5000 : Int) ≤ 32767) ∧
    (agc_fast 4096 5000).1 = 5000 * sar 4096 10 :=
  ⟨by decide,
   (agc_output_law 4096 5000 (by decide) (by decide) (by decide) (by decide)).2.2.1
     (by decide) (by decide) (by decide)⟩

/-- C17: for each bandwidth BW1500, BW2000, BW2500, BWFULL, every `dg_attn` in
0..11 and every history of int16 samples, the shift-and-add accumulator of
`filter` equals the symmetric multiply form
`Σ k_n·(x[n] + x[10-n]) + k_5·x[5]` with the coefficients of the code comments,
that sum fits in 32 bits, and the returned value is the sum arithmetically
shifted right by `11 - dg_attn` and truncated to 16 bits. Here `x` is the
history after the new sample has been shifted in (`x[0]` the newest). -/
theorem filter_fir_refinement (filterbw dg_attn : Nat) (x : List Int) (ac : Int)
    (hbw : filterbw = BW1500 ∨ filterbw = BW2000 ∨ filterbw = BW2500 ∨ filterbw = BWFULL)
    (hda : dg_attn ≤ 11)
    (hx : ∀ v ∈ x, -32768 ≤ v ∧ v ≤ 32767) (hac : -32768 ≤ ac ∧ ac ≤ 32767) :
    (filter filterbw dg_attn x ac).2 = ac :: (List.range 10).map (fun n => x.getD n 0) ∧
    filter_acc filterbw (filter filterbw dg_attn x ac).2
      = fir_sum (fir_coeff filterbw) (filter filterbw dg_attn x ac).2 ∧
    -2147483648 ≤ fir_sum (fir_coeff filterbw) (filter filterbw dg_attn x ac).2 ∧
    fir_sum (fir_coeff filterbw) (filter filterbw dg_attn x ac).2 ≤ 2147483647 ∧
    (filter filterbw dg_attn x ac).1
      = i16 (sar (fir_sum (fir_coeff filterbw) (filter filterbw dg_attn x ac).2)
          (11 - dg_attn)) := by
  have hle : filterbw ≤ 3 := by
    unfold BW1500 BW2000 BW2500 BWFULL at hbw; omega
  have hf := filter_eq_acc filterbw dg_attn x ac hle
  have eX : ac :: (List.range 10).map (fun n => x.getD n 0)
      = [ac, x.getD 0 0, x.getD 1 0, x.getD 2 0, x.getD 3 0, x.getD 4 0, x.getD 5 0,
         x.getD 6 0, x.getD 7 0, x.getD 8 0, x.getD 9 0] := rfl
  have g := getD_int16 x hx
  have hacc : filter_acc filterbw (ac :: (List.range 10).map (fun n => x.getD n 0))
        = fir_sum (fir_coeff filterbw) (ac :: (List.range 10).map (fun n => x.getD n 0)) ∧
      -2147483648 ≤ fir_sum (fir_coeff filterbw)
        (ac :: (List.range 10).map (fun n => x.getD n 0)) ∧
      fir_sum (fir_coeff filterbw) (ac :: (List.range 10).map (fun n => x.getD n 0))
        ≤ 2147483647 := by
    rw [eX]
    rcases hbw with h | h | h | h
    · rw [h]; exact acc_1500 _ _ _ _ _ _ _ _ _ _ _ hac (g 0) (g 1) (g 2) (g 3) (g 4) (g 5)
        (g 6) (g 7) (g 8) (g 9)
    · rw [h]; exact acc_2000 _ _ _ _ _ _ _ _ _ _ _ hac (g 0) (g 1) (g 2) (g 3) (g 4) (g 5)
        (g 6) (g 7) (g 8) (g 9)
    · rw [h]; exact acc_2500 _ _ _ _ _ _ _ _ _ _ _ hac (g 0) (g 1) (g 2) (g 3) (g 4) (g 5)
        (g 6) (g 7) (g 8) (g 9)
    · rw [h]; exact acc_full _ _ _ _ _ _ _ _ _ _ _ hac (g 0) (g 1) (g 2) (g 3) (g 4) (g 5)
        (g 6) (g 7) (g 8) (g 9)
  have hsh : toU8 (11 - (dg_attn : Int)) = 11 - dg_attn := by
    unfold toU8; omega
  rw [hf]
  refine ⟨rfl, hacc.1, hacc.2.1, hacc.2.2, ?_⟩
  show filter_out dg_attn _ = _
  unfold filter_out
  simp only []
  rw [hsh, hacc.1]

/-- The refinement at BW1500, `dg_attn = 3`, on a mixed history. -/
theorem filter_fir_refinement_witness :
    (BW1500 = BW1500 ∨ BW1500 = BW2000 ∨ BW1500 = BW2500 ∨ BW1500 = BWFULL) ∧
    (filter BW1500 3 [100, -200, 32767, -32768, 5, 0, -1, 7, 900, -900, 12] 1000).1
      = i16 (sar (fir_sum (fir_coeff BW1500)
          (filter BW1500 3 [100, -200, 32767, -32768, 5, 0, -1, 7, 900, -900, 12] 1000).2)
          (11 - 3)) :=
  ⟨Or.inl rfl,
   (filter_fir_refinement BW1500 3 [100, -200, 32767, -32768, 5, 0, -1, 7, 900, -900, 12] 1000
      (Or.inl rfl) (by decide) (by decide) (by decide)).2.2.2.2⟩

/-- C11: with radiomode USB, filterbw BWFULL, `dg_attn = 0`, any volume and any
agc mode, from the cold-start state, if every ADC read returns 0 (the ADC data
register reads 511 in every call), then every PWM duty value written by
`sample_dsp` is 128: after `n` calls the duties written are `n / 2` times
128. -/
theorem silence_duty_128 (volume agc n : Nat) :
    get_adc QSDI 511 = 0 ∧ get_adc QSDQ 511 = 0 ∧
    duties (run (RECV.init USB volume BWFULL 0 agc) (List.replicate n 511))
      = List.replicate (n / 2) 128 ∧
    ∀ d ∈ duties (run (RECV.init USB volume BWFULL 0 agc) (List.replicate n 511)),
      d = 128 := by
  have h := (run_silent USB volume BWFULL 0 agc n).2.2
  refine ⟨rfl, rfl, h, ?_⟩
  intro d hd
  rw [h] at hd
  exact List.eq_of_mem_replicate hd

/-! ## Decimator -/

theorem get_adc_range (p a : Nat) (h : a ≤ 1023) :
    get_adc p a = (a : Int) - 511 ∧ -511 ≤ get_adc p a ∧ get_adc p a ≤ 512 := by
  unfold get_adc i16; omega

theorem stage1_code (x0 x1 x2 x3 : Int) (h0 : -511 ≤ x0 ∧ x0 ≤ 512) (h1 : -511 ≤ x1 ∧ x1 ≤ 512)
    (h2 : -511 ≤ x2 ∧ x2 ≤ 512) (h3 : -511 ≤ x3 ∧ x3 ≤ 512) :
    sar (i16 (x0 + (x2 + x1) * 3 + x3)) 1 = stage1 x0 x1 x2 x3 ∧
    -2044 ≤ stage1 x0 x1 x2 x3 ∧ stage1 x0 x1 x2 x3 ≤ 2048 := by
  unfold stage1 sar i16; omega

theorem stage2_code (s0 s1 s2 s3 : Int) (h0 : -2044 ≤ s0 ∧ s0 ≤ 2048)
    (h1 : -2044 ≤ s1 ∧ s1 ≤ 2048) (h2 : -2044 ≤ s2 ∧ s2 ≤ 2048) (h3 : -2044 ≤ s3 ∧ s3 ≤ 2048) :
    i16 (s0 + (s2 + s1) * 3 + s3) = s0 + 3 * s1 + 3 * s2 + s3 := by
  unfold i16; omega

theorem decim_code (x0 x1 x2 x3 x4 x5 x6 x7 x8 x9 : Int)
    (h0 : -511 ≤ x0 ∧ x0 ≤ 512) (h1 : -511 ≤ x1 ∧ x1 ≤ 512) (h2 : -511 ≤ x2 ∧ x2 ≤ 512)
    (h3 : -511 ≤ x3 ∧ x3 ≤ 512) (h4 : -511 ≤ x4 ∧ x4 ≤ 512) (h5 : -511 ≤ x5 ∧ x5 ≤ 512)
    (h6 : -511 ≤ x6 ∧ x6 ≤ 512) (h7 : -511 ≤ x7 ∧ x7 ≤ 512) (h8 : -511 ≤ x8 ∧ x8 ≤ 512)
    (h9 : -511 ≤ x9 ∧ x9 ≤ 512) :
    i16 (sar (i16 (x0 + (x2 + x1) * 3 + x3)) 1
          + (sar (i16 (x4 + (x6 + x5) * 3 + x7)) 1 + sar (i16 (x2 + (x4 + x3) * 3 + x5)) 1) * 3
          + sar (i16 (x6 + (x8 + x7) * 3 + x9)) 1)
      = decim [x0, x1, x2, x3, x4, x5, x6, x7, x8, x9] := by
  obtain ⟨a0, b0⟩ := stage1_code x0 x1 x2 x3 h0 h1 h2 h3
  obtain ⟨a1, b1⟩ := stage1_code x2 x3 x4 x5 h2 h3 h4 h5
  obtain ⟨a2, b2⟩ := stage1_code x4 x5 x6 x7 h4 h5 h6 h7
  obtain ⟨a3, b3⟩ := stage1_code x6 x7 x8 x9 h6 h7 h8 h9
  rw [a0, a1, a2, a3, stage2_code _ _ _ _ b0 b1 b2 b3]
  rfl

theorem step_c_0 (s : RECV) (a : Nat) (h : s.rxstate = 0) :
    (sample_dsp s a).rxstate = 1 ∧
    (sample_dsp s a).c0 = get_adc QSDI a ∧
    (sample_dsp s a).c1 = s.c1 ∧
    (sample_dsp s a).c2 = s.c2 ∧
    (sample_dsp s a).c3 = sar (i16 (get_adc QSDI a + (s.c0 + s.c1) * 3 + s.c2)) 1 ∧
    (sample_dsp s a).c4 = s.c4 ∧
    (sample_dsp s a).c5 = s.c5 ∧
    (sample_dsp s a).c6 = s.c6 ∧
    (sample_dsp s a).c7 = s.c7 ∧
    (sample_dsp s a).c8 = s.c8 ∧
    (sample_dsp s a).c9 = s.c9 ∧
    (sample_dsp s a).c10 = s.c10 ∧
    (sample_dsp s a).c11 = s.c11 ∧
    (sample_dsp s a).c12 = s.c12 := by
  obtain ⟨radiomode, volume, filterbw, dg_attn, agc, rxstate, ocomb, ozi1, ozi2, hilb_i_v,
    hilb_q_v, gain, ozd1, ozd2, ac3, prev_adc, c0, c1, c2, c3, c4, c5, c6, c7, c8, c9, c10, c11,
    c12, x, OCR1AL, trace⟩ := s
  simp only at h
  subst h
  exact ⟨rfl, rfl, rfl, rfl, rfl, rfl, rfl, rfl, rfl, rfl, rfl, rfl, rfl, rfl⟩

theorem step_c_1 (s : RECV) (a : Nat) (h : s.rxstate = 1) :
    (sample_dsp s a).rxstate = 2 ∧
    (sample_dsp s a).c0 = s.c0 ∧
    (sample_dsp s a).c1 = s.c1 ∧
    (sample_dsp s a).c2 = s.c2 ∧
    (sample_dsp s a).c3 = s.c3 ∧
    (sample_dsp s a).c4 = s.c4 ∧
    (sample_dsp s a).c5 = s.c5 ∧
    (sample_dsp s a).c6 = s.c6 ∧
    (sample_dsp s a).c7 = get_adc QSDQ a ∧
    (sample_dsp s a).c8 = s.c7 ∧
    (sample_dsp s a).c9 = s.c9 ∧
    (sample_dsp s a).c10 = s.c10 ∧
    (sample_dsp s a).c11 = s.c11 ∧
    (sample_dsp s a).c12 = s.c12 := by
  obtain ⟨radiomode, volume, filterbw, dg_attn, agc, rxstate, ocomb, ozi1, ozi2, hilb_i_v,
    hilb_q_v, gain, ozd1, ozd2, ac3, prev_adc, c0, c1, c2, c3, c4, c5, c6, c7, c8, c9, c10, c11,
    c12, x, OCR1AL, trace⟩ := s
  simp only at h
  subst h
  exact ⟨rfl, rfl, rfl, rfl, rfl, rfl, rfl, rfl, rfl, rfl, rfl, rfl, rfl, rfl⟩

theorem step_c_2 (s : RECV) (a : Nat) (h : s.rxstate = 2) :
    (sample_dsp s a).rxstate = 3 ∧
    (sample_dsp s a).c0 = s.c0 ∧
    (sample_dsp s a).c1 = get_adc QSDI a ∧
    (sample_dsp s a).c2 = s.c1 ∧
    (sample_dsp s a).c3 = s.c3 ∧
    (sample_dsp s a).c4 = s.c4 ∧
    (sample_dsp s a).c5 = s.c5 ∧
    (sample_dsp s a).c6 = s.c6 ∧
    (sample_dsp s a).c7 = s.c7 ∧
    (sample_dsp s a).c8 = s.c8 ∧
    (sample_dsp s a).c9 = s.c9 ∧
    (sample_dsp s a).c10 = s.c10 ∧
    (sample_dsp s a).c11 = s.c11 ∧
    (sample_dsp s a).c12 = s.c12 := by
  obtain ⟨radiomode, volume, filterbw, dg_attn, agc, rxstate, ocomb, ozi1, ozi2, hilb_i_v,
    hilb_q_v, gain, ozd1, ozd2, ac3, prev_adc, c0, c1, c2, c3, c4, c5, c6, c7, c8, c9, c10, c11,
    c12, x, OCR1AL, trace⟩ := s
  simp only at h
  subst h
  exact ⟨rfl, rfl, rfl, rfl, rfl, rfl, rfl, rfl, rfl, rfl, rfl, rfl, rfl, rfl⟩

theorem step_c_3 (s : RECV) (a : Nat) (h : s.rxstate = 3) :
    (sample_dsp s a).rxstate = 4 ∧
    (sample_dsp s a).c0 = s.c0 ∧
    (sample_dsp s a).c1 = s.c1 ∧
    (sample_dsp s a).c2 = s.c2 ∧
    (sample_dsp s a).c3 = s.c3 ∧
    (sample_dsp s a).c4 = s.c4 ∧
    (sample_dsp s a).c5 = s.c5 ∧
    (sample_dsp s a).c6 = get_adc QSDQ a ∧
    (sample_dsp s a).c7 = s.c7 ∧
    (sample_dsp s a).c8 = s.c8 ∧
    (sample_dsp s a).c9 = s.c9 ∧
    (sample_dsp s a).c10 = sar (i16 (get_adc QSDQ a + (s.c6 + s.c7) * 3 + s.c8)) 1 ∧
    (sample_dsp s a).c11 = s.c10 ∧
    (sample_dsp s a).c12 = s.c12 := by
  obtain ⟨radiomode, volume, filterbw, dg_attn, agc, rxstate, ocomb, ozi1, ozi2, hilb_i_v,
    hilb_q_v, gain, ozd1, ozd2, ac3, prev_adc, c0, c1, c2, c3, c4, c5, c6, c7, c8, c9, c10, c11,
    c12, x, OCR1AL, trace⟩ := s
  simp only at h
  subst h
  exact ⟨rfl, rfl, rfl, rfl, rfl, rfl, rfl, rfl, rfl, rfl, rfl, rfl, rfl, rfl⟩

theorem step_c_4 (s : RECV) (a : Nat) (h : s.rxstate = 4) :
    (sample_dsp s a).rxstate = 5 ∧
    (sample_dsp s a).c0 = get_adc QSDI a ∧
    (sample_dsp s a).c1 = s.c1 ∧
    (sample_dsp s a).c2 = s.c2 ∧
    (sample_dsp s a).c3 = s.c3 ∧
    (sample_dsp s a).c4 = sar (i16 (get_adc QSDI a + (s.c0 + s.c1) * 3 + s.c2)) 1 ∧
    (sample_dsp s a).c5 = s.c4 ∧
    (sample_dsp s a).c6 = s.c6 ∧
    (sample_dsp s a).c7 = s.c7 ∧
    (sample_dsp s a).c8 = s.c8 ∧
    (sample_dsp s a).c9 = s.c9 ∧
    (sample_dsp s a).c10 = s.c10 ∧
    (sample_dsp s a).c11 = s.c11 ∧
    (sample_dsp s a).c12 = s.c12 := by
  obtain ⟨radiomode, volume, filterbw, dg_attn, agc, rxstate, ocomb, ozi1, ozi2, hilb_i_v,
    hilb_q_v, gain, ozd1, ozd2, ac3, prev_adc, c0, c1, c2, c3, c4, c5, c6, c7, c8, c9, c10, c11,
    c12, x, OCR1AL, trace⟩ := s
  simp only at h
  subst h
  exact ⟨rfl, rfl, rfl, rfl, rfl, rfl, rfl, rfl, rfl, rfl, rfl, rfl, rfl, rfl⟩

theorem step_c_5 (s : RECV) (a : Nat) (h : s.rxstate = 5) :
    (sample_dsp s a).rxstate = 6 ∧
    (sample_dsp s a).c0 = s.c0 ∧
    (sample_dsp s a).c1 = s.c1 ∧
    (sample_dsp s a).c2 = s.c2 ∧
    (sample_dsp s a).c3 = s.c3 ∧
    (sample_dsp s a).c4 = s.c4 ∧
    (sample_dsp s a).c5 = s.c5 ∧
    (sample_dsp s a).c6 = s.c6 ∧
    (sample_dsp s a).c7 = get_adc QSDQ a ∧
    (sample_dsp s a).c8 = s.c7 ∧
    (sample_dsp s a).c9 = s.c9 ∧
    (sample_dsp s a).c10 = s.c10 ∧
    (sample_dsp s a).c11 = s.c11 ∧
    (sample_dsp s a).c12 = s.c12 := by
  obtain ⟨radiomode, volume, filterbw, dg_attn, agc, rxstate, ocomb, ozi1, ozi2, hilb_i_v,
    hilb_q_v, gain, ozd1, ozd2, ac3, prev_adc, c0, c1, c2, c3, c4, c5, c6, c7, c8, c9, c10, c11,
    c12, x, OCR1AL, trace⟩ := s
  simp only at h
  subst h
  exact ⟨rfl, rfl, rfl, rfl, rfl, rfl, rfl, rfl, rfl, rfl, rfl, rfl, rfl, rfl⟩

theorem step_c_6 (s : RECV) (a : Nat) (h : s.rxstate = 6) :
    (sample_dsp s a).rxstate = 7 ∧
    (sample_dsp s a).c0 = s.c0 ∧
    (sample_dsp s a).c1 = get_adc QSDI a ∧
    (sample_dsp s a).c2 = s.c1 ∧
    (sample_dsp s a).c3 = s.c3 ∧
    (sample_dsp s a).c4 = s.c4 ∧
    (sample_dsp s a).c5 = s.c5 ∧
    (sample_dsp s a).c6 = s.c6 ∧
    (sample_dsp s a).c7 = s.c7 ∧
    (sample_dsp s a).c8 = s.c8 ∧
    (sample_dsp s a).c9 = s.c9 ∧
    (sample_dsp s a).c10 = s.c10 ∧
    (sample_dsp s a).c11 = s.c11 ∧
    (sample_dsp s a).c12 = s.c12 := by
  obtain ⟨radiomode, volume, filterbw, dg_attn, agc, rxstate, ocomb, ozi1, ozi2, hilb_i_v,
    hilb_q_v, gain, ozd1, ozd2, ac3, prev_adc, c0, c1, c2, c3, c4, c5, c6, c7, c8, c9, c10, c11,
    c12, x, OCR1AL, trace⟩ := s
  simp only at h
  subst h
  exact ⟨rfl, rfl, rfl, rfl, rfl, rfl, rfl, rfl, rfl, rfl, rfl, rfl, rfl, rfl⟩

theorem step_c_7 (s : RECV) (a : Nat) (h : s.rxstate = 7) :
    (sample_dsp s a).rxstate = 0 ∧
    (sample_dsp s a).c0 = s.c0 ∧
    (sample_dsp s a).c1 = s.c1 ∧
    (sample_dsp s a).c2 = s.c2 ∧
    (sample_dsp s a).c3 = s.c3 ∧
    (sample_dsp s a).c4 = s.c4 ∧
    (sample_dsp s a).c5 = s.c5 ∧
    (sample_dsp s a).c6 = get_adc QSDQ a ∧
    (sample_dsp s a).c7 = s.c7 ∧
    (sample_dsp s a).c8 = s.c8 ∧
    (sample_dsp s a).c9 = sar (i16 (get_adc QSDQ a + (s.c6 + s.c7) * 3 + s.c8)) 1 ∧
    (sample_dsp s a).c10 = s.c10 ∧
    (sample_dsp s a).c11 = s.c11 ∧
    (sample_dsp s a).c12 = i16 (sar (i16 (get_adc QSDQ a + (s.c6 + s.c7) * 3 + s.c8)) 1 + (s.c9 + s.c10) * 3 + s.c11) := by
  obtain ⟨radiomode, volume, filterbw, dg_attn, agc, rxstate, ocomb, ozi1, ozi2, hilb_i_v,
    hilb_q_v, gain, ozd1, ozd2, ac3, prev_adc, c0, c1, c2, c3, c4, c5, c6, c7, c8, c9, c10, c11,
    c12, x, OCR1AL, trace⟩ := s
  simp only at h
  subst h
  exact ⟨rfl, rfl, rfl, rfl, rfl, rfl, rfl, rfl, rfl, rfl, rfl, rfl, rfl, rfl⟩

theorem run23_fields (t : RECV) (ht : t.rxstate = 1)
    (a1 a2 a3 a4 a5 a6 a7 a8 a9 a10 a11 a12 a13 a14 a15 a16 a17 a18 a19 a20 a21 a22 a23 : Nat) :
    (run t [a1, a2, a3, a4, a5, a6, a7, a8, a9, a10, a11, a12, a13, a14, a15, a16, a17, a18, a19, a20, a21, a22, a23]).rxstate = 0 ∧
    (run t [a1, a2, a3, a4, a5, a6, a7, a8, a9, a10, a11, a12, a13, a14, a15, a16, a17, a18, a19, a20, a21, a22, a23]).c0 = get_adc QSDI a20 ∧
    (run t [a1, a2, a3, a4, a5, a6, a7, a8, a9, a10, a11, a12, a13, a14, a15, a16, a17, a18, a19, a20, a21, a22, a23]).c1 = get_adc QSDI a22 ∧
    (run t [a1, a2, a3, a4, a5, a6, a7, a8, a9, a10, a11, a12, a13, a14, a15, a16, a17, a18, a19, a20, a21, a22, a23]).c2 = get_adc QSDI a18 ∧
    (run t [a1, a2, a3, a4, a5, a6, a7, a8, a9, a10, a11, a12, a13, a14, a15, a16, a17, a18, a19, a20, a21, a22, a23]).c3 = sar (i16 (get_adc QSDI a16 + (get_adc QSDI a12 + get_adc QSDI a14) * 3 + get_adc QSDI a10)) 1 ∧
    (run t [a1, a2, a3, a4, a5, a6, a7, a8, a9, a10, a11, a12, a13, a14, a15, a16, a17, a18, a19, a20, a21, a22, a23]).c4 = sar (i16 (get_adc QSDI a20 + (get_adc QSDI a16 + get_adc QSDI a18) * 3 + get_adc QSDI a14)) 1 ∧
    (run t [a1, a2, a3, a4, a5, a6, a7, a8, a9, a10, a11, a12, a13, a14, a15, a16, a17, a18, a19, a20, a21, a22, a23]).c5 = sar (i16 (get_adc QSDI a12 + (get_adc QSDI a8 + get_adc QSDI a10) * 3 + get_adc QSDI a6)) 1 ∧
    (run t [a1, a2, a3, a4, a5, a6, a7, a8, a9, a10, a11, a12, a13, a14, a15, a16, a17, a18, a19, a20, a21, a22, a23]).c9 = sar (i16 (get_adc QSDQ a23 + (get_adc QSDQ a19 + get_adc QSDQ a21) * 3 + get_adc QSDQ a17)) 1 ∧
    (run t [a1, a2, a3, a4, a5, a6, a7, a8, a9, a10, a11, a12, a13, a14, a15, a16, a17, a18, a19, a20, a21, a22, a23]).c10 = sar (i16 (get_adc QSDQ a19 + (get_adc QSDQ a15 + get_adc QSDQ a17) * 3 + get_adc QSDQ a13)) 1 ∧
    (run t [a1, a2, a3, a4, a5, a6, a7, a8, a9, a10, a11, a12, a13, a14, a15, a16, a17, a18, a19, a20, a21, a22, a23]).c12 = i16 (sar (i16 (get_adc QSDQ a23 + (get_adc QSDQ a19 + get_adc QSDQ a21) * 3 + get_adc QSDQ a17)) 1
      + (sar (i16 (get_adc QSDQ a15 + (get_adc QSDQ a11 + get_adc QSDQ a13) * 3 + get_adc QSDQ a9)) 1
         + sar (i16 (get_adc QSDQ a19 + (get_adc QSDQ a15 + get_adc QSDQ a17) * 3 + get_adc QSDQ a13)) 1) * 3
      + sar (i16 (get_adc QSDQ a11 + (get_adc QSDQ a7 + get_adc QSDQ a9) * 3 + get_adc QSDQ a5)) 1) := by
  simp only [run]
  have h1 := step_c_1 _ a1 ht
  have h2 := step_c_2 _ a2 h1.1
  have h3 := step_c_3 _ a3 h2.1
  have h4 := step_c_4 _ a4 h3.1
  have h5 := step_c_5 _ a5 h4.1
  have h6 := step_c_6 _ a6 h5.1
  have h7 := step_c_7 _ a7 h6.1
  have h8 := step_c_0 _ a8 h7.1
  have h9 := step_c_1 _ a9 h8.1
  have h10 := step_c_2 _ a10 h9.1
  have h11 := step_c_3 _ a11 h10.1
  have h12 := step_c_4 _ a12 h11.1
  have h13 := step_c_5 _ a13 h12.1
  have h14 := step_c_6 _ a14 h13.1
  have h15 := step_c_7 _ a15 h14.1
  have h16 := step_c_0 _ a16 h15.1
  have h17 := step_c_1 _ a17 h16.1
  have h18 := step_c_2 _ a18 h17.1
  have h19 := step_c_3 _ a19 h18.1
  have h20 := step_c_4 _ a20 h19.1
  have h21 := step_c_5 _ a21 h20.1
  have h22 := step_c_6 _ a22 h21.1
  have h23 := step_c_7 _ a23 h22.1
  simp only [h23, h22, h21, h20, h19, h18, h17, h16, h15, h14, h13, h12, h11, h10, h9, h8, h7, h6, h5, h4, h3, h2, h1]
  exact ⟨trivial, trivial, trivial, trivial, trivial, trivial, trivial, trivial, trivial,
    trivial⟩
/-- C18: each decimator branch is two cascaded 1-3-3-1 stages. From any state
at phase 1 and for ADC readings in 0..1023, after three cycles: the stage-1
values computed at every second sample of a branch (Q at phases 3 and 7, I at
phases 4 and 0) are `(x[k] + 3·x[k-1] + 3·x[k-2] + x[k-3]) >> 1` over the four
most recent consecutive samples of that branch; the decimated Q value stored
in `c[12]` at phase 7 and the decimated I value passed to `process` at phase
0 are `s[m] + 3·s[m-1] + 3·s[m-2] + s[m-3]` over the four most recent stage-1
values (`decim` of the ten most recent samples); fed the same samples, both
branches give the same output. The I samples are the values `sample_corr`
returns, which are the readings `get_adc(QSDI)`. -/
theorem decimator_cascade (t : RECV) (ht : t.rxstate = 1)
    (a1 a2 a3 a4 a5 a6 a7 a8 a9 a10 a11 a12 a13 a14 a15 a16 a17 a18 a19 a20 a21 a22 a23 a24 : Nat)
    (hr : ∀ a ∈ [a1, a2, a3, a4, a5, a6, a7, a8, a9, a10, a11, a12, a13, a14, a15, a16, a17, a18, a19, a20, a21, a22, a23, a24], a ≤ 1023) :
    (run t [a1, a2, a3, a4, a5, a6, a7, a8, a9, a10, a11, a12, a13, a14, a15, a16, a17, a18, a19, a20, a21, a22, a23]).c10
      = stage1 (get_adc QSDQ a19) (get_adc QSDQ a17) (get_adc QSDQ a15) (get_adc QSDQ a13) ∧
    (run t [a1, a2, a3, a4, a5, a6, a7, a8, a9, a10, a11, a12, a13, a14, a15, a16, a17, a18, a19, a20, a21, a22, a23]).c9
      = stage1 (get_adc QSDQ a23) (get_adc QSDQ a21) (get_adc QSDQ a19) (get_adc QSDQ a17) ∧
    (run t [a1, a2, a3, a4, a5, a6, a7, a8, a9, a10, a11, a12, a13, a14, a15, a16, a17, a18, a19, a20, a21, a22, a23]).c4
      = stage1 (get_adc QSDI a20) (get_adc QSDI a18) (get_adc QSDI a16) (get_adc QSDI a14) ∧
    (sample_dsp (run t [a1, a2, a3, a4, a5, a6, a7, a8, a9, a10, a11, a12, a13, a14, a15, a16, a17, a18, a19, a20, a21, a22, a23]) a24).c3
      = stage1 (get_adc QSDI a24) (get_adc QSDI a22) (get_adc QSDI a20) (get_adc QSDI a18) ∧
    (run t [a1, a2, a3, a4, a5, a6, a7, a8, a9, a10, a11, a12, a13, a14, a15, a16, a17, a18, a19, a20, a21, a22, a23]).c12
      = decim [get_adc QSDQ a23, get_adc QSDQ a21, get_adc QSDQ a19, get_adc QSDQ a17, get_adc QSDQ a15, get_adc QSDQ a13, get_adc QSDQ a11, get_adc QSDQ a9, get_adc QSDQ a7, get_adc QSDQ a5] ∧
    call_events (run t [a1, a2, a3, a4, a5, a6, a7, a8, a9, a10, a11, a12, a13, a14, a15, a16, a17, a18, a19, a20, a21, a22, a23]) a24
      = [Event.get_adc QSDI,
         Event.process
           (decim [get_adc QSDI a24, get_adc QSDI a22, get_adc QSDI a20, get_adc QSDI a18, get_adc QSDI a16, get_adc QSDI a14, get_adc QSDI a12, get_adc QSDI a10, get_adc QSDI a8, get_adc QSDI a6])
           (decim [get_adc QSDQ a23, get_adc QSDQ a21, get_adc QSDQ a19, get_adc QSDQ a17, get_adc QSDQ a15, get_adc QSDQ a13, get_adc QSDQ a11, get_adc QSDQ a9, get_adc QSDQ a7, get_adc QSDQ a5]),
         Event.dac_upsample (run t [a1, a2, a3, a4, a5, a6, a7, a8, a9, a10, a11, a12, a13, a14, a15, a16, a17, a18, a19, a20, a21, a22, a23]).ac3] ∧
    ([get_adc QSDI a24, get_adc QSDI a22, get_adc QSDI a20, get_adc QSDI a18, get_adc QSDI a16, get_adc QSDI a14, get_adc QSDI a12, get_adc QSDI a10, get_adc QSDI a8, get_adc QSDI a6]
      = [get_adc QSDQ a23, get_adc QSDQ a21, get_adc QSDQ a19, get_adc QSDQ a17, get_adc QSDQ a15, get_adc QSDQ a13, get_adc QSDQ a11, get_adc QSDQ a9, get_adc QSDQ a7, get_adc QSDQ a5] →
      decim [get_adc QSDI a24, get_adc QSDI a22, get_adc QSDI a20, get_adc QSDI a18, get_adc QSDI a16, get_adc QSDI a14, get_adc QSDI a12, get_adc QSDI a10, get_adc QSDI a8, get_adc QSDI a6]
        = (run t [a1, a2, a3, a4, a5, a6, a7, a8, a9, a10, a11, a12, a13, a14, a15, a16, a17, a18, a19, a20, a21, a22, a23]).c12) := by
  obtain ⟨e_rx, e0, e1, e2, e3, e4, e5, e9, e10, e12⟩ :=
    run23_fields t ht a1 a2 a3 a4 a5 a6 a7 a8 a9 a10 a11 a12 a13 a14 a15 a16 a17 a18 a19 a20 a21 a22 a23
  have r5 := (get_adc_range QSDQ a5 (hr a5 (by simp))).2
  have r6 := (get_adc_range QSDI a6 (hr a6 (by simp))).2
  have r7 := (get_adc_range QSDQ a7 (hr a7 (by simp))).2
  have r8 := (get_adc_range QSDI a8 (hr a8 (by simp))).2
  have r9 := (get_adc_range QSDQ a9 (hr a9 (by simp))).2
  have r10 := (get_adc_range QSDI a10 (hr a10 (by simp))).2
  have r11 := (get_adc_range QSDQ a11 (hr a11 (by simp))).2
  have r12 := (get_adc_range QSDI a12 (hr a12 (by simp))).2
  have r13 := (get_adc_range QSDQ a13 (hr a13 (by simp))).2
  have r14 := (get_adc_range QSDI a14 (hr a14 (by simp))).2
  have r15 := (get_adc_range QSDQ a15 (hr a15 (by simp))).2
  have r16 := (get_adc_range QSDI a16 (hr a16 (by simp))).2
  have r17 := (get_adc_range QSDQ a17 (hr a17 (by simp))).2
  have r18 := (get_adc_range QSDI a18 (hr a18 (by simp))).2
  have r19 := (get_adc_range QSDQ a19 (hr a19 (by simp))).2
  have r20 := (get_adc_range QSDI a20 (hr a20 (by simp))).2
  have r21 := (get_adc_range QSDQ a21 (hr a21 (by simp))).2
  have r22 := (get_adc_range QSDI a22 (hr a22 (by simp))).2
  have r23 := (get_adc_range QSDQ a23 (hr a23 (by simp))).2
  have r24 := (get_adc_range QSDI a24 (hr a24 (by simp))).2
  have hq : (run t [a1, a2, a3, a4, a5, a6, a7, a8, a9, a10, a11, a12, a13, a14, a15, a16, a17, a18, a19, a20, a21, a22, a23]).c12
      = decim [get_adc QSDQ a23, get_adc QSDQ a21, get_adc QSDQ a19, get_adc QSDQ a17, get_adc QSDQ a15, get_adc QSDQ a13, get_adc QSDQ a11, get_adc QSDQ a9, get_adc QSDQ a7, get_adc QSDQ a5] := by
    rw [e12]
    exact decim_code _ _ _ _ _ _ _ _ _ _ r23 r21 r19 r17 r15 r13 r11 r9 r7 r5
  have hs := step_c_0 (run t [a1, a2, a3, a4, a5, a6, a7, a8, a9, a10, a11, a12, a13, a14, a15, a16, a17, a18, a19, a20, a21, a22, a23]) a24 e_rx
  have hi : i16 (sar (i16 (get_adc QSDI a24 + ((run t [a1, a2, a3, a4, a5, a6, a7, a8, a9, a10, a11, a12, a13, a14, a15, a16, a17, a18, a19, a20, a21, a22, a23]).c0 + (run t [a1, a2, a3, a4, a5, a6, a7, a8, a9, a10, a11, a12, a13, a14, a15, a16, a17, a18, a19, a20, a21, a22, a23]).c1) * 3 + (run t [a1, a2, a3, a4, a5, a6, a7, a8, a9, a10, a11, a12, a13, a14, a15, a16, a17, a18, a19, a20, a21, a22, a23]).c2)) 1
      + ((run t [a1, a2, a3, a4, a5, a6, a7, a8, a9, a10, a11, a12, a13, a14, a15, a16, a17, a18, a19, a20, a21, a22, a23]).c3 + (run t [a1, a2, a3, a4, a5, a6, a7, a8, a9, a10, a11, a12, a13, a14, a15, a16, a17, a18, a19, a20, a21, a22, a23]).c4) * 3 + (run t [a1, a2, a3, a4, a5, a6, a7, a8, a9, a10, a11, a12, a13, a14, a15, a16, a17, a18, a19, a20, a21, a22, a23]).c5)
      = decim [get_adc QSDI a24, get_adc QSDI a22, get_adc QSDI a20, get_adc QSDI a18, get_adc QSDI a16, get_adc QSDI a14, get_adc QSDI a12, get_adc QSDI a10, get_adc QSDI a8, get_adc QSDI a6] := by
    rw [e0, e1, e2, e3, e4, e5]
    exact decim_code _ _ _ _ _ _ _ _ _ _ r24 r22 r20 r18 r16 r14 r12 r10 r8 r6
  refine ⟨?_, ?_, ?_, ?_, hq, ?_, ?_⟩
  · rw [e10]; exact (stage1_code _ _ _ _ r19 r17 r15 r13).1
  · rw [e9]; exact (stage1_code _ _ _ _ r23 r21 r19 r17).1
  · rw [e4]; exact (stage1_code _ _ _ _ r20 r18 r16 r14).1
  · rw [hs.2.2.2.2.1, e0, e1, e2]; exact (stage1_code _ _ _ _ r24 r22 r20 r18).1
  · rw [call_events_eq _ a24 (by omega), if_pos e_rx, hi, hq]
  · intro h; rw [h, hq]

/-- The cascade instantiated on a cold-start state at phase 1. -/
theorem decimator_cascade_witness :
    ({ RECV.init USB 16 BWFULL 0 FAST with rxstate := 1 } : RECV).rxstate = 1 ∧
    (∀ a ∈ [600, 400, 612, 380, 590, 420, 640, 511, 0, 1023, 300, 700, 512, 510, 100, 900, 250, 750, 333, 666, 511, 512, 1, 1022], a ≤ 1023) ∧
    (run { RECV.init USB 16 BWFULL 0 FAST with rxstate := 1 }
        [600, 400, 612, 380, 590, 420, 640, 511, 0, 1023, 300, 700, 512, 510, 100, 900, 250, 750, 333, 666, 511, 512, 1]).c12
      = decim [get_adc QSDQ 1, get_adc QSDQ 511, get_adc QSDQ 333, get_adc QSDQ 250, get_adc QSDQ 100, get_adc QSDQ 512, get_adc QSDQ 300, get_adc QSDQ 0, get_adc QSDQ 640, get_adc QSDQ 590] :=
  ⟨rfl, by decide,
   (decimator_cascade { RECV.init USB 16 BWFULL 0 FAST with rxstate := 1 } rfl
      600 400 612 380 590 420 640 511 0 1023 300 700 512 510 100 900 250 750 333 666 511 512 1 1022 (by decide)).2.2.2.2.1⟩

/-! ## Register writes of `ms` and `freq` -/

theorem ms_eq (s : SI5351) (n : Int) (a b pll i ph r : Nat) :
    ms s n a b pll i ph r = { s with bus := s.bus ++ ms_writes n a b pll i ph r } := by
  unfold ms_writes ms SendRegister SendRegisters SI5351.blank
  by_cases h : n < 0
  · simp only [h, if_true, List.nil_append, List.append_assoc, List.singleton_append]
  · simp only [h, if_false, List.nil_append, List.append_assoc, List.singleton_append]

theorem freq_writes_eq (fx : Nat) (iq : Int) (fout : Int) (i q : Nat) :
    freq_writes fx iq fout i q =
      ms_writes MSNA (toU32 (((freq_plan fx fout i q).d : Int) * (freq_plan fx fout i q).fout))
          fx PLLA 0 0 0
      ++ ms_writes MS0 (toU32 (((freq_plan fx fout i q).d : Int) * (freq_plan fx fout i q).fout))
          (toU32 (freq_plan fx fout i q).fout) PLLA 0 (freq_plan fx fout i q).i
          (freq_plan fx fout i q).rdiv
      ++ ms_writes MS1 (toU32 (((freq_plan fx fout i q).d : Int) * (freq_plan fx fout i q).fout))
          (toU32 (freq_plan fx fout i q).fout) PLLA 0 (freq_plan fx fout i q).q
          (freq_plan fx fout i q).rdiv
      ++ ms_writes MS2 (toU32 (((freq_plan fx fout i q).d : Int) * (freq_plan fx fout i q).fout))
          (toU32 (freq_plan fx fout i q).fout) PLLA 0 0 (freq_plan fx fout i q).rdiv
      ++ (if iq ≠ iq_scalar fx fout i q then [(177, [0xA0])] else [])
      ++ [(3, [252])] := by
  unfold freq_writes freq iq_scalar
  simp only [ms_eq]
  by_cases h : iq ≠ Int.tdiv (i16 ((i8 ((freq_plan fx fout i q).i : Int)
      - i8 ((freq_plan fx fout i q).q : Int))
      * i16 ((toU32 (((freq_plan fx fout i q).d : Int) * (freq_plan fx fout i q).fout)
          / toU32 (freq_plan fx fout i q).fout : Nat) : Int))) 90
  · simp only [h, ne_eq, not_false_eq_true, if_true, reset, oe, SendRegister, SI5351.blank,
      List.nil_append, List.append_assoc]
    rfl
  · simp only [h, if_false, reset, oe, SendRegister, SI5351.blank, List.nil_append,
      List.append_assoc, List.append_nil]
    rfl

theorem freq_bus (s : SI5351) (fout : Int) (i q : Nat) :
    (freq s fout i q).bus = s.bus ++ freq_writes s.fxtal s.iqmsa fout i q := by
  rw [freq_writes_eq]
  unfold freq iq_scalar
  simp only [ms_eq]
  by_cases h : s.iqmsa ≠ Int.tdiv (i16 ((i8 ((freq_plan s.fxtal fout i q).i : Int)
      - i8 ((freq_plan s.fxtal fout i q).q : Int))
      * i16 ((toU32 (((freq_plan s.fxtal fout i q).d : Int) * (freq_plan s.fxtal fout i q).fout)
          / toU32 (freq_plan s.fxtal fout i q).fout : Nat) : Int))) 90
  · simp only [h, ne_eq, not_false_eq_true, if_true, reset, oe, SendRegister, List.append_assoc]
    rfl
  · simp only [h, if_false, reset, oe, SendRegister, List.append_assoc, List.append_nil]
    rfl

theorem ms_block_eq (a b _int r : Nat) :
    ms_block a b _int r =
      [ BB1 (if (if ms_msa a b = 4 then 1 else _int) ≠ 0 then 1 else _MSC),
        BB0 (if (if ms_msa a b = 4 then 1 else _int) ≠ 0 then 1 else _MSC),
        (BB2 (toU32 ((((128 * ms_msa a b) % 65536
              + (128 * (if (if ms_msa a b = 4 then 1 else _int) ≠ 0 then 0 else ms_msb a b))
                  % 4294967296
                / (if (if ms_msa a b = 4 then 1 else _int) ≠ 0 then 1 else _MSC) : Nat) : Int)
              - 512))
          ||| (r <<< 4) ||| ((if ms_msa a b = 4 then 1 else 0) * 0x0C)) % 256 ] 
      ++ (ms_block a b _int r).drop 3 := by
  rfl

theorem or_bit20 (m : Nat) (h : m < 65536) : 1048576 ||| m = 1048576 + m := by
  have e := Nat.mul_add_lt_is_or (show m < 2 ^ 16 by omega) 16
  have e2 : 2 ^ 16 * 16 = 1048576 := by norm_num
  rw [e2] at e
  exact e.symm

theorem BB2_bit20 (m : Nat) (h : m < 65536) : BB2 (1048576 ||| m) = 16 := by
  rw [or_bit20 m h]
  unfold BB2
  rw [Nat.shiftRight_eq_div_pow]
  omega

theorem BB2_small (m : Nat) (h : m < 65536) : BB2 m = 0 := by
  unfold BB2
  rw [Nat.shiftRight_eq_div_pow]
  omega

theorem BB1_eq (m : Nat) : BB1 m = m / 256 % 256 := by
  unfold BB1
  rw [Nat.shiftRight_eq_div_pow]

theorem msp2_eq (X : Nat) :
    toU32 ((X : Int) - (((X / 65536 * 65536) % 4294967296 : Nat) : Int)) = X % 65536 := by
  unfold toU32
  omega

theorem ms_msb_lt (a b : Nat) (hb : 0 < b) :
    ms_msb a b = (a % b) * 65536 / b ∧ ms_msb a b < 65536 := by
  unfold ms_msb _MSC
  have h1 : a % b < b := Nat.mod_lt _ hb
  have h2 : (a % b) * 65536 / b < 65536 := by
    apply Nat.div_lt_of_lt_mul
    nlinarith
  have h3 : (a % b) * 65536 / b % 4294967296 = (a % b) * 65536 / b :=
    Nat.mod_eq_of_lt (by omega)
  rw [h3]
  exact ⟨rfl, h2⟩

theorem ms_block_tail (a b r : Nat) (h4 : ms_msa a b ≠ 4) :
    (ms_block a b 0 r).drop 3 =
      [ BB1 (toU32 ((((128 * ms_msa a b) % 65536
              + (128 * ms_msb a b) % 4294967296 / 65536 : Nat) : Int) - 512)),
        BB0 (toU32 ((((128 * ms_msa a b) % 65536
              + (128 * ms_msb a b) % 4294967296 / 65536 : Nat) : Int) - 512)),
        BB2 (1048576 ||| ((128 * ms_msb a b) % 4294967296) % 65536),
        BB1 (((128 * ms_msb a b) % 4294967296) % 65536),
        BB0 (((128 * ms_msb a b) % 4294967296) % 65536) ] := by
  have e : ∀ m, ms_msa a b = m → m ≠ 4 → (ms_block a b 0 r).drop 3 =
      [ BB1 (toU32 ((((128 * m) % 65536
              + (128 * ms_msb a b) % 4294967296 / 65536 : Nat) : Int) - 512)),
        BB0 (toU32 ((((128 * m) % 65536
              + (128 * ms_msb a b) % 4294967296 / 65536 : Nat) : Int) - 512)),
        BB2 (1048576 ||| ((128 * ms_msb a b) % 4294967296) % 65536),
        BB1 (((128 * ms_msb a b) % 4294967296) % 65536),
        BB0 (((128 * ms_msb a b) % 4294967296) % 65536) ] := by
    intro m hm h
    rw [← msp2_eq ((128 * ms_msb a b) % 4294967296)]
    unfold ms_block ms_writes ms SendRegisters SendRegister SI5351.blank
    have hm2 : a / b % 65536 = m := hm
    simp only [hm2, h, if_false]
    rfl
  exact e _ rfl h4

theorem ms_block_frac (a b r : Nat) (h4 : ms_msa a b ≠ 4) :
    ms_block a b 0 r =
      [ 0, 0,
        (BB2 (toU32 ((((128 * ms_msa a b) % 65536
              + (128 * ms_msb a b) % 4294967296 / 65536 : Nat) : Int) - 512))
          ||| (r <<< 4)) % 256,
        BB1 (toU32 ((((128 * ms_msa a b) % 65536
              + (128 * ms_msb a b) % 4294967296 / 65536 : Nat) : Int) - 512)),
        BB0 (toU32 ((((128 * ms_msa a b) % 65536
              + (128 * ms_msb a b) % 4294967296 / 65536 : Nat) : Int) - 512)),
        16,
        BB1 (((128 * ms_msb a b) % 4294967296) % 65536),
        BB0 (((128 * ms_msb a b) % 4294967296) % 65536) ] := by
  have hlt : ((128 * ms_msb a b) % 4294967296) % 65536 < 65536 := Nat.mod_lt _ (by norm_num)
  have z0 : BB1 65536 = 0 := by decide
  have z1 : BB0 65536 = 0 := by decide
  have zm : _MSC = 65536 := rfl
  rw [ms_block_eq, ms_block_tail a b r h4, BB2_bit20 _ hlt]
  simp only [h4, if_false, ne_eq, not_true_eq_false, z0, z1, zm, Nat.zero_mul, Nat.or_zero,
    List.cons_append, List.nil_append]

theorem ms_head (n : Int) (a b pll _int phase r : Nat) :
    (ms_writes n a b pll _int phase r).head? = some (toU8 (n * 8 + 42), ms_block a b _int r) := by
  unfold ms_block ms_writes ms SendRegisters SendRegister SI5351.blank
  by_cases h : n < 0
  · simp only [h, if_true]
    rfl
  · simp only [h, if_false]
    rfl

theorem decode_P3_frac (a b r : Nat) (h4 : ms_msa a b ≠ 4) :
    decode_P3 (ms_block a b 0 r) = 65536 := by
  rw [ms_block_frac a b r h4]
  simp only [decode_P3, List.getD_cons_succ, List.getD_cons_zero]

theorem decode_P2_frac (a b r : Nat) (h4 : ms_msa a b ≠ 4) :
    decode_P2 (ms_block a b 0 r) = ((128 * ms_msb a b) % 4294967296) % 65536 := by
  rw [ms_block_frac a b r h4]
  have e : ∀ m : Nat, m < 65536 →
      decode_P2 [0, 0, (BB2 (toU32 ((((128 * ms_msa a b) % 65536
              + (128 * ms_msb a b) % 4294967296 / 65536 : Nat) : Int) - 512))
          ||| (r <<< 4)) % 256,
        BB1 (toU32 ((((128 * ms_msa a b) % 65536
              + (128 * ms_msb a b) % 4294967296 / 65536 : Nat) : Int) - 512)),
        BB0 (toU32 ((((128 * ms_msa a b) % 65536
              + (128 * ms_msb a b) % 4294967296 / 65536 : Nat) : Int) - 512)),
        16, BB1 m, BB0 m] = m := by
    intro m hm
    show (16 % 16) * 65536 + BB1 m * 256 + BB0 m = m
    rw [BB1_eq]
    unfold BB0
    omega
  exact e _ (Nat.mod_lt _ (by norm_num))

theorem decode_P1_frac (a b r : Nat) (h4 : ms_msa a b ≠ 4)
    (h : 512 ≤ (128 * ms_msa a b) % 65536 + (128 * ms_msb a b) % 4294967296 / 65536)
    (h2 : (128 * ms_msa a b) % 65536 + (128 * ms_msb a b) % 4294967296 / 65536 < 66048) :
    decode_P1 (ms_block a b 0 r) + 512 =
      (128 * ms_msa a b) % 65536 + (128 * ms_msb a b) % 4294967296 / 65536 ∧
    rdiv_field (ms_block a b 0 r) = r % 8 := by
  rw [ms_block_frac a b r h4]
  have e : ∀ m : Nat, m < 65536 → ∀ t1 t2 t3 : Nat,
      decode_P1 [0, 0, (BB2 m ||| (r <<< 4)) % 256, BB1 m, BB0 m, t1, t2, t3] = m ∧
      rdiv_field [0, 0, (BB2 m ||| (r <<< 4)) % 256, BB1 m, BB0 m, t1, t2, t3] = r % 8 := by
    intro m hm t1 t2 t3
    show (((BB2 m ||| (r <<< 4)) % 256) % 4) * 65536 + BB1 m * 256 + BB0 m = m ∧
      (((BB2 m ||| (r <<< 4)) % 256) / 16) % 8 = r % 8
    rw [BB2_small m hm, BB1_eq, Nat.zero_or, Nat.shiftLeft_eq]
    unfold BB0
    omega
  have k : toU32 ((((128 * ms_msa a b) % 65536
              + (128 * ms_msb a b) % 4294967296 / 65536 : Nat) : Int) - 512) + 512
      = (128 * ms_msa a b) % 65536 + (128 * ms_msb a b) % 4294967296 / 65536 := by
    unfold toU32
    omega
  have k2 := e _ (by omega : toU32 ((((128 * ms_msa a b) % 65536
              + (128 * ms_msb a b) % 4294967296 / 65536 : Nat) : Int) - 512) < 65536) 16
    (BB1 (((128 * ms_msb a b) % 4294967296) % 65536))
    (BB0 (((128 * ms_msb a b) % 4294967296) % 65536))
  exact ⟨by rw [k2.1]; exact k, k2.2⟩

/-! ## Multisynth encoding -/

theorem frac_floor (a b : Nat) (hb : 0 < b) :
    (a / b * 65536 + (a % b) * 65536 / b) * b ≤ a * 65536 ∧
    a * 65536 < (a / b * 65536 + (a % b) * 65536 / b + 1) * b := by
  have h1 : (a % b) * 65536 / b * b ≤ (a % b) * 65536 := Nat.div_mul_le_self _ _
  have h2 : (a % b) * 65536 < ((a % b) * 65536 / b + 1) * b := by
    have := Nat.lt_succ_self ((a % b) * 65536 / b)
    exact (Nat.div_lt_iff_lt_mul hb).mp this
  have h3 : b * (a / b) + a % b = a := Nat.div_add_mod a b
  constructor
  · nlinarith
  · nlinarith

theorem frac_floor_rat (a b m f : Nat) (hb : 0 < b)
    (h1 : (m * 65536 + f) * b ≤ a * 65536) (h2 : a * 65536 < (m * 65536 + f + 1) * b) :
    (m : ℚ) + (f : ℚ) / 65536 ≤ (a : ℚ) / (b : ℚ) ∧
    (a : ℚ) / (b : ℚ) < (m : ℚ) + (f : ℚ) / 65536 + 1 / 65536 := by
  have hbq : (0 : ℚ) < (b : ℚ) := by exact_mod_cast hb
  have H1 : ((m : ℚ) * 65536 + f) * b ≤ (a : ℚ) * 65536 := by exact_mod_cast h1
  have H2 : (a : ℚ) * 65536 < ((m : ℚ) * 65536 + f + 1) * b := by exact_mod_cast h2
  constructor
  · rw [le_div_iff₀ hbq]
    linarith
  · rw [div_lt_iff₀ hbq]
    linarith

/-- C19 (as claimed, refuted): in fractional mode the encoded denominator is
not `2^17`. For `ms(n, 438588000, 27000000)` (the PLL block of a 7074 kHz
setting, `msa = 16`) bytes 0, 1 and the high nibble of byte 5 of the register
block hold `P3 = 65536`. -/
theorem ms_P3_is_not_two_pow_17 :
    ms_msa 438588000 27000000 = 16 ∧
    ms_block 438588000 27000000 0 0 = [0, 0, 0, 6, 31, 16, 59, 0] ∧
    decode_P3 (ms_block 438588000 27000000 0 0) = 65536 ∧
    ¬ (∀ a b r : Nat, ms_msa a b ≠ 4 → decode_P3 (ms_block a b 0 r) = 2 ^ 17) := by
  refine ⟨by decide, by decide, by decide, ?_⟩
  intro h
  have h1 := h 438588000 27000000 0 (by decide)
  revert h1
  decide

/-- C19 (amended): in fractional mode (`_int = 0` and `msa ≠ 4`) every `ms`
call writes first, to register `n*8 + 42`, a register block whose fractional
denominator `P3` (bytes 0 and 1 plus the high nibble of byte 5) is the fixed
value `_MSC = 2^16`, whatever the divider, the output, the PLL, the phase and
`rdiv`. -/
theorem ms_P3_is_two_pow_16 (n : Int) (a b pll phase r : Nat) (h4 : ms_msa a b ≠ 4) :
    (ms_writes n a b pll 0 phase r).head? = some (toU8 (n * 8 + 42), ms_block a b 0 r) ∧
    decode_P3 (ms_block a b 0 r) = 2 ^ 16 ∧
    decode_P3 (ms_block a b 0 r) = _MSC :=
  ⟨ms_head n a b pll 0 phase r, decode_P3_frac a b r h4, decode_P3_frac a b r h4⟩

theorem ms_P3_is_two_pow_16_witness :
    ms_msa 438588000 27000000 ≠ 4 ∧
    ((ms_writes MSNA 438588000 27000000 PLLA 0 0 0).head?
        = some (toU8 (MSNA * 8 + 42), ms_block 438588000 27000000 0 0) ∧
      decode_P3 (ms_block 438588000 27000000 0 0) = 2 ^ 16 ∧
      decode_P3 (ms_block 438588000 27000000 0 0) = _MSC) :=
  ⟨by decide, ms_P3_is_two_pow_16 MSNA 438588000 27000000 PLLA 0 0 (by decide)⟩

/-- C20 (as claimed, refuted): with `div_nom = 65636`, `div_denom = 1` the
quotient `65636 ≥ 5` does not fit the `uint16_t msa`: `ms` encodes `msa = 100`,
`P1 = 128*100 - 512`, and the encoded ratio is off by `65536`. -/
theorem ms_encoding_truncates_msa :
    5 ≤ 65636 / 1 ∧
    ms_msa 65636 1 = 100 ∧ ms_msb 65636 1 = 0 ∧
    decode_P1 (ms_block 65636 1 0 0) = 12288 ∧
    (decode_P1 (ms_block 65636 1 0 0) : Int) ≠ 128 * (65636 / 1) + 128 * 0 / 65536 - 512 ∧
    ¬ ((65636 : ℚ) / 1 - ((ms_msa 65636 1 : ℚ) + (ms_msb 65636 1 : ℚ) / 65536) < 1 / 65536) ∧
    ¬ (∀ a b : Nat, 0 < b → 5 ≤ a / b →
        (decode_P1 (ms_block a b 0 0) : Int)
          = 128 * ((a / b : Nat) : Int) + ((128 * ms_msb a b / _MSC : Nat) : Int) - 512) := by
  have e1 : ms_msa 65636 1 = 100 := by decide
  have e2 : ms_msb 65636 1 = 0 := by decide
  have e3 : decode_P1 (ms_block 65636 1 0 0) = 12288 := by decide
  refine ⟨by decide, e1, e2, e3, ?_, ?_, ?_⟩
  · rw [e3]; decide
  · rw [e1, e2]; norm_num
  · intro h
    have h1 := h 65636 1 (by decide) (by decide)
    rw [e3, e2] at h1
    revert h1
    decide

/-- C20 (amended): multisynth encoding is exact and approximates from below
on the dividers the 16-bit arithmetic of `ms` covers: for every `div_denom > 0`
and `div_nom` with `5 ≤ msa = floor(div_nom / div_denom) ≤ 511` and `_int = 0`,
`ms` computes `msa` without truncation,
`msb = floor((div_nom mod div_denom)·2^16 / div_denom) < 2^16`, `P3 = msc`,
`P2 = (128·msb) mod msc < P3` and `P1 = 128·msa + floor(128·msb / msc) − 512`
without overflow, so that `(P1 + 512)·P3 + P2 = 128·(msa·msc + msb)` and
`0 ≤ div_nom/div_denom − (msa + msb/msc) < 1/msc`. -/
theorem ms_encoding_exact (a b r : Nat) (hb : 0 < b) (h5 : 5 ≤ a / b) (h511 : a / b ≤ 511) :
    ms_msa a b = a / b ∧
    ms_msb a b = (a % b) * 2 ^ 16 / b ∧ ms_msb a b < 2 ^ 16 ∧
    decode_P3 (ms_block a b 0 r) = _MSC ∧
    decode_P2 (ms_block a b 0 r) = (128 * ms_msb a b) % _MSC ∧
    decode_P2 (ms_block a b 0 r) < decode_P3 (ms_block a b 0 r) ∧
    (decode_P1 (ms_block a b 0 r) : Int)
      = 128 * (ms_msa a b : Int) + ((128 * ms_msb a b / _MSC : Nat) : Int) - 512 ∧
    128 * ms_msa a b < 2 ^ 16 ∧ 128 * ms_msb a b < 2 ^ 32 ∧
    512 ≤ 128 * ms_msa a b + 128 * ms_msb a b / _MSC ∧
    128 * ms_msa a b + 128 * ms_msb a b / _MSC < 2 ^ 32 ∧
    (decode_P1 (ms_block a b 0 r) + 512) * decode_P3 (ms_block a b 0 r)
        + decode_P2 (ms_block a b 0 r)
      = 128 * (ms_msa a b * _MSC + ms_msb a b) ∧
    (0 : ℚ) ≤ (a : ℚ) / (b : ℚ) - ((ms_msa a b : ℚ) + (ms_msb a b : ℚ) / (_MSC : ℚ)) ∧
    (a : ℚ) / (b : ℚ) - ((ms_msa a b : ℚ) + (ms_msb a b : ℚ) / (_MSC : ℚ)) < 1 / (_MSC : ℚ) := by
  have ha : ms_msa a b = a / b := by
    unfold ms_msa
    exact Nat.mod_eq_of_lt (by omega)
  have h4 : ms_msa a b ≠ 4 := by omega
  obtain ⟨hb1, hb2⟩ := ms_msb_lt a b hb
  have hm : _MSC = 65536 := rfl
  have p3 := decode_P3_frac a b r h4
  have p2 := decode_P2_frac a b r h4
  have p1 := (decode_P1_frac a b r h4 (by omega) (by omega)).1
  have ff := frac_floor a b hb
  rw [← ha, ← hb1] at ff
  have fq := frac_floor_rat a b (ms_msa a b) (ms_msb a b) hb ff.1 ff.2
  have hmq : ((65536 : Nat) : ℚ) = 65536 := by norm_num
  rw [p3, p2, hm, hmq]
  refine ⟨ha, ?_, ?_, rfl, ?_, ?_, ?_, ?_, ?_, ?_, ?_, ?_, ?_, ?_⟩
  · rw [hb1]; norm_num
  · omega
  · omega
  · omega
  · omega
  · omega
  · omega
  · omega
  · omega
  · rw [show decode_P1 (ms_block a b 0 r) + 512
        = 128 * ms_msa a b % 65536 + 128 * ms_msb a b % 4294967296 / 65536 from p1]
    omega
  · linarith [fq.1]
  · linarith [fq.2]

theorem ms_encoding_exact_witness :
    0 < 27000000 ∧ 5 ≤ 438588000 / 27000000 ∧ 438588000 / 27000000 ≤ 511 ∧
    ms_msa 438588000 27000000 = 438588000 / 27000000 ∧
    decode_P1 (ms_block 438588000 27000000 0 0) = 1567 ∧
    decode_P2 (ms_block 438588000 27000000 0 0) = 15104 ∧
    (1567 + 512) * 65536 + 15104 = 128 * (16 * 65536 + 15990) :=
  ⟨by decide, by decide, by decide,
    (ms_encoding_exact 438588000 27000000 0 (by decide) (by decide) (by decide)).1,
    by decide, by decide, by decide⟩

/-! ## PLL reset and the register bytes of two settings -/

theorem ms_writes_pll (n : Int) (a b pll i ph r : Nat) (h : n < 0) :
    ms_writes n a b pll i ph r =
      [(toU8 (n * 8 + 42), ms_block a b i r),
       (toU8 (n + 16 + 8), [(0x80 ||| (0x40 * (if ms_msa a b = 4 then 1 else i))) % 256])] := by
  unfold ms_block ms_writes ms SendRegisters SendRegister SI5351.blank
  simp only [h, if_true]
  rfl

theorem ms_writes_out (n : Int) (a b pll i ph r : Nat) (h : ¬ n < 0) :
    ms_writes n a b pll i ph r =
      [(toU8 (n * 8 + 42), ms_block a b i r),
       (toU8 (n + 16),
         [((pll * 0x20) ||| 0x0C ||| 3 ||| (0x40 * (if ms_msa a b = 4 then 1 else i))) % 256]),
       (toU8 (n + 165),
         [(((if (if ms_msa a b = 4 then 1 else i) = 0 then 1 else 0) * ph * ms_msa a b) % 65536
           / 90) % 256])] := by
  unfold ms_block ms_writes ms SendRegisters SendRegister SI5351.blank
  simp only [h, if_false]
  rfl

theorem freq_writes_shape (fx : Nat) (iq : Int) (fout : Int) (i q : Nat) :
    ∃ b0 c0 b1 c1 p1 b2 c2 p2 b3 c3 p3,
      freq_writes fx iq fout i q =
        [(26, b0), (22, c0), (42, b1), (16, c1), (165, p1), (50, b2), (17, c2), (166, p2),
         (58, b3), (18, c3), (167, p3)]
        ++ (if iq ≠ iq_scalar fx fout i q then [(177, [0xA0])] else [])
        ++ [(3, [252])] := by
  rw [freq_writes_eq, ms_writes_pll MSNA _ _ _ _ _ _ (by decide),
    ms_writes_out MS0 _ _ _ _ _ _ (by decide), ms_writes_out MS1 _ _ _ _ _ _ (by decide),
    ms_writes_out MS2 _ _ _ _ _ _ (by decide)]
  exact ⟨_, _, _, _, _, _, _, _, _, _, _, rfl⟩

theorem reset_iff (fx : Nat) (iq : Int) (fout : Int) (i q : Nat) :
    ((177, [0xA0]) ∈ freq_writes fx iq fout i q ↔ iq ≠ iq_scalar fx fout i q) ∧
    (∀ v, (177, v) ∈ freq_writes fx iq fout i q → v = [0xA0]) := by
  obtain ⟨b0, c0, b1, c1, p1, b2, c2, p2, b3, c3, p3, e⟩ := freq_writes_shape fx iq fout i q
  rw [e]
  by_cases h : iq ≠ iq_scalar fx fout i q
  · simp [h]
  · simp [h]

theorem freq_fxtal (s : SI5351) (fout : Int) (i q : Nat) :
    (freq s fout i q).fxtal = s.fxtal ∧
    (freq s fout i q).iqmsa =
      (if s.iqmsa ≠ iq_scalar s.fxtal fout i q then i16 (iq_scalar s.fxtal fout i q)
       else s.iqmsa) := by
  unfold freq iq_scalar
  simp only [ms_eq]
  by_cases h : s.iqmsa ≠ Int.tdiv (i16 ((i8 ((freq_plan s.fxtal fout i q).i : Int)
      - i8 ((freq_plan s.fxtal fout i q).q : Int))
      * i16 ((toU32 (((freq_plan s.fxtal fout i q).d : Int) * (freq_plan s.fxtal fout i q).fout)
          / toU32 (freq_plan s.fxtal fout i q).fout : Nat) : Int))) 90
  · simp only [h, ne_eq, not_false_eq_true, if_true, reset, oe, SendRegister]
    exact ⟨trivial, trivial⟩
  · simp only [h, if_false, reset, oe, SendRegister]
    exact ⟨trivial, trivial⟩

theorem scalar_7074000 : iq_scalar 27000000 7074000 0 90 = -62 := by decide

theorem scalar_7074001 : iq_scalar 27000000 7074001 0 90 = -62 := by decide

theorem writes_7074001 :
    freq_writes 27000000 (-62) 7074001 0 90 =
      [(26, [0, 0, 0, 6, 31, 16, 59, 0]), (22, [128]),
       (42, [0, 0, 0, 29, 0, 16, 0, 0]), (16, [15]), (165, [0]),
       (50, [0, 0, 0, 29, 0, 16, 0, 0]), (17, [15]), (166, [62]),
       (58, [0, 0, 0, 29, 0, 16, 0, 0]), (18, [15]), (167, [0]), (3, [252])] := by
  decide

theorem writes_7074000 (iq : Int) :
    freq_writes 27000000 iq 7074000 0 90 =
      [(26, [0, 0, 0, 6, 31, 16, 59, 0]), (22, [128]),
       (42, [0, 0, 0, 29, 0, 16, 0, 0]), (16, [15]), (165, [0]),
       (50, [0, 0, 0, 29, 0, 16, 0, 0]), (17, [15]), (166, [62]),
       (58, [0, 0, 0, 29, 0, 16, 0, 0]), (18, [15]), (167, [0])]
      ++ (if iq ≠ -62 then [(177, [0xA0])] else []) ++ [(3, [252])] := by
  have a0 : ms_writes MSNA
      (toU32 (((freq_plan 27000000 7074000 0 90).d : Int) * (freq_plan 27000000 7074000 0 90).fout))
      27000000 PLLA 0 0 0 = [(26, [0, 0, 0, 6, 31, 16, 59, 0]), (22, [128])] := by decide
  have a1 : ms_writes MS0
      (toU32 (((freq_plan 27000000 7074000 0 90).d : Int) * (freq_plan 27000000 7074000 0 90).fout))
      (toU32 (freq_plan 27000000 7074000 0 90).fout) PLLA 0 (freq_plan 27000000 7074000 0 90).i
      (freq_plan 27000000 7074000 0 90).rdiv
      = [(42, [0, 0, 0, 29, 0, 16, 0, 0]), (16, [15]), (165, [0])] := by decide
  have a2 : ms_writes MS1
      (toU32 (((freq_plan 27000000 7074000 0 90).d : Int) * (freq_plan 27000000 7074000 0 90).fout))
      (toU32 (freq_plan 27000000 7074000 0 90).fout) PLLA 0 (freq_plan 27000000 7074000 0 90).q
      (freq_plan 27000000 7074000 0 90).rdiv
      = [(50, [0, 0, 0, 29, 0, 16, 0, 0]), (17, [15]), (166, [62])] := by decide
  have a3 : ms_writes MS2
      (toU32 (((freq_plan 27000000 7074000 0 90).d : Int) * (freq_plan 27000000 7074000 0 90).fout))
      (toU32 (freq_plan 27000000 7074000 0 90).fout) PLLA 0 0
      (freq_plan 27000000 7074000 0 90).rdiv
      = [(58, [0, 0, 0, 29, 0, 16, 0, 0]), (18, [15]), (167, [0])] := by decide
  rw [freq_writes_eq, a0, a1, a2, a3, scalar_7074000]
  rfl

theorem freq_7074000_state (t : SI5351) (ht : t.fxtal = 27000000) :
    (freq t 7074000 0 90).fxtal = 27000000 ∧ (freq t 7074000 0 90).iqmsa = -62 := by
  obtain ⟨h1, h2⟩ := freq_fxtal t 7074000 0 90
  rw [ht] at h1 h2
  rw [scalar_7074000] at h2
  refine ⟨h1, ?_⟩
  rw [h2]
  by_cases h : t.iqmsa ≠ -62
  · rw [if_pos h]
    decide
  · rw [if_neg h]
    exact not_not.mp h

theorem bytes_7074001 (iq : Int) :
    ∀ rb ∈ reg_bytes (freq_writes 27000000 (-62) 7074001 0 90),
      rb ∈ reg_bytes (freq_writes 27000000 iq 7074000 0 90) := by
  intro rb h
  have hA : freq_writes 27000000 (-62) 7074001 0 90 =
      [(26, [0, 0, 0, 6, 31, 16, 59, 0]), (22, [128]),
       (42, [0, 0, 0, 29, 0, 16, 0, 0]), (16, [15]), (165, [0]),
       (50, [0, 0, 0, 29, 0, 16, 0, 0]), (17, [15]), (166, [62]),
       (58, [0, 0, 0, 29, 0, 16, 0, 0]), (18, [15]), (167, [0])] ++ [(3, [252])] := by
    rw [writes_7074001]
    rfl
  rw [hA] at h
  rw [writes_7074000]
  unfold reg_bytes at h ⊢
  rw [List.flatMap_append, List.mem_append] at h
  rw [List.flatMap_append, List.flatMap_append, List.mem_append, List.mem_append]
  rcases h with h | h
  · exact Or.inl (Or.inl h)
  · exact Or.inr h

/-- C12: `freq(fout, i, q)` appends its register writes to the bus, and among
them the PLL hard reset (0xA0 to register 177) occurs if and only if the phase
scalar `((int8)i − (int8)q)·(fvcoa/fout)/90` differs from the stored `iqmsa`;
nothing else is ever written to register 177. With `fxtal = 27000000`,
`freq(7074000, 0, 90)` leaves `iqmsa = -62`, which is the phase scalar of
7074001 as well, so the following `freq(7074001, 0, 90)` issues no reset, and
every register byte it writes either repeats a byte of the first call or lies
in the PLL feedback multisynth block, registers 26..33. -/
theorem freq_reset_iff_phase_scalar_differs (s : SI5351) (fout : Int) (i q : Nat)
    (t : SI5351) (ht : t.fxtal = 27000000) :
    (freq s fout i q).bus = s.bus ++ freq_writes s.fxtal s.iqmsa fout i q ∧
    ((177, [0xA0]) ∈ freq_writes s.fxtal s.iqmsa fout i q
      ↔ s.iqmsa ≠ iq_scalar s.fxtal fout i q) ∧
    (∀ v, (177, v) ∈ freq_writes s.fxtal s.iqmsa fout i q → v = [0xA0]) ∧
    (freq t 7074000 0 90).iqmsa = -62 ∧
    iq_scalar 27000000 7074001 0 90 = -62 ∧
    (freq (freq t 7074000 0 90) 7074001 0 90).bus
      = t.bus ++ freq_writes 27000000 t.iqmsa 7074000 0 90
          ++ freq_writes 27000000 (-62) 7074001 0 90 ∧
    (∀ v, (177, v) ∉ freq_writes 27000000 (-62) 7074001 0 90) ∧
    (∀ rb ∈ reg_bytes (freq_writes 27000000 (-62) 7074001 0 90),
      rb ∈ reg_bytes (freq_writes 27000000 t.iqmsa 7074000 0 90)
        ∨ (26 ≤ rb.1 ∧ rb.1 ≤ 33)) := by
  obtain ⟨h1, h2⟩ := freq_7074000_state t ht
  refine ⟨freq_bus s fout i q, (reset_iff _ _ _ _ _).1, (reset_iff _ _ _ _ _).2, h2,
    scalar_7074001, ?_, ?_, ?_⟩
  · rw [freq_bus, freq_bus, h1, h2, ht]
  · intro v hv
    rw [writes_7074001] at hv
    simp at hv
  · intro rb h
    exact Or.inl (bytes_7074001 t.iqmsa rb h)

theorem freq_reset_iff_phase_scalar_differs_witness :
    ({ SI5351.blank with fxtal := 27000000 } : SI5351).fxtal = 27000000 ∧
    ((177, [0xA0]) ∈ freq_writes 27000000 0 7074000 0 90 ↔ (0 : Int) ≠ iq_scalar 27000000 7074000 0 90) ∧
    (∀ v, (177, v) ∉ freq_writes 27000000 (-62) 7074001 0 90) :=
  ⟨rfl,
   (freq_reset_iff_phase_scalar_differs { SI5351.blank with fxtal := 27000000 } 7074000 0 90
      { SI5351.blank with fxtal := 27000000 } rfl).2.1,
   (freq_reset_iff_phase_scalar_differs { SI5351.blank with fxtal := 27000000 } 7074000 0 90
      { SI5351.blank with fxtal := 27000000 } rfl).2.2.2.2.2.2.1⟩

/-! ## Output divider of the low band -/

theorem prediv_lt (fx : Nat) (f : Int) : freq_prediv fx f < 65536 := by
  have e : d_estimate fx f < 65536 := by
    unfold d_estimate
    simp only []
    split_ifs <;> omega
  unfold freq_prediv d_widen d_even
  split_ifs <;> omega

theorem freq_cache (s : SI5351) (fout : Int) (i q : Nat) :
    (freq s fout i q)._div = (freq_plan s.fxtal fout i q).d % 256 ∧
    (freq s fout i q)._msa128min512
      = toU16 (((freq_fvcoa s.fxtal fout i q / s.fxtal * 128 : Nat) : Int) - 512) ∧
    (freq s fout i q)._msb128
      = ((freq_fvcoa s.fxtal fout i q % s.fxtal) * _MSC * 128 / s.fxtal) % 4294967296 ∧
    (freq s fout i q).pll_regs = s.pll_regs ∧
    (freq s fout i q)._fout = (freq_plan s.fxtal fout i q).fout := by
  unfold freq freq_fvcoa
  simp only [ms_eq]
  by_cases h : s.iqmsa ≠ Int.tdiv (i16 ((i8 ((freq_plan s.fxtal fout i q).i : Int)
      - i8 ((freq_plan s.fxtal fout i q).q : Int))
      * i16 ((toU32 (((freq_plan s.fxtal fout i q).d : Int) * (freq_plan s.fxtal fout i q).fout)
          / toU32 (freq_plan s.fxtal fout i q).fout : Nat) : Int))) 90
  · simp only [h, ne_eq, not_false_eq_true, if_true, reset, oe, SendRegister]
    exact ⟨trivial, trivial, trivial, trivial, trivial⟩
  · simp only [h, if_false, reset, oe, SendRegister]
    exact ⟨trivial, trivial, trivial, trivial, trivial⟩

theorem freq_calc_fast_eq (s : SI5351) (df : Int) :
    freq_calc_fast s df =
      { s with pll_regs :=
          (((s.pll_regs.set 4 (BB0 (fast_msp1 s df))).set 5 ((_MSC &&& 0xF0000) >>> 12)).set 6
            (BB1 (fast_msp2 s df))).set 7 (BB0 (fast_msp2 s df)) } := rfl

/-- C22 (refuted on the code): `freq` stores `d` in the `uint8_t _div`, so the
cached divider is `d mod 256`, not `d`. With `fxtal = 27000000`,
`freq(500000, 0, 90)` computes `fvcoa = 380·500000` from `d = 380` and caches
`_div = 124`; `freq(4000, 0, 90)` (scaled by 128) has `d = 372` and caches
116. `freq_calc_fast(100)` then scales the offset by 124 instead of 380. -/
theorem freq_div_cache_is_truncated :
    (∀ (s : SI5351) (fout : Int) (i q : Nat),
      (freq s fout i q)._div = (freq_plan s.fxtal fout i q).d % 256) ∧
    (freq_plan 27000000 500000 0 90).d = 380 ∧
    freq_fvcoa 27000000 500000 0 90 = 380 * 500000 ∧
    (freq { SI5351.blank with fxtal := 27000000 } 500000 0 90)._div = 124 ∧
    (freq_plan 27000000 4000 0 90).d = 372 ∧
    (freq { SI5351.blank with fxtal := 27000000 } 4000 0 90)._div = 116 ∧
    fast_msb128 (freq { SI5351.blank with fxtal := 27000000 } 500000 0 90) 100 = 314541 ∧
    fast_msb128 { freq { SI5351.blank with fxtal := 27000000 } 500000 0 90 with _div := 380 } 100
      = 322495 := by
  refine ⟨fun s fout i q => (freq_cache s fout i q).1, by decide, by decide, by decide,
    by decide, by decide, by decide, by decide⟩

theorem list8 (l : List Nat) (h : l.length = 8) :
    ∃ r0 r1 r2 r3 r4 r5 r6 r7, l = [r0, r1, r2, r3, r4, r5, r6, r7] := by
  match l, h with
  | [r0, r1, r2, r3, r4, r5, r6, r7], _ => exact ⟨r0, r1, r2, r3, r4, r5, r6, r7, rfl⟩

theorem msb128_bounds (R fx : Nat) (hx : 0 < fx) :
    128 * (R * 65536 / fx) ≤ R * 65536 * 128 / fx ∧
    R * 65536 * 128 / fx < 128 * (R * 65536 / fx) + 128 := by
  have h1 : R * 65536 / fx * fx ≤ R * 65536 := Nat.div_mul_le_self _ _
  have h2 : R * 65536 < (R * 65536 / fx + 1) * fx :=
    (Nat.div_lt_iff_lt_mul hx).mp (Nat.lt_succ_self _)
  constructor
  · rw [Nat.le_div_iff_mul_le hx]
    nlinarith
  · rw [Nat.div_lt_iff_lt_mul hx]
    nlinarith

theorem fast_msb128_zero (s : SI5351) : fast_msb128 s 0 = s._msb128 % 4294967296 := by
  have e : Int.tdiv (i64 (i32 ((s._div : Int) * 0) * (_MSC : Int) * 128)) (s.fxtal : Int) = 0 := by
    rw [Int.mul_zero]
    have z : i32 0 = 0 := by decide
    rw [z, Int.zero_mul, Int.zero_mul]
    have z2 : i64 0 = 0 := by decide
    rw [z2]
    exact Int.zero_tdiv _
  unfold fast_msb128
  rw [e]
  unfold toU32
  omega

theorem freq_block_pll (fx : Nat) (iq : Int) (fout : Int) (i q : Nat) :
    block_at (freq_writes fx iq fout i q) 26 = ms_block (freq_fvcoa fx fout i q) fx 0 0 := by
  rw [freq_writes_eq, ms_writes_pll MSNA _ _ _ _ _ _ (by decide),
    ms_writes_out MS0 _ _ _ _ _ _ (by decide), ms_writes_out MS1 _ _ _ _ _ _ (by decide),
    ms_writes_out MS2 _ _ _ _ _ _ (by decide)]
  rfl

theorem fast_zero_values (fv fx : Nat) (hx : 0 < fx) (h5 : 5 ≤ fv / fx) (h511 : fv / fx ≤ 511)
    (s1 : SI5351)
    (ha : s1._msa128min512 = toU16 (((fv / fx * 128 : Nat) : Int) - 512))
    (hb : s1._msb128 = ((fv % fx) * _MSC * 128 / fx) % 4294967296) :
    fast_msp1 s1 0 = decode_P1 (ms_block fv fx 0 0) ∧
    fast_msp2 s1 0 / 128 = decode_P2 (ms_block fv fx 0 0) / 128 ∧
    decode_P2 (ms_block fv fx 0 0) % 128 = 0 ∧
    fast_msp1 s1 0 = toU32 ((((128 * ms_msa fv fx) % 65536
              + (128 * ms_msb fv fx) % 4294967296 / 65536 : Nat) : Int) - 512) ∧
    fast_msp2 s1 0 / 128 = (((128 * ms_msb fv fx) % 4294967296) % 65536) / 128 ∧
    ms_msa fv fx ≠ 4 := by
  have hm : ms_msa fv fx = fv / fx := by
    unfold ms_msa
    exact Nat.mod_eq_of_lt (by omega)
  have h4 : ms_msa fv fx ≠ 4 := by omega
  obtain ⟨hb1, hb2⟩ := ms_msb_lt fv fx hx
  obtain ⟨u1, u2⟩ := msb128_bounds (fv % fx) fx hx
  rw [← hb1] at u1 u2
  have hB : s1._msb128 = (fv % fx) * 65536 * 128 / fx := by
    rw [hb]
    have : _MSC = 65536 := rfl
    rw [this]
    exact Nat.mod_eq_of_lt (by omega)
  have p1 := (decode_P1_frac fv fx 0 h4 (by omega) (by omega)).1
  have p2 := decode_P2_frac fv fx 0 h4
  have f0 := fast_msb128_zero s1
  have mc : _MSC = 65536 := rfl
  have ha2 : s1._msa128min512 = 128 * (fv / fx) - 512 := by
    rw [ha]
    unfold toU16
    omega
  have k1 : fast_msp1 s1 0 + 512 = 128 * (fv / fx) + (fv % fx) * 65536 * 128 / fx / 65536 := by
    unfold fast_msp1
    rw [f0, ha2, hB, mc]
    omega
  have k2 : fast_msp2 s1 0 = (fv % fx) * 65536 * 128 / fx % 65536 := by
    unfold fast_msp2
    rw [f0, hB]
    omega
  rw [hm] at p1
  refine ⟨by omega, by omega, by omega, ?_, by omega, h4⟩
  rw [hm]
  unfold toU32
  omega

theorem fast_zero_bytes (m1 m2 p1 p2 r : Nat) (l : List Nat) (hl : l.length = 8)
    (e1 : m1 = p1) (e2 : m2 / 128 = p2 / 128) :
    (((((l.set 4 (BB0 m1)).set 5 ((_MSC &&& 0xF0000) >>> 12)).set 6 (BB1 m2)).set 7
        (BB0 m2)).getD 4 0
      = [0, 0, (BB2 p1 ||| (r <<< 4)) % 256, BB1 p1, BB0 p1, 16, BB1 p2, BB0 p2].getD 4 0) ∧
    (((((l.set 4 (BB0 m1)).set 5 ((_MSC &&& 0xF0000) >>> 12)).set 6 (BB1 m2)).set 7
        (BB0 m2)).getD 5 0
      = [0, 0, (BB2 p1 ||| (r <<< 4)) % 256, BB1 p1, BB0 p1, 16, BB1 p2, BB0 p2].getD 5 0) ∧
    (((((l.set 4 (BB0 m1)).set 5 ((_MSC &&& 0xF0000) >>> 12)).set 6 (BB1 m2)).set 7
        (BB0 m2)).getD 6 0
      = [0, 0, (BB2 p1 ||| (r <<< 4)) % 256, BB1 p1, BB0 p1, 16, BB1 p2, BB0 p2].getD 6 0) ∧
    (((((l.set 4 (BB0 m1)).set 5 ((_MSC &&& 0xF0000) >>> 12)).set 6 (BB1 m2)).set 7
        (BB0 m2)).getD 7 0 / 128
      = [0, 0, (BB2 p1 ||| (r <<< 4)) % 256, BB1 p1, BB0 p1, 16, BB1 p2, BB0 p2].getD 7 0
          / 128) := by
  obtain ⟨r0, r1, r2, r3, r4, r5, r6, r7, rfl⟩ := list8 l hl
  have c16 : (_MSC &&& 0xF0000) >>> 12 = 16 := by decide
  simp only [List.set_cons_succ, List.set_cons_zero, List.getD_cons_succ, List.getD_cons_zero,
    c16, e1, BB1_eq]
  unfold BB0
  refine ⟨trivial, trivial, ?_, ?_⟩
  · omega
  · omega

/-- C23 (as claimed, refuted): with `fxtal = 15000`, `freq(163850001, 0, 90)`
has `fvcoa / fxtal = 65540 ≥ 5`, which the `uint16_t msa` of `ms` holds as 4:
`ms` switches to integer mode and writes the MSNA block
`[0, 1, 12, 0, 0, 0, 0, 0]`, while `freq_calc_fast(0)` leaves
`pll_regs[4..7] = [0, 16, 13, 27]`: `pll_regs[5]` and `pll_regs[6]` differ
from bytes 5 and 6 of the block. -/
theorem fast_zero_differs_on_wrapped_msa :
    0 < ({ SI5351.blank with fxtal := 15000, pll_regs := List.replicate 8 0 } : SI5351).fxtal ∧
    5 ≤ freq_fvcoa 15000 163850001 0 90 / 15000 ∧
    block_at (freq_writes 15000 0 163850001 0 90) 26 = [0, 1, 12, 0, 0, 0, 0, 0] ∧
    (freq_calc_fast
      (freq { SI5351.blank with fxtal := 15000, pll_regs := List.replicate 8 0 } 163850001 0 90)
      0).pll_regs = [0, 0, 0, 0, 0, 16, 13, 27] ∧
    (freq_calc_fast
      (freq { SI5351.blank with fxtal := 15000, pll_regs := List.replicate 8 0 } 163850001 0 90)
      0).pll_regs.getD 5 0 ≠ (block_at (freq_writes 15000 0 163850001 0 90) 26).getD 5 0 ∧
    (freq_calc_fast
      (freq { SI5351.blank with fxtal := 15000, pll_regs := List.replicate 8 0 } 163850001 0 90)
      0).pll_regs.getD 6 0 ≠ (block_at (freq_writes 15000 0 163850001 0 90) 26).getD 6 0 := by
  refine ⟨by decide, by decide, by decide, by decide, by decide, by decide⟩

/-- C23 (amended): zero nudge agrees with the full computation on the PLL
dividers the 16-bit arithmetic covers: after `freq(fout, i, q)` with
`fxtal > 0` and PLL integer part `5 ≤ fvcoa / fxtal ≤ 511`,
`freq_calc_fast(0)` computes an `msp1` equal to the `P1` of the MSNA block
that `freq` wrote through `ms(MSNA, fvcoa, fxtal)`, and an `msp2` whose bits
15..7 equal those of the `P2` of that block (whose bits 6..0 are all zero);
thus `pll_regs[4]`, `pll_regs[5]` and `pll_regs[6]` equal bytes 4, 5 and 6 of
the block, and `pll_regs[7]` can differ from byte 7 only in its low 7 bits. -/
theorem fast_zero_agrees_with_ms (s : SI5351) (fout : Int) (i q : Nat)
    (hx : 0 < s.fxtal) (hl : s.pll_regs.length = 8)
    (h5 : 5 ≤ freq_fvcoa s.fxtal fout i q / s.fxtal)
    (h511 : freq_fvcoa s.fxtal fout i q / s.fxtal ≤ 511) :
    block_at (freq_writes s.fxtal s.iqmsa fout i q) 26
      = ms_block (freq_fvcoa s.fxtal fout i q) s.fxtal 0 0 ∧
    fast_msp1 (freq s fout i q) 0
      = decode_P1 (block_at (freq_writes s.fxtal s.iqmsa fout i q) 26) ∧
    fast_msp2 (freq s fout i q) 0 / 128
      = decode_P2 (block_at (freq_writes s.fxtal s.iqmsa fout i q) 26) / 128 ∧
    decode_P2 (block_at (freq_writes s.fxtal s.iqmsa fout i q) 26) % 128 = 0 ∧
    (freq_calc_fast (freq s fout i q) 0).pll_regs.getD 4 0
      = (block_at (freq_writes s.fxtal s.iqmsa fout i q) 26).getD 4 0 ∧
    (freq_calc_fast (freq s fout i q) 0).pll_regs.getD 5 0
      = (block_at (freq_writes s.fxtal s.iqmsa fout i q) 26).getD 5 0 ∧
    (freq_calc_fast (freq s fout i q) 0).pll_regs.getD 6 0
      = (block_at (freq_writes s.fxtal s.iqmsa fout i q) 26).getD 6 0 ∧
    (freq_calc_fast (freq s fout i q) 0).pll_regs.getD 7 0 / 128
      = (block_at (freq_writes s.fxtal s.iqmsa fout i q) 26).getD 7 0 / 128 := by
  obtain ⟨_, ca, cb, cp, _⟩ := freq_cache s fout i q
  obtain ⟨v1, v2, v3, v4, v5, h4⟩ :=
    fast_zero_values (freq_fvcoa s.fxtal fout i q) s.fxtal hx h5 h511 (freq s fout i q) ca cb
  have hb := freq_block_pll s.fxtal s.iqmsa fout i q
  have e : (freq_calc_fast (freq s fout i q) 0).pll_regs
      = ((((freq s fout i q).pll_regs.set 4 (BB0 (fast_msp1 (freq s fout i q) 0))).set 5
          ((_MSC &&& 0xF0000) >>> 12)).set 6 (BB1 (fast_msp2 (freq s fout i q) 0))).set 7
            (BB0 (fast_msp2 (freq s fout i q) 0)) := by
    rw [freq_calc_fast_eq]
  have bytes := fast_zero_bytes _ _ _ _ 0 (freq s fout i q).pll_regs (by rw [cp]; exact hl)
    v4 v5
  rw [hb]
  refine ⟨rfl, v1, v2, v3, ?_, ?_, ?_, ?_⟩
  · rw [e, ms_block_frac _ _ _ h4]; exact bytes.1
  · rw [e, ms_block_frac _ _ _ h4]; exact bytes.2.1
  · rw [e, ms_block_frac _ _ _ h4]; exact bytes.2.2.1
  · rw [e, ms_block_frac _ _ _ h4]; exact bytes.2.2.2

theorem fast_zero_agrees_with_ms_witness :
    (0 < ({ SI5351.blank with fxtal := 27000000, pll_regs := List.replicate 8 0 } : SI5351).fxtal ∧
     ({ SI5351.blank with fxtal := 27000000, pll_regs := List.replicate 8 0 }
        : SI5351).pll_regs.length = 8 ∧
     5 ≤ freq_fvcoa 27000000 7074000 0 90 / 27000000 ∧
     freq_fvcoa 27000000 7074000 0 90 / 27000000 ≤ 511) ∧
    fast_msp1
      (freq { SI5351.blank with fxtal := 27000000, pll_regs := List.replicate 8 0 } 7074000 0 90)
      0 = decode_P1 (block_at (freq_writes 27000000 0 7074000 0 90) 26) :=
  ⟨⟨by decide, by decide, by decide, by decide⟩,
   (fast_zero_agrees_with_ms
      { SI5351.blank with fxtal := 27000000, pll_regs := List.replicate 8 0 } 7074000 0 90
      (by decide) (by decide) (by decide) (by decide)).2.1⟩

/-! ## Comb and integrator of the reconstruction stage -/

theorem recon_cycle_step (r : Recon) (a y z : Int)
    (ha : -512 ≤ a ∧ a ≤ 511) (hy : -512 ≤ y ∧ y ≤ 511) (hz : -512 ≤ z ∧ z ≤ 511)
    (h1 : r.ozd1 = y) (h2 : r.ozd2 = y - z) (h3 : r.ozi1 = 4 * (y - z))
    (h4 : r.ozi2 = 10 * y + 6 * z) :
    (recon_cycle r a).ozd1 = a ∧ (recon_cycle r a).ozd2 = a - y ∧
    (recon_cycle r a).ozi1 = 4 * (a - y) ∧ (recon_cycle r a).ozi2 = 10 * a + 6 * y ∧
    ((recon_cycle r a).OCR1AL : Int) = min (max (sar (10 * a + 6 * y) 5 + 128) 0) 255 ∧
    (∀ v ∈ recon_sums r a, fits16 v) := by
  have e0 : i16 (a - y) = a - y := i16_of_range _ (by omega) (by omega)
  have e1 : i16 (a - y - (y - z)) = a - 2 * y + z := by
    rw [i16_of_range _ (by omega) (by omega)]; ring
  have a1 : i16 (a - 2 * y + z + 4 * (y - z)) = a + 2 * y - 3 * z := by
    rw [i16_of_range _ (by omega) (by omega)]; ring
  have b1 : i16 (a + 2 * y - 3 * z + (10 * y + 6 * z)) = a + 12 * y + 3 * z := by
    rw [i16_of_range _ (by omega) (by omega)]; ring
  have a2 : i16 (a - 2 * y + z + (a + 2 * y - 3 * z)) = 2 * a - 2 * z := by
    rw [i16_of_range _ (by omega) (by omega)]; ring
  have b2 : i16 (2 * a - 2 * z + (a + 12 * y + 3 * z)) = 3 * a + 12 * y + z := by
    rw [i16_of_range _ (by omega) (by omega)]; ring
  have a3 : i16 (a - 2 * y + z + (2 * a - 2 * z)) = 3 * a - 2 * y - z := by
    rw [i16_of_range _ (by omega) (by omega)]; ring
  have b3 : i16 (3 * a - 2 * y - z + (3 * a + 12 * y + z)) = 6 * a + 10 * y := by
    rw [i16_of_range _ (by omega) (by omega)]; ring
  have a4 : i16 (a - 2 * y + z + (3 * a - 2 * y - z)) = 4 * (a - y) := by
    rw [i16_of_range _ (by omega) (by omega)]; ring
  have b4 : i16 (4 * (a - y) + (6 * a + 10 * y)) = 10 * a + 6 * y := by
    rw [i16_of_range _ (by omega) (by omega)]; ring
  simp only [recon_cycle, recon_sums, integ_run, load_dac_audio, dac_upsample, h1, h2, h3, h4,
    e0, e1, a1, b1, a2, b2, a3, b3, a4, b4]
  refine ⟨trivial, trivial, trivial, trivial, ?_, ?_⟩
  · unfold toU8 sar
    omega
  · intro v hv
    simp only [List.mem_cons, List.mem_singleton, List.not_mem_nil, or_false] at hv
    unfold fits16
    unfold sar at hv
    omega

theorem recon_inv (a : Nat → Int) (h0 : a 0 = 0) (hr : ∀ k, -512 ≤ a k ∧ a k ≤ 511) :
    ∀ k, (recon_after a k).ozd1 = a k ∧ (recon_after a k).ozd2 = a k - a (k - 1) ∧
      (recon_after a k).ozi1 = 4 * (a k - a (k - 1)) ∧
      (recon_after a k).ozi2 = 10 * a k + 6 * a (k - 1) := by
  intro k
  induction k with
  | zero =>
    simp only [recon_after, Recon.zero, h0]
    decide
  | succ n ih =>
    obtain ⟨i1, i2, i3, i4⟩ := ih
    have s := recon_cycle_step (recon_after a n) (a (n + 1)) (a n) (a (n - 1))
      (hr _) (hr _) (hr _) i1 i2 i3 i4
    exact ⟨s.1, s.2.1, s.2.2.1, s.2.2.2.1⟩

theorem step_r_0 (s : RECV) (a : Nat) (h : s.rxstate = 0) :
    (sample_dsp s a).rxstate = 1 ∧
    (sample_dsp s a).ozd1 = (dac_upsample s.ozd1 s.ozd2 s.ac3).ozd1 ∧
    (sample_dsp s a).ozd2 = (dac_upsample s.ozd1 s.ozd2 s.ac3).ozd2 ∧
    (sample_dsp s a).ocomb = (dac_upsample s.ozd1 s.ozd2 s.ac3).ocomb ∧
    (sample_dsp s a).ozi1 = s.ozi1 ∧
    (sample_dsp s a).ozi2 = s.ozi2 ∧
    (sample_dsp s a).OCR1AL = s.OCR1AL := by
  obtain ⟨radiomode, volume, filterbw, dg_attn, agc, rxstate, ocomb, ozi1, ozi2, hilb_i_v,
    hilb_q_v, gain, ozd1, ozd2, ac3, prev_adc, c0, c1, c2, c3, c4, c5, c6, c7, c8, c9, c10, c11,
    c12, x, OCR1AL, trace⟩ := s
  simp only at h
  subst h
  exact ⟨rfl, rfl, rfl, rfl, rfl, rfl, rfl⟩

theorem step_r_1 (s : RECV) (a : Nat) (h : s.rxstate = 1) :
    (sample_dsp s a).rxstate = 2 ∧
    (sample_dsp s a).ozd1 = s.ozd1 ∧
    (sample_dsp s a).ozd2 = s.ozd2 ∧
    (sample_dsp s a).ocomb = s.ocomb ∧
    (sample_dsp s a).ozi1 = (load_dac_audio s.ocomb s.ozi1 s.ozi2).ozi1 ∧
    (sample_dsp s a).ozi2 = (load_dac_audio s.ocomb s.ozi1 s.ozi2).ozi2 ∧
    (sample_dsp s a).OCR1AL = (load_dac_audio s.ocomb s.ozi1 s.ozi2).OCR1AL := by
  obtain ⟨radiomode, volume, filterbw, dg_attn, agc, rxstate, ocomb, ozi1, ozi2, hilb_i_v,
    hilb_q_v, gain, ozd1, ozd2, ac3, prev_adc, c0, c1, c2, c3, c4, c5, c6, c7, c8, c9, c10, c11,
    c12, x, OCR1AL, trace⟩ := s
  simp only at h
  subst h
  exact ⟨rfl, rfl, rfl, rfl, rfl, rfl, rfl⟩

theorem step_r_2 (s : RECV) (a : Nat) (h : s.rxstate = 2) :
    (sample_dsp s a).rxstate = 3 ∧
    (sample_dsp s a).ozd1 = s.ozd1 ∧
    (sample_dsp s a).ozd2 = s.ozd2 ∧
    (sample_dsp s a).ocomb = s.ocomb ∧
    (sample_dsp s a).ozi1 = s.ozi1 ∧
    (sample_dsp s a).ozi2 = s.ozi2 ∧
    (sample_dsp s a).OCR1AL = s.OCR1AL := by
  obtain ⟨radiomode, volume, filterbw, dg_attn, agc, rxstate, ocomb, ozi1, ozi2, hilb_i_v,
    hilb_q_v, gain, ozd1, ozd2, ac3, prev_adc, c0, c1, c2, c3, c4, c5, c6, c7, c8, c9, c10, c11,
    c12, x, OCR1AL, trace⟩ := s
  simp only at h
  subst h
  exact ⟨rfl, rfl, rfl, rfl, rfl, rfl, rfl⟩

theorem step_r_3 (s : RECV) (a : Nat) (h : s.rxstate = 3) :
    (sample_dsp s a).rxstate = 4 ∧
    (sample_dsp s a).ozd1 = s.ozd1 ∧
    (sample_dsp s a).ozd2 = s.ozd2 ∧
    (sample_dsp s a).ocomb = s.ocomb ∧
    (sample_dsp s a).ozi1 = (load_dac_audio s.ocomb s.ozi1 s.ozi2).ozi1 ∧
    (sample_dsp s a).ozi2 = (load_dac_audio s.ocomb s.ozi1 s.ozi2).ozi2 ∧
    (sample_dsp s a).OCR1AL = (load_dac_audio s.ocomb s.ozi1 s.ozi2).OCR1AL := by
  obtain ⟨radiomode, volume, filterbw, dg_attn, agc, rxstate, ocomb, ozi1, ozi2, hilb_i_v,
    hilb_q_v, gain, ozd1, ozd2, ac3, prev_adc, c0, c1, c2, c3, c4, c5, c6, c7, c8, c9, c10, c11,
    c12, x, OCR1AL, trace⟩ := s
  simp only at h
  subst h
  exact ⟨rfl, rfl, rfl, rfl, rfl, rfl, rfl⟩

theorem step_r_4 (s : RECV) (a : Nat) (h : s.rxstate = 4) :
    (sample_dsp s a).rxstate = 5 ∧
    (sample_dsp s a).ozd1 = s.ozd1 ∧
    (sample_dsp s a).ozd2 = s.ozd2 ∧
    (sample_dsp s a).ocomb = s.ocomb ∧
    (sample_dsp s a).ozi1 = s.ozi1 ∧
    (sample_dsp s a).ozi2 = s.ozi2 ∧
    (sample_dsp s a).OCR1AL = s.OCR1AL := by
  obtain ⟨radiomode, volume, filterbw, dg_attn, agc, rxstate, ocomb, ozi1, ozi2, hilb_i_v,
    hilb_q_v, gain, ozd1, ozd2, ac3, prev_adc, c0, c1, c2, c3, c4, c5, c6, c7, c8, c9, c10, c11,
    c12, x, OCR1AL, trace⟩ := s
  simp only at h
  subst h
  exact ⟨rfl, rfl, rfl, rfl, rfl, rfl, rfl⟩

theorem step_r_5 (s : RECV) (a : Nat) (h : s.rxstate = 5) :
    (sample_dsp s a).rxstate = 6 ∧
    (sample_dsp s a).ozd1 = s.ozd1 ∧
    (sample_dsp s a).ozd2 = s.ozd2 ∧
    (sample_dsp s a).ocomb = s.ocomb ∧
    (sample_dsp s a).ozi1 = (load_dac_audio s.ocomb s.ozi1 s.ozi2).ozi1 ∧
    (sample_dsp s a).ozi2 = (load_dac_audio s.ocomb s.ozi1 s.ozi2).ozi2 ∧
    (sample_dsp s a).OCR1AL = (load_dac_audio s.ocomb s.ozi1 s.ozi2).OCR1AL := by
  obtain ⟨radiomode, volume, filterbw, dg_attn, agc, rxstate, ocomb, ozi1, ozi2, hilb_i_v,
    hilb_q_v, gain, ozd1, ozd2, ac3, prev_adc, c0, c1, c2, c3, c4, c5, c6, c7, c8, c9, c10, c11,
    c12, x, OCR1AL, trace⟩ := s
  simp only at h
  subst h
  exact ⟨rfl, rfl, rfl, rfl, rfl, rfl, rfl⟩

theorem step_r_6 (s : RECV) (a : Nat) (h : s.rxstate = 6) :
    (sample_dsp s a).rxstate = 7 ∧
    (sample_dsp s a).ozd1 = s.ozd1 ∧
    (sample_dsp s a).ozd2 = s.ozd2 ∧
    (sample_dsp s a).ocomb = s.ocomb ∧
    (sample_dsp s a).ozi1 = s.ozi1 ∧
    (sample_dsp s a).ozi2 = s.ozi2 ∧
    (sample_dsp s a).OCR1AL = s.OCR1AL := by
  obtain ⟨radiomode, volume, filterbw, dg_attn, agc, rxstate, ocomb, ozi1, ozi2, hilb_i_v,
    hilb_q_v, gain, ozd1, ozd2, ac3, prev_adc, c0, c1, c2, c3, c4, c5, c6, c7, c8, c9, c10, c11,
    c12, x, OCR1AL, trace⟩ := s
  simp only at h
  subst h
  exact ⟨rfl, rfl, rfl, rfl, rfl, rfl, rfl⟩

theorem step_r_7 (s : RECV) (a : Nat) (h : s.rxstate = 7) :
    (sample_dsp s a).rxstate = 0 ∧
    (sample_dsp s a).ozd1 = s.ozd1 ∧
    (sample_dsp s a).ozd2 = s.ozd2 ∧
    (sample_dsp s a).ocomb = s.ocomb ∧
    (sample_dsp s a).ozi1 = (load_dac_audio s.ocomb s.ozi1 s.ozi2).ozi1 ∧
    (sample_dsp s a).ozi2 = (load_dac_audio s.ocomb s.ozi1 s.ozi2).ozi2 ∧
    (sample_dsp s a).OCR1AL = (load_dac_audio s.ocomb s.ozi1 s.ozi2).OCR1AL := by
  obtain ⟨radiomode, volume, filterbw, dg_attn, agc, rxstate, ocomb, ozi1, ozi2, hilb_i_v,
    hilb_q_v, gain, ozd1, ozd2, ac3, prev_adc, c0, c1, c2, c3, c4, c5, c6, c7, c8, c9, c10, c11,
    c12, x, OCR1AL, trace⟩ := s
  simp only at h
  subst h
  exact ⟨rfl, rfl, rfl, rfl, rfl, rfl, rfl⟩

theorem cycle_recon (s : RECV) (h : s.rxstate = 0) (x0 x1 x2 x3 x4 x5 x6 x7 : Nat) :
    (run s [x0, x1, x2, x3, x4, x5, x6, x7]).rxstate = 0 ∧
    (run s [x0, x1, x2, x3, x4, x5, x6, x7]).recon = recon_cycle s.recon s.ac3 := by
  simp only [run, RECV.recon, recon_cycle, integ_run, Recon.mk.injEq]
  have h0 := step_r_0 _ x0 h
  have h1 := step_r_1 _ x1 h0.1
  have h2 := step_r_2 _ x2 h1.1
  have h3 := step_r_3 _ x3 h2.1
  have h4 := step_r_4 _ x4 h3.1
  have h5 := step_r_5 _ x5 h4.1
  have h6 := step_r_6 _ x6 h5.1
  have h7 := step_r_7 _ x7 h6.1
  simp only [h7, h6, h5, h4, h3, h2, h1, h0]
  exact ⟨trivial, trivial, trivial, trivial, trivial, trivial, trivial⟩

/-- C21: comb/integrator interpolation invariant. One cycle of eight
`sample_dsp` calls from phase 0 acts on the reconstruction state as one
`dac_upsample(ac3)` followed by four `load_dac_audio` calls. Starting from the
all-zero reconstruction state, for every sequence of comb inputs `a 1, a 2, …`
in [-512, 511] (with `a 0 = 0`, and `a 0` again in place of `a (-1)`), after
the `k`-th cycle `ozi1 = 4·(a k − a (k−1))` and `ozi2 = 10·a k + 6·a (k−1)`,
every sum formed in the cycle fits `int16_t`, and the last duty value of the
cycle is `clamp(((10·a k + 6·a (k−1)) >> 5) + 128, 0, 255)`. -/
theorem comb_integrator_invariant (a : Nat → Int) (h0 : a 0 = 0)
    (hr : ∀ k, -512 ≤ a k ∧ a k ≤ 511) (k : Nat) (hk : 1 ≤ k) :
    (∀ (s : RECV) (x0 x1 x2 x3 x4 x5 x6 x7 : Nat), s.rxstate = 0 →
      (run s [x0, x1, x2, x3, x4, x5, x6, x7]).recon = recon_cycle s.recon s.ac3) ∧
    recon_after a k = recon_cycle (recon_after a (k - 1)) (a k) ∧
    (recon_after a k).ozi1 = 4 * (a k - a (k - 1)) ∧
    (recon_after a k).ozi2 = 10 * a k + 6 * a (k - 1) ∧
    (∀ v ∈ recon_sums (recon_after a (k - 1)) (a k), fits16 v) ∧
    ((recon_after a k).OCR1AL : Int) = min (max (sar (10 * a k + 6 * a (k - 1)) 5 + 128) 0) 255 := by
  obtain ⟨n, rfl⟩ : ∃ n, k = n + 1 := ⟨k - 1, by omega⟩
  obtain ⟨i1, i2, i3, i4⟩ := recon_inv a h0 hr n
  have s := recon_cycle_step (recon_after a n) (a (n + 1)) (a n) (a (n - 1))
    (hr _) (hr _) (hr _) i1 i2 i3 i4
  exact ⟨fun t x0 x1 x2 x3 x4 x5 x6 x7 ht => (cycle_recon t ht x0 x1 x2 x3 x4 x5 x6 x7).2,
    rfl, s.2.2.1, s.2.2.2.1, s.2.2.2.2.2, s.2.2.2.2.1⟩

theorem comb_integrator_invariant_witness :
    ((fun k : Nat => if k = 0 then (0 : Int) else if k % 2 = 1 then 511 else -512) 0 = 0 ∧
     (∀ k : Nat, -512 ≤ (fun k : Nat => if k = 0 then (0 : Int) else if k % 2 = 1 then 511 else -512) k
        ∧ (fun k : Nat => if k = 0 then (0 : Int) else if k % 2 = 1 then 511 else -512) k ≤ 511) ∧
     1 ≤ 2) ∧
    (recon_after (fun k : Nat => if k = 0 then (0 : Int) else if k % 2 = 1 then 511 else -512)
      2).ozi1 = 4 * (-512 - 511) ∧
    (recon_after (fun k : Nat => if k = 0 then (0 : Int) else if k % 2 = 1 then 511 else -512)
      2).ozi2 = 10 * (-512) + 6 * 511 :=
  ⟨⟨rfl, fun k => by
      by_cases h1 : k = 0
      · simp [h1]
      · by_cases h2 : k % 2 = 1
        · simp [h1, h2]
        · simp [h1, h2], by decide⟩,
   (comb_integrator_invariant
      (fun k : Nat => if k = 0 then (0 : Int) else if k % 2 = 1 then 511 else -512) rfl
      (fun k => by
        by_cases h1 : k = 0
        · simp [h1]
        · by_cases h2 : k % 2 = 1
          · simp [h1, h2]
          · simp [h1, h2]) 2 (by decide)).2.2.1,
   (comb_integrator_invariant
      (fun k : Nat => if k = 0 then (0 : Int) else if k % 2 = 1 then 511 else -512) rfl
      (fun k => by
        by_cases h1 : k = 0
        · simp [h1]
        · by_cases h2 : k % 2 = 1
          · simp [h1, h2]
          · simp [h1, h2]) 2 (by decide)).2.2.2.1⟩

/-! ## Range of the decimators -/

theorem step_p_0 (s : RECV) (a : Nat) (h : s.rxstate = 0) :
    (sample_dsp s a).prev_adc = get_adc QSDI a := by
  obtain ⟨radiomode, volume, filterbw, dg_attn, agc, rxstate, ocomb, ozi1, ozi2, hilb_i_v,
    hilb_q_v, gain, ozd1, ozd2, ac3, prev_adc, c0, c1, c2, c3, c4, c5, c6, c7, c8, c9, c10, c11,
    c12, x, OCR1AL, trace⟩ := s
  simp only at h
  subst h
  rfl

theorem step_p_1 (s : RECV) (a : Nat) (h : s.rxstate = 1) :
    (sample_dsp s a).prev_adc = s.prev_adc := by
  obtain ⟨radiomode, volume, filterbw, dg_attn, agc, rxstate, ocomb, ozi1, ozi2, hilb_i_v,
    hilb_q_v, gain, ozd1, ozd2, ac3, prev_adc, c0, c1, c2, c3, c4, c5, c6, c7, c8, c9, c10, c11,
    c12, x, OCR1AL, trace⟩ := s
  simp only at h
  subst h
  rfl

theorem step_p_2 (s : RECV) (a : Nat) (h : s.rxstate = 2) :
    (sample_dsp s a).prev_adc = get_adc QSDI a := by
  obtain ⟨radiomode, volume, filterbw, dg_attn, agc, rxstate, ocomb, ozi1, ozi2, hilb_i_v,
    hilb_q_v, gain, ozd1, ozd2, ac3, prev_adc, c0, c1, c2, c3, c4, c5, c6, c7, c8, c9, c10, c11,
    c12, x, OCR1AL, trace⟩ := s
  simp only at h
  subst h
  rfl

theorem step_p_3 (s : RECV) (a : Nat) (h : s.rxstate = 3) :
    (sample_dsp s a).prev_adc = s.prev_adc := by
  obtain ⟨radiomode, volume, filterbw, dg_attn, agc, rxstate, ocomb, ozi1, ozi2, hilb_i_v,
    hilb_q_v, gain, ozd1, ozd2, ac3, prev_adc, c0, c1, c2, c3, c4, c5, c6, c7, c8, c9, c10, c11,
    c12, x, OCR1AL, trace⟩ := s
  simp only at h
  subst h
  rfl

theorem step_p_4 (s : RECV) (a : Nat) (h : s.rxstate = 4) :
    (sample_dsp s a).prev_adc = get_adc QSDI a := by
  obtain ⟨radiomode, volume, filterbw, dg_attn, agc, rxstate, ocomb, ozi1, ozi2, hilb_i_v,
    hilb_q_v, gain, ozd1, ozd2, ac3, prev_adc, c0, c1, c2, c3, c4, c5, c6, c7, c8, c9, c10, c11,
    c12, x, OCR1AL, trace⟩ := s
  simp only at h
  subst h
  rfl

theorem step_p_5 (s : RECV) (a : Nat) (h : s.rxstate = 5) :
    (sample_dsp s a).prev_adc = s.prev_adc := by
  obtain ⟨radiomode, volume, filterbw, dg_attn, agc, rxstate, ocomb, ozi1, ozi2, hilb_i_v,
    hilb_q_v, gain, ozd1, ozd2, ac3, prev_adc, c0, c1, c2, c3, c4, c5, c6, c7, c8, c9, c10, c11,
    c12, x, OCR1AL, trace⟩ := s
  simp only at h
  subst h
  rfl

theorem step_p_6 (s : RECV) (a : Nat) (h : s.rxstate = 6) :
    (sample_dsp s a).prev_adc = get_adc QSDI a := by
  obtain ⟨radiomode, volume, filterbw, dg_attn, agc, rxstate, ocomb, ozi1, ozi2, hilb_i_v,
    hilb_q_v, gain, ozd1, ozd2, ac3, prev_adc, c0, c1, c2, c3, c4, c5, c6, c7, c8, c9, c10, c11,
    c12, x, OCR1AL, trace⟩ := s
  simp only at h
  subst h
  rfl

theorem step_p_7 (s : RECV) (a : Nat) (h : s.rxstate = 7) :
    (sample_dsp s a).prev_adc = s.prev_adc := by
  obtain ⟨radiomode, volume, filterbw, dg_attn, agc, rxstate, ocomb, ozi1, ozi2, hilb_i_v,
    hilb_q_v, gain, ozd1, ozd2, ac3, prev_adc, c0, c1, c2, c3, c4, c5, c6, c7, c8, c9, c10, c11,
    c12, x, OCR1AL, trace⟩ := s
  simp only at h
  subst h
  rfl

theorem stage1_rng (x0 x1 x2 x3 : Int) (h0 : -511 ≤ x0 ∧ x0 ≤ 512) (h1 : -511 ≤ x1 ∧ x1 ≤ 512)
    (h2 : -511 ≤ x2 ∧ x2 ≤ 512) (h3 : -511 ≤ x3 ∧ x3 ≤ 512) :
    -2044 ≤ sar (i16 (x0 + (x1 + x2) * 3 + x3)) 1 ∧ sar (i16 (x0 + (x1 + x2) * 3 + x3)) 1 ≤ 2048 := by
  rw [i16_of_range _ (by omega) (by omega)]
  unfold sar
  omega

theorem stage2_rng (s0 s1 s2 s3 : Int) (h0 : -2044 ≤ s0 ∧ s0 ≤ 2048)
    (h1 : -2044 ≤ s1 ∧ s1 ≤ 2048) (h2 : -2044 ≤ s2 ∧ s2 ≤ 2048) (h3 : -2044 ≤ s3 ∧ s3 ≤ 2048) :
    -16352 ≤ i16 (s0 + (s1 + s2) * 3 + s3) ∧ i16 (s0 + (s1 + s2) * 3 + s3) ≤ 16384 := by
  rw [i16_of_range _ (by omega) (by omega)]
  omega

theorem sums1_fit (x0 x1 x2 x3 : Int) (h0 : -511 ≤ x0 ∧ x0 ≤ 512) (h1 : -511 ≤ x1 ∧ x1 ≤ 512)
    (h2 : -511 ≤ x2 ∧ x2 ≤ 512) (h3 : -511 ≤ x3 ∧ x3 ≤ 512) :
    ∀ v ∈ sums_1331 x0 x1 x2 x3, fits16 v := by
  intro v hv
  simp only [sums_1331, List.mem_cons, List.mem_singleton, List.not_mem_nil, or_false] at hv
  unfold fits16
  omega

theorem sums2_fit (s0 s1 s2 s3 : Int) (h0 : -2044 ≤ s0 ∧ s0 ≤ 2048)
    (h1 : -2044 ≤ s1 ∧ s1 ≤ 2048) (h2 : -2044 ≤ s2 ∧ s2 ≤ 2048) (h3 : -2044 ≤ s3 ∧ s3 ≤ 2048) :
    ∀ v ∈ sums_1331 s0 s1 s2 s3, fits16 v := by
  intro v hv
  simp only [sums_1331, List.mem_cons, List.mem_singleton, List.not_mem_nil, or_false] at hv
  unfold fits16
  omega

theorem step_dec (s : RECV) (a : Nat) (h : s.rxstate ≤ 7) (hi : dec_inv s) (ha : a ≤ 1023) :
    dec_inv (sample_dsp s a) := by
  obtain ⟨hp, h0, h1, h2, h6, h7, h8, h3, h4, h5, h9, h10, h11, h12⟩ := hi
  have gi := (get_adc_range QSDI a ha).2
  have gq := (get_adc_range QSDQ a ha).2
  have hc : s.rxstate = 0 ∨ s.rxstate = 1 ∨ s.rxstate = 2 ∨ s.rxstate = 3 ∨ s.rxstate = 4 ∨
      s.rxstate = 5 ∨ s.rxstate = 6 ∨ s.rxstate = 7 := by omega
  rcases hc with e | e | e | e | e | e | e | e
  · obtain ⟨_, n0, n1, n2, n3, n4, n5, n6, n7, n8, n9, n10, n11, n12⟩ := step_c_0 s a e
    have np := step_p_0 s a e
    unfold dec_inv
    rw [n0, n1, n2, n3, n4, n5, n6, n7, n8, n9, n10, n11, n12, np]
    refine ⟨?_, ?_, ?_, ?_, ?_, ?_, ?_, ?_, ?_, ?_, ?_, ?_, ?_, ?_⟩ <;>
      first
        | assumption
        | exact stage1_rng _ _ _ _ (by assumption) (by assumption) (by assumption)
            (by assumption)
  · obtain ⟨_, n0, n1, n2, n3, n4, n5, n6, n7, n8, n9, n10, n11, n12⟩ := step_c_1 s a e
    have np := step_p_1 s a e
    unfold dec_inv
    rw [n0, n1, n2, n3, n4, n5, n6, n7, n8, n9, n10, n11, n12, np]
    refine ⟨?_, ?_, ?_, ?_, ?_, ?_, ?_, ?_, ?_, ?_, ?_, ?_, ?_, ?_⟩ <;> assumption
  · obtain ⟨_, n0, n1, n2, n3, n4, n5, n6, n7, n8, n9, n10, n11, n12⟩ := step_c_2 s a e
    have np := step_p_2 s a e
    unfold dec_inv
    rw [n0, n1, n2, n3, n4, n5, n6, n7, n8, n9, n10, n11, n12, np]
    refine ⟨?_, ?_, ?_, ?_, ?_, ?_, ?_, ?_, ?_, ?_, ?_, ?_, ?_, ?_⟩ <;> assumption
  · obtain ⟨_, n0, n1, n2, n3, n4, n5, n6, n7, n8, n9, n10, n11, n12⟩ := step_c_3 s a e
    have np := step_p_3 s a e
    unfold dec_inv
    rw [n0, n1, n2, n3, n4, n5, n6, n7, n8, n9, n10, n11, n12, np]
    refine ⟨?_, ?_, ?_, ?_, ?_, ?_, ?_, ?_, ?_, ?_, ?_, ?_, ?_, ?_⟩ <;>
      first
        | assumption
        | exact stage1_rng _ _ _ _ (by assumption) (by assumption) (by assumption)
            (by assumption)
  · obtain ⟨_, n0, n1, n2, n3, n4, n5, n6, n7, n8, n9, n10, n11, n12⟩ := step_c_4 s a e
    have np := step_p_4 s a e
    unfold dec_inv
    rw [n0, n1, n2, n3, n4, n5, n6, n7, n8, n9, n10, n11, n12, np]
    refine ⟨?_, ?_, ?_, ?_, ?_, ?_, ?_, ?_, ?_, ?_, ?_, ?_, ?_, ?_⟩ <;>
      first
        | assumption
        | exact stage1_rng _ _ _ _ (by assumption) (by assumption) (by assumption)
            (by assumption)
  · obtain ⟨_, n0, n1, n2, n3, n4, n5, n6, n7, n8, n9, n10, n11, n12⟩ := step_c_5 s a e
    have np := step_p_5 s a e
    unfold dec_inv
    rw [n0, n1, n2, n3, n4, n5, n6, n7, n8, n9, n10, n11, n12, np]
    refine ⟨?_, ?_, ?_, ?_, ?_, ?_, ?_, ?_, ?_, ?_, ?_, ?_, ?_, ?_⟩ <;> assumption
  · obtain ⟨_, n0, n1, n2, n3, n4, n5, n6, n7, n8, n9, n10, n11, n12⟩ := step_c_6 s a e
    have np := step_p_6 s a e
    unfold dec_inv
    rw [n0, n1, n2, n3, n4, n5, n6, n7, n8, n9, n10, n11, n12, np]
    refine ⟨?_, ?_, ?_, ?_, ?_, ?_, ?_, ?_, ?_, ?_, ?_, ?_, ?_, ?_⟩ <;> assumption
  · obtain ⟨_, n0, n1, n2, n3, n4, n5, n6, n7, n8, n9, n10, n11, n12⟩ := step_c_7 s a e
    have np := step_p_7 s a e
    unfold dec_inv
    rw [n0, n1, n2, n3, n4, n5, n6, n7, n8, n9, n10, n11, n12, np]
    refine ⟨?_, ?_, ?_, ?_, ?_, ?_, ?_, ?_, ?_, ?_, ?_, ?_, ?_, ?_⟩ <;>
      first
        | assumption
        | exact stage1_rng _ _ _ _ (by assumption) (by assumption) (by assumption)
            (by assumption)
        | exact stage2_rng _ _ _ _
            (stage1_rng _ _ _ _ (by assumption) (by assumption) (by assumption) (by assumption))
            (by assumption) (by assumption) (by assumption)

theorem dsp_sums_0 (s : RECV) (a : Nat) (h : s.rxstate = 0) :
    dsp_sums s a = [(a : Int) - 511, s.prev_adc + get_adc QSDI a] ++ sums_1331 (get_adc QSDI a) s.c0 s.c1 s.c2
        ++ sums_1331 (sar (i16 (get_adc QSDI a + (s.c0 + s.c1) * 3 + s.c2)) 1) s.c3 s.c4 s.c5 := by
  obtain ⟨radiomode, volume, filterbw, dg_attn, agc, rxstate, ocomb, ozi1, ozi2, hilb_i_v,
    hilb_q_v, gain, ozd1, ozd2, ac3, prev_adc, c0, c1, c2, c3, c4, c5, c6, c7, c8, c9, c10, c11,
    c12, x, OCR1AL, trace⟩ := s
  simp only at h
  subst h
  rfl

theorem dsp_sums_1 (s : RECV) (a : Nat) (h : s.rxstate = 1) :
    dsp_sums s a = [(a : Int) - 511] := by
  obtain ⟨radiomode, volume, filterbw, dg_attn, agc, rxstate, ocomb, ozi1, ozi2, hilb_i_v,
    hilb_q_v, gain, ozd1, ozd2, ac3, prev_adc, c0, c1, c2, c3, c4, c5, c6, c7, c8, c9, c10, c11,
    c12, x, OCR1AL, trace⟩ := s
  simp only at h
  subst h
  rfl

theorem dsp_sums_2 (s : RECV) (a : Nat) (h : s.rxstate = 2) :
    dsp_sums s a = [(a : Int) - 511, s.prev_adc + get_adc QSDI a] := by
  obtain ⟨radiomode, volume, filterbw, dg_attn, agc, rxstate, ocomb, ozi1, ozi2, hilb_i_v,
    hilb_q_v, gain, ozd1, ozd2, ac3, prev_adc, c0, c1, c2, c3, c4, c5, c6, c7, c8, c9, c10, c11,
    c12, x, OCR1AL, trace⟩ := s
  simp only at h
  subst h
  rfl

theorem dsp_sums_3 (s : RECV) (a : Nat) (h : s.rxstate = 3) :
    dsp_sums s a = [(a : Int) - 511] ++ sums_1331 (get_adc QSDQ a) s.c6 s.c7 s.c8 := by
  obtain ⟨radiomode, volume, filterbw, dg_attn, agc, rxstate, ocomb, ozi1, ozi2, hilb_i_v,
    hilb_q_v, gain, ozd1, ozd2, ac3, prev_adc, c0, c1, c2, c3, c4, c5, c6, c7, c8, c9, c10, c11,
    c12, x, OCR1AL, trace⟩ := s
  simp only at h
  subst h
  rfl

theorem dsp_sums_4 (s : RECV) (a : Nat) (h : s.rxstate = 4) :
    dsp_sums s a = [(a : Int) - 511, s.prev_adc + get_adc QSDI a] ++ sums_1331 (get_adc QSDI a) s.c0 s.c1 s.c2 := by
  obtain ⟨radiomode, volume, filterbw, dg_attn, agc, rxstate, ocomb, ozi1, ozi2, hilb_i_v,
    hilb_q_v, gain, ozd1, ozd2, ac3, prev_adc, c0, c1, c2, c3, c4, c5, c6, c7, c8, c9, c10, c11,
    c12, x, OCR1AL, trace⟩ := s
  simp only at h
  subst h
  rfl

theorem dsp_sums_5 (s : RECV) (a : Nat) (h : s.rxstate = 5) :
    dsp_sums s a = [(a : Int) - 511] := by
  obtain ⟨radiomode, volume, filterbw, dg_attn, agc, rxstate, ocomb, ozi1, ozi2, hilb_i_v,
    hilb_q_v, gain, ozd1, ozd2, ac3, prev_adc, c0, c1, c2, c3, c4, c5, c6, c7, c8, c9, c10, c11,
    c12, x, OCR1AL, trace⟩ := s
  simp only at h
  subst h
  rfl

theorem dsp_sums_6 (s : RECV) (a : Nat) (h : s.rxstate = 6) :
    dsp_sums s a = [(a : Int) - 511, s.prev_adc + get_adc QSDI a] := by
  obtain ⟨radiomode, volume, filterbw, dg_attn, agc, rxstate, ocomb, ozi1, ozi2, hilb_i_v,
    hilb_q_v, gain, ozd1, ozd2, ac3, prev_adc, c0, c1, c2, c3, c4, c5, c6, c7, c8, c9, c10, c11,
    c12, x, OCR1AL, trace⟩ := s
  simp only at h
  subst h
  rfl

theorem dsp_sums_7 (s : RECV) (a : Nat) (h : s.rxstate = 7) :
    dsp_sums s a = [(a : Int) - 511] ++ sums_1331 (get_adc QSDQ a) s.c6 s.c7 s.c8
        ++ sums_1331 (sar (i16 (get_adc QSDQ a + (s.c6 + s.c7) * 3 + s.c8)) 1) s.c9 s.c10 s.c11 := by
  obtain ⟨radiomode, volume, filterbw, dg_attn, agc, rxstate, ocomb, ozi1, ozi2, hilb_i_v,
    hilb_q_v, gain, ozd1, ozd2, ac3, prev_adc, c0, c1, c2, c3, c4, c5, c6, c7, c8, c9, c10, c11,
    c12, x, OCR1AL, trace⟩ := s
  simp only at h
  subst h
  rfl

theorem dsp_sums_fit (s : RECV) (a : Nat) (hi : dec_inv s) (ha : a ≤ 1023) :
    ∀ v ∈ dsp_sums s a, fits16 v := by
  obtain ⟨hp, h0, h1, h2, h6, h7, h8, h3, h4, h5, h9, h10, h11, h12⟩ := hi
  have gi := (get_adc_range QSDI a ha).2
  have gq := (get_adc_range QSDQ a ha).2
  intro v hv
  by_cases h : s.rxstate ≤ 7
  · have hc : s.rxstate = 0 ∨ s.rxstate = 1 ∨ s.rxstate = 2 ∨ s.rxstate = 3 ∨ s.rxstate = 4 ∨
        s.rxstate = 5 ∨ s.rxstate = 6 ∨ s.rxstate = 7 := by omega
    rcases hc with e | e | e | e | e | e | e | e
    · rw [dsp_sums_0 s a e] at hv
      simp only [List.mem_append, List.mem_cons, List.mem_singleton, List.not_mem_nil,
        or_false] at hv
      rcases hv with ((h | h) | h) | h
      · subst h; unfold fits16; omega
      · subst h; unfold fits16; omega
      · exact sums1_fit _ _ _ _ gi h0 h1 h2 v h
      · exact sums2_fit _ _ _ _ (stage1_rng _ _ _ _ gi h0 h1 h2) h3 h4 h5 v h
    · rw [dsp_sums_1 s a e] at hv
      simp only [List.mem_append, List.mem_cons, List.mem_singleton, List.not_mem_nil,
        or_false] at hv
      subst hv; unfold fits16; omega
    · rw [dsp_sums_2 s a e] at hv
      simp only [List.mem_append, List.mem_cons, List.mem_singleton, List.not_mem_nil,
        or_false] at hv
      rcases hv with h | h
      · subst h; unfold fits16; omega
      · subst h; unfold fits16; omega
    · rw [dsp_sums_3 s a e] at hv
      simp only [List.mem_append, List.mem_cons, List.mem_singleton, List.not_mem_nil,
        or_false] at hv
      rcases hv with h | h
      · subst h; unfold fits16; omega
      · exact sums1_fit _ _ _ _ gq h6 h7 h8 v h
    · rw [dsp_sums_4 s a e] at hv
      simp only [List.mem_append, List.mem_cons, List.mem_singleton, List.not_mem_nil,
        or_false] at hv
      rcases hv with (h | h) | h
      · subst h; unfold fits16; omega
      · subst h; unfold fits16; omega
      · exact sums1_fit _ _ _ _ gi h0 h1 h2 v h
    · rw [dsp_sums_5 s a e] at hv
      simp only [List.mem_append, List.mem_cons, List.mem_singleton, List.not_mem_nil,
        or_false] at hv
      subst hv; unfold fits16; omega
    · rw [dsp_sums_6 s a e] at hv
      simp only [List.mem_append, List.mem_cons, List.mem_singleton, List.not_mem_nil,
        or_false] at hv
      rcases hv with h | h
      · subst h; unfold fits16; omega
      · subst h; unfold fits16; omega
    · rw [dsp_sums_7 s a e] at hv
      simp only [List.mem_append, List.mem_cons, List.mem_singleton, List.not_mem_nil,
        or_false] at hv
      rcases hv with (h | h) | h
      · subst h; unfold fits16; omega
      · exact sums1_fit _ _ _ _ gq h6 h7 h8 v h
      · exact sums2_fit _ _ _ _ (stage1_rng _ _ _ _ gq h6 h7 h8) h9 h10 h11 v h
  · have e : dsp_sums s a = [] := by
      unfold dsp_sums
      simp only []
      split_ifs <;> first | omega | rfl
    rw [e] at hv
    exact absurd hv (List.not_mem_nil _)

theorem step_args (s : RECV) (a : Nat) (h : s.rxstate ≤ 7) (hi : dec_inv s)
    (hb : process_args_bounded s) (ha : a ≤ 1023) : process_args_bounded (sample_dsp s a) := by
  obtain ⟨hp, h0, h1, h2, h6, h7, h8, h3, h4, h5, h9, h10, h11, h12⟩ := hi
  have gi := (get_adc_range QSDI a ha).2
  intro i q hm
  rw [sample_dsp_trace] at hm
  rcases List.mem_append.mp hm with k | k
  · exact hb i q k
  · rw [call_events_eq s a h] at k
    by_cases e0 : s.rxstate = 0
    · rw [if_pos e0] at k
      simp at k
      obtain ⟨ki, kq⟩ := k
      rw [ki, kq]
      exact ⟨stage2_rng _ _ _ _ (stage1_rng _ _ _ _ gi h0 h1 h2) h3 h4 h5, h12⟩
    · rw [if_neg e0] at k
      split_ifs at k <;> simp at k

theorem run_dec (adcs : List Nat) : ∀ s : RECV, s.rxstate ≤ 7 → dec_inv s →
    process_args_bounded s → (∀ a ∈ adcs, a ≤ 1023) →
    (run s adcs).rxstate ≤ 7 ∧ dec_inv (run s adcs) ∧ process_args_bounded (run s adcs) := by
  induction adcs with
  | nil => intro s h hi hb _; exact ⟨h, hi, hb⟩
  | cons a rest ih =>
    intro s h hi hb hr
    have ha : a ≤ 1023 := hr a (List.mem_cons_self _ _)
    have h1 : (sample_dsp s a).rxstate ≤ 7 := by
      rw [sample_dsp_rxstate s a h]
      omega
    exact ih (sample_dsp s a) h1 (step_dec s a h hi ha) (step_args s a h hi hb ha)
      (fun b hb2 => hr b (List.mem_cons_of_mem _ hb2))

theorem init_dec (radiomode volume filterbw dg_attn agc : Nat) :
    (RECV.init radiomode volume filterbw dg_attn agc).rxstate ≤ 7 ∧
    dec_inv (RECV.init radiomode volume filterbw dg_attn agc) ∧
    process_args_bounded (RECV.init radiomode volume filterbw dg_attn agc) := by
  refine ⟨Nat.zero_le _, ?_, ?_⟩
  · unfold dec_inv
    simp only [RECV.init]
    decide
  · intro i q h
    exact absurd h (List.not_mem_nil _)

/-- C24: the decimators never overflow 16-bit arithmetic. From the cold-start
state and for every sequence of ADC readings in 0..1023 (samples `ADC - 511` in
[-511, 512], the range of `get_adc`): the branch samples stay in [-511, 512],
every stage-1 value in [-2044, 2048] and the decimated Q value in
[-16352, 16384]; every sum the decimator code of the next `sample_dsp` call
forms fits `int16_t`; and every decimated I and Q value passed to `process`
lies in [-16352, 16384]. -/
theorem decimators_never_overflow (radiomode volume filterbw dg_attn agc : Nat)
    (adcs : List Nat) (hr : ∀ a ∈ adcs, a ≤ 1023) (a : Nat) (ha : a ≤ 1023) :
    (-511 ≤ get_adc QSDI a ∧ get_adc QSDI a ≤ 512) ∧
    (-511 ≤ get_adc QSDQ a ∧ get_adc QSDQ a ≤ 512) ∧
    dec_inv (run (RECV.init radiomode volume filterbw dg_attn agc) adcs) ∧
    (∀ v ∈ dsp_sums (run (RECV.init radiomode volume filterbw dg_attn agc) adcs) a, fits16 v) ∧
    process_args_bounded (run (RECV.init radiomode volume filterbw dg_attn agc) (adcs ++ [a])) := by
  obtain ⟨i1, i2, i3⟩ := init_dec radiomode volume filterbw dg_attn agc
  obtain ⟨r1, r2, _⟩ := run_dec adcs _ i1 i2 i3 hr
  have hr2 : ∀ b ∈ adcs ++ [a], b ≤ 1023 := by
    intro b hb
    rcases List.mem_append.mp hb with k | k
    · exact hr b k
    · rw [List.mem_singleton.mp k]; exact ha
  exact ⟨(get_adc_range QSDI a ha).2, (get_adc_range QSDQ a ha).2, r2,
    dsp_sums_fit _ a r2 ha, (run_dec (adcs ++ [a]) _ i1 i2 i3 hr2).2.2⟩

theorem decimators_never_overflow_witness :
    ((∀ a ∈ [1023, 1023, 0, 1023, 1023, 0, 1023, 1023], a ≤ 1023) ∧ 1023 ≤ 1023) ∧
    dec_inv (run (RECV.init USB 16 BWFULL 0 FAST) [1023, 1023, 0, 1023, 1023, 0, 1023, 1023]) ∧
    (∀ v ∈ dsp_sums (run (RECV.init USB 16 BWFULL 0 FAST)
        [1023, 1023, 0, 1023, 1023, 0, 1023, 1023]) 1023, fits16 v) :=
  ⟨⟨by decide, by decide⟩,
   (decimators_never_overflow USB 16 BWFULL 0 FAST [1023, 1023, 0, 1023, 1023, 0, 1023, 1023]
      (by decide) 1023 (by decide)).2.2.1,
   (decimators_never_overflow USB 16 BWFULL 0 FAST [1023, 1023, 0, 1023, 1023, 0, 1023, 1023]
      (by decide) 1023 (by decide)).2.2.2.1⟩

end HFReceiver
